import Mathlib

/-!
# TaskFlow: authentication gateway and owner scoping of the task routes

A shallow embedding of the back end of the repository (`backend/middleware/auth.js`,
`backend/routes/tasks.js`, `backend/routes/user.js`, `backend/routes/auth.js`), of the
parts of the client that talk to it (`frontend/lib/api.js`,
`frontend/context/AuthContext.js`, `frontend/components/TaskModal.jsx`,
`filterAndSortTasks` of the tasks page) and the properties the specification states
about them.

Conventions of the embedding.

* A JavaScript value that may be `undefined` (or `null`) is an `Option`; a JavaScript
  string is a `String`, and the string primitives used by the code (`startsWith`,
  `split`, truthiness) are defined below on the list of characters.
* An `async` function that may throw returns an `Except`; a `try`/`catch` is a `match`
  on it.
* What a middleware does to the outside world is recorded as a list of `Effect`s in
  program order (calls of the token library, of the credential store, of `next()`,
  and responses written). Server-side logging (`console.error`) is not recorded.
* The token library (`jsonwebtoken`) and the credential store (`User`) are parameters of
  `protect`: nothing is assumed about them except where a theorem says so.
* `serve` is the application as a whole for the three mounted routers: the route is
  chosen by `appDispatch` and its chain (gateway, validator chains, final handler) runs
  on the request. The health check of `server.js`, the body parser and the error
  middleware are outside the model.
-/

namespace TaskFlow

deriving instance DecidableEq for Except

/-! ## JavaScript string primitives -/

/-- JavaScript truthiness of a value that is `undefined` or a string: only a non-empty
string is truthy. -/
def truthy : Option String → Bool
  | none => false
  | some s => s ≠ ""

/-- The method `s.startsWith(p)`. -/
def startsWith (s p : String) : Bool :=
  p.data.isPrefixOf s.data

/-- Splitting of a list of characters at every occurrence of `sep`, as `split` does for a
one-character separator: the result is never empty and keeps empty pieces. -/
def splitChars (sep : Char) : List Char → List (List Char)
  | [] => [[]]
  | c :: cs =>
    match splitChars sep cs with
    | [] => [[c]]
    | w :: ws => if c = sep then [] :: w :: ws else (c :: w) :: ws

/-- The method `s.split(sep)` for a one-character separator. -/
def split (s : String) (sep : Char) : List String :=
  (splitChars sep s.data).map String.mk

/-! ## Data model -/

/-- Modelled from the spec: the `User` model (`backend/models/User.js`) is not among the
sources. A user record has an identifier, a name, an email, a password stored as a hash
and a creation time; `password` is `none` on a record selected without it. -/
structure User where
  _id : String
  name : String
  email : String
  password : Option String
  createdAt : Nat
  deriving DecidableEq, Repr

/-- The getter `user.id`: the identifier as a string. -/
def User.id (u : User) : String := u._id

/-- The projection `.select("-password")` of a user query. -/
def User.selectWithoutPassword (u : User) : User :=
  { u with password := none }

/-- The payload `decoded` returned by a successful `jwt.verify`; `decoded.id` may be
`undefined`. -/
structure Decoded where
  id : Option String
  deriving DecidableEq, Repr

/-- The ways `jwt.verify` throws. -/
inductive JwtError
  | malformed
  | invalidSignature
  | expired
  deriving DecidableEq, Repr

/-- One error reported by a validator chain. -/
structure ValidationError where
  path : String
  msg : String
  value : Option String
  deriving DecidableEq, Repr

/-- Modelled from the spec: the `Task` model (`backend/models/Task.js`) is not among the
sources. A task has an identifier, a title, an optional description, a status, a
priority, the identifier of its owner and creation and update times. -/
structure Task where
  _id : String
  title : String
  description : Option String
  status : String
  priority : String
  userId : String
  createdAt : Nat
  updatedAt : Nat
  deriving DecidableEq, Repr

/-- A value inside the `data` object of a response of the auth and user routes. -/
inductive Scalar
  | str (s : String)
  | num (n : Nat)
  deriving DecidableEq, Repr

/-- A value of a field of a JSON response body. `groups` is the result of the
aggregation of the stats handler (one `{ _id, count }` per status) and `obj` an object
of scalar fields. -/
inductive Val
  | bool (b : Bool)
  | num (n : Nat)
  | str (s : String)
  | task (t : Task)
  | tasks (ts : List Task)
  | errors (es : List ValidationError)
  | groups (gs : List (String × Nat))
  | obj (fields : List (String × Scalar))
  deriving DecidableEq, Repr

/-- A response: the status set by `res.status(..)` (200 when `res.json` is called
directly) and the fields of the JSON body in the order the source writes them. -/
structure Response where
  status : Nat
  body : List (String × Val)
  deriving DecidableEq, Repr

/-- The value of field `k` of a response body, if the body has it. -/
def Response.field (r : Response) (k : String) : Option Val :=
  r.body.lookup k

/-- A value of `req.query` as the query parser delivers it: a string for a key given
once, an array of strings for a key given several times (`?status=a&status=b`), and an
object for a key written with brackets (`?status[$ne]=a`), here with string values. -/
inductive QueryValue
  | str (s : String)
  | list (items : List String)
  | object (fields : List (String × String))
  deriving DecidableEq, Repr

/-- JavaScript truthiness of a query value: a string is truthy when it is not empty, an
array and an object always, whatever they hold. -/
def QueryValue.truthy : QueryValue → Bool
  | .str s => s ≠ ""
  | .list _ => true
  | .object _ => true

/-- JavaScript truthiness of a query parameter that may be `undefined`. -/
def queryTruthy : Option QueryValue → Bool
  | none => false
  | some v => v.truthy

/-- The request object, as far as the back end reads or writes it. `user` is
`req.user` and `userId` is `req.userId`; `taskIds` is `req.body.taskIds`, a list of task
identifiers, `body` holds the string-valued fields of `req.body` and `query` the
parameters of the query string. -/
structure Req where
  authorization : Option String
  paramsId : String
  query : String → Option QueryValue
  body : String → Option String
  taskIds : List String
  user : Option User
  userId : Option String
  validationErrors : List ValidationError

/-- A request as it enters the first middleware: nothing has assigned `req.user`,
`req.userId` or a validation error yet. -/
def Req.incoming (authorization : Option String) (paramsId : String)
    (query : String → Option QueryValue) (body : String → Option String)
    (taskIds : List String) : Req :=
  { authorization := authorization, paramsId := paramsId, query := query, body := body,
    taskIds := taskIds, user := none, userId := none, validationErrors := [] }

/-- What a middleware does, in program order. -/
inductive Effect
  | verify (token : Option String)
  | findById (id : Option String)
  | next
  | respond (r : Response)
  deriving DecidableEq, Repr

/-- The responses written, in order. -/
def responses : List Effect → List Response
  | [] => []
  | .respond r :: es => r :: responses es
  | _ :: es => responses es

/-- Number of calls of `next()`. -/
def nextCalls (es : List Effect) : Nat :=
  es.count .next

/-- Whether the token library was called. -/
def verifyCalled : List Effect → Bool
  | [] => false
  | .verify _ :: _ => true
  | _ :: es => verifyCalled es

/-- Whether the credential store was queried. -/
def storeQueried : List Effect → Bool
  | [] => false
  | .findById _ :: _ => true
  | _ :: es => storeQueried es

/-! ## The gateway `protect` (backend/middleware/auth.js) -/

/-- Response of `protect` when no token was extracted. -/
def noTokenResponse : Response :=
  { status := 401,
    body := [("success", .bool false), ("message", .str "Not authorized, no token")] }

/-- Response of the `catch` branch of `protect`. -/
def forbiddenResponse : Response :=
  { status := 403,
    body := [("success", .bool false),
             ("message", .str "Forbidden: Invalid or expired token")] }

/-- Response of `protect` when the store has no user for the decoded id. -/
def userNotFoundResponse : Response :=
  { status := 401, body := [("success", .bool false), ("message", .str "User not found")] }

/-- The guard of `protect`: `req.headers.authorization &&
req.headers.authorization.startsWith("Bearer")`. -/
def hasBearer (authorization : Option String) : Bool :=
  match authorization with
  | none => false
  | some h => truthy (some h) && startsWith h "Bearer"

/-- The expression `req.headers.authorization.split(" ")[1]`. -/
def bearerToken (h : String) : Option String :=
  (split h ' ')[1]?

/-- The middleware `protect`. `verify` is `jwt.verify(·, secret)` and `findById` is the
query `User.findById(·)`; both may throw. The result is the request as the middleware
leaves it and the effects in program order. -/
def protect (verify : Option String → Except JwtError Decoded)
    (findById : Option String → Except String (Option User)) (req : Req) :
    Req × List Effect :=
  match req.authorization with
  | none => (req, [.respond noTokenResponse])
  | some h =>
    if hasBearer (some h) then
      let token := bearerToken h
      match verify token with
      | .error _ => (req, [.verify token, .respond forbiddenResponse])
      | .ok decoded =>
        match findById decoded.id with
        | .error _ =>
          (req, [.verify token, .findById decoded.id, .respond forbiddenResponse])
        | .ok found =>
          let req1 := { req with user := found.map User.selectWithoutPassword }
          match req1.user with
          | none =>
            (req1, [.verify token, .findById decoded.id, .respond userNotFoundResponse])
          | some _ =>
            if truthy token then
              (req1, [.verify token, .findById decoded.id, .next])
            else
              (req1, [.verify token, .findById decoded.id, .next,
                      .respond noTokenResponse])
    else
      (req, [.respond noTokenResponse])

/-! ## Routing (backend/server.js and the three routers) -/

/-- The HTTP methods the routers register. -/
inductive Method
  | GET
  | POST
  | PUT
  | DELETE
  deriving DecidableEq, Repr

/-- The final handler of a route, named after what it does. -/
inductive Handler
  | register
  | login
  | logout
  | getProfile
  | updateProfile
  | listTasks
  | getTask
  | createTask
  | updateTask
  | deleteTask
  | batchDelete
  | stats
  deriving DecidableEq, Repr

/-- One entry of a route's chain: the gateway, a validator chain `body(field)...`, or
the final handler. -/
inductive Middleware
  | protect
  | validator (field : String)
  | handler (h : Handler)
  deriving DecidableEq, Repr

/-- A registered route: `router.METHOD(path, ...chain)`, with arrays of middleware
flattened as the framework does. -/
structure Route where
  method : Method
  path : String
  chain : List Middleware
  deriving DecidableEq, Repr

/-- The router of `backend/routes/auth.js`, in registration order. -/
def authRouter : List Route :=
  [ { method := .POST, path := "/register",
      chain := [.validator "name", .validator "email", .validator "password",
                .handler .register] },
    { method := .POST, path := "/login",
      chain := [.validator "email", .validator "password", .handler .login] },
    { method := .POST, path := "/logout", chain := [.protect, .handler .logout] } ]

/-- The router of `backend/routes/user.js`, in registration order. -/
def userRouter : List Route :=
  [ { method := .GET, path := "/profile", chain := [.protect, .handler .getProfile] },
    { method := .PUT, path := "/profile",
      chain := [.protect, .validator "name", .validator "email",
                .handler .updateProfile] } ]

/-- The router of `backend/routes/tasks.js`, in registration order. -/
def tasksRouter : List Route :=
  [ { method := .GET, path := "/", chain := [.protect, .handler .listTasks] },
    { method := .GET, path := "/:id", chain := [.protect, .handler .getTask] },
    { method := .POST, path := "/",
      chain := [.protect, .validator "title", .validator "description",
                .validator "status", .validator "priority", .handler .createTask] },
    { method := .PUT, path := "/:id",
      chain := [.protect, .validator "title", .validator "description",
                .validator "status", .validator "priority", .handler .updateTask] },
    { method := .DELETE, path := "/:id", chain := [.protect, .handler .deleteTask] },
    { method := .DELETE, path := "/batch", chain := [.protect, .handler .batchDelete] },
    { method := .GET, path := "/stats", chain := [.protect, .handler .stats] } ]

/-- The mounts of `backend/server.js`, in registration order. -/
def appMounts : List (String × List Route) :=
  [("/api/auth", authRouter), ("/api/user", userRouter), ("/api/tasks", tasksRouter)]

/-- The routes the specification lists as authenticated: every route of the tasks and
user routers, and `POST /logout` of the auth router. -/
def authenticatedRoutes : List Route :=
  tasksRouter ++ userRouter ++
    authRouter.filter (fun r => r.method = .POST && r.path = "/logout")

/-- The non-empty segments of a path. -/
def segments (path : String) : List String :=
  (split path '/').filter (fun s => s ≠ "")

/-- Whether two path segments are the same up to the case of the letters A to Z: the
application and its routers are created with the default options, under which paths are
matched without regard to case. -/
def sameIgnoringCase (a b : String) : Bool :=
  a.data.map Char.toLower = b.data.map Char.toLower

/-- Whether one segment of a route path matches one segment of a request path: a
segment `:name` matches every (non-empty) segment, any other segment matches itself up to
letter case. -/
def segMatches (pat seg : String) : Bool :=
  if startsWith pat ":" then true else sameIgnoringCase pat seg

/-- Whether the segments of a route path match those of a request path. -/
def segsMatch : List String → List String → Bool
  | [], [] => true
  | p :: ps, u :: us => segMatches p u && segsMatch ps us
  | _, _ => false

/-- Whether a route serves a request: same method and matching path. -/
def Route.serves (r : Route) (m : Method) (url : String) : Bool :=
  r.method = m && segsMatch (segments r.path) (segments url)

/-- Dispatch inside a router: routes are tried in registration order and the first
one that serves the request runs; no final handler of these routers calls `next()`, so
no later route is tried after it. -/
def dispatch (routes : List Route) (m : Method) (url : String) : Option Route :=
  routes.find? (fun r => r.serves m url)

/-- Whether the segments of a mount point are, up to letter case, the first segments of
a request path. -/
def mountMatches : List String → List String → Bool
  | [], _ => true
  | _ :: _, [] => false
  | m :: ms, u :: us => sameIgnoringCase m u && mountMatches ms us

/-- The rest of a request path below a mount point, when the path lies below it. -/
def belowMount (mount url : String) : Option String :=
  if mountMatches (segments mount) (segments url) then
    some ("/" ++ "/".intercalate ((segments url).drop (segments mount).length))
  else none

/-- Dispatch of the application: the first mount whose router serves the request. -/
def appDispatch (mounts : List (String × List Route)) (m : Method) (url : String) :
    Option Route :=
  match mounts with
  | [] => none
  | (mount, routes) :: rest =>
    match belowMount mount url with
    | none => appDispatch rest m url
    | some sub =>
      match dispatch routes m sub with
      | some r => some r
      | none => appDispatch rest m url

/-- The middleware of a chain that execute: each one runs only when all before it
called `next()`. -/
def executed (callsNext : Middleware → Bool) : List Middleware → List Middleware
  | [] => []
  | m :: ms => m :: (if callsNext m then executed callsNext ms else [])

/-! ## Request validation (the `body(..)` chains of backend/routes/tasks.js) -/

/-- White space as the regular-expression class `\s` defines it, which `trim` removes. -/
def isJsWhitespace (c : Char) : Bool :=
  let n := c.toNat
  n = 0x20 || (0x09 ≤ n && n ≤ 0x0D) || n = 0xA0 || n = 0x1680 ||
    (0x2000 ≤ n && n ≤ 0x200A) || n = 0x2028 || n = 0x2029 || n = 0x202F ||
    n = 0x205F || n = 0x3000 || n = 0xFEFF

/-- The sanitizer `trim()`: white space removed at both ends. -/
def jsTrim (s : String) : String :=
  String.mk (((s.data.dropWhile isJsWhitespace).reverse.dropWhile isJsWhitespace).reverse)

/-- The number of UTF-16 code units of a character: two for a character outside the
basic plane, which JavaScript stores as a surrogate pair. -/
def utf16Units (c : Char) : Nat :=
  if 0x10000 ≤ c.toNat then 2 else 1

/-- The property `s.length` of a JavaScript string: its number of UTF-16 code units. -/
def utf16Length (s : String) : Nat :=
  (s.data.map utf16Units).sum

/-- Whether a character is one of the variation selectors U+FE0E and U+FE0F. -/
def isVariationSelector (c : Char) : Bool :=
  c.toNat = 0xFE0E || c.toNat = 0xFE0F

/-- The length the validator `isLength` compares with its bounds:
`str.length - presentationSequences.length - surrogatePairs.length`, where the
presentation sequences are the matches of `/(\uFE0F|\uFE0E)/g` and the surrogate pairs
the characters outside the basic plane. -/
def validatorLength (s : String) : Nat :=
  utf16Length s - (s.data.filter isVariationSelector).length -
    (s.data.filter (fun c => 0x10000 ≤ c.toNat)).length

/-- One link of a validator chain. -/
inductive Check
  | trim
  | notEmpty (msg : String)
  | isLengthMax (max : Nat) (msg : String)
  | isIn (allowed : List String) (msg : String)
  deriving DecidableEq, Repr

/-- A validator chain `body(field)`; `optional` records `.optional()`. -/
structure Chain where
  field : String
  optional : Bool
  checks : List Check
  deriving DecidableEq, Repr

/-- The string a validator sees for a value: `undefined` is seen as the empty string. -/
def asString : Option String → String
  | none => ""
  | some s => s

/-- Runs the links of a chain on the current value of the field: a sanitizer replaces
the value, a failing validator reports its message, and every link runs. -/
def runChecks (field : String) : List Check → Option String →
    Option String × List ValidationError
  | [], v => (v, [])
  | .trim :: cs, v => runChecks field cs (some (jsTrim (asString v)))
  | .notEmpty msg :: cs, v =>
    let (v1, es) := runChecks field cs v
    if asString v = "" then (v1, { path := field, msg := msg, value := v } :: es)
    else (v1, es)
  | .isLengthMax max msg :: cs, v =>
    let (v1, es) := runChecks field cs v
    if validatorLength (asString v) ≤ max then (v1, es)
    else (v1, { path := field, msg := msg, value := v } :: es)
  | .isIn allowed msg :: cs, v =>
    let (v1, es) := runChecks field cs v
    if asString v ∈ allowed then (v1, es)
    else (v1, { path := field, msg := msg, value := v } :: es)

/-- Assignment of a field of the body. -/
def setField (body : String → Option String) (k : String) (v : Option String) :
    String → Option String :=
  fun k1 => if k1 = k then v else body k1

/-- A validator chain as a middleware: an optional chain does nothing when the field is
`undefined`; otherwise the sanitized value is written back to `req.body` and the errors
are added to those of the request. It always calls `next()`. -/
def Chain.run (c : Chain) (req : Req) : Req :=
  if c.optional && (req.body c.field).isNone then req
  else
    let (v, es) := runChecks c.field c.checks (req.body c.field)
    { req with body := setField req.body c.field v,
               validationErrors := req.validationErrors ++ es }

/-- Runs validator chains in order. -/
def runChains (cs : List Chain) (req : Req) : Req :=
  cs.foldl (fun r c => c.run r) req

/-- The allowed values of `status`. -/
def statusValues : List String := ["pending", "in-progress", "completed"]

/-- The allowed values of `priority`. -/
def priorityValues : List String := ["low", "medium", "high"]

/-- The chains for `description`, `status` and `priority`, shared by POST and PUT. -/
def commonTaskChains : List Chain :=
  [ { field := "description", optional := true,
      checks := [.trim, .isLengthMax 500 "Description cannot exceed 500 characters"] },
    { field := "status", optional := true,
      checks := [.isIn statusValues "Status must be pending, in-progress, or completed"] },
    { field := "priority", optional := true,
      checks := [.isIn priorityValues "Priority must be low, medium, or high"] } ]

/-- The validator chains of `POST /`. -/
def createTaskChains : List Chain :=
  { field := "title", optional := false,
    checks := [.trim, .notEmpty "Title is required",
               .isLengthMax 100 "Title cannot exceed 100 characters"] } :: commonTaskChains

/-- The validator chains of `PUT /:id`. -/
def updateTaskChains : List Chain :=
  { field := "title", optional := true,
    checks := [.trim, .notEmpty "Title cannot be empty",
               .isLengthMax 100 "Title cannot exceed 100 characters"] } :: commonTaskChains

/-! ## The task store -/

/-- Constraint of a filter on `_id`. -/
inductive IdCond
  | any
  | eq (id : String)
  | isIn (ids : List String)
  deriving DecidableEq, Repr

/-- Constraint of a filter on `userId`: the key is absent (`any`), or present with the
value `undefined`, or present with a string. -/
inductive OwnerCond
  | any
  | undefined
  | eq (id : String)
  deriving DecidableEq, Repr

/-- One alternative `{ field: { $regex: pattern, $options: options } }` of `$or`; the
pattern is the value the handler copies from the query string. -/
structure RegexCond where
  field : String
  pattern : QueryValue
  options : String
  deriving DecidableEq, Repr

/-- A filter object handed to the task store. `status` and `priority`, when present,
hold the value the handler copies from the query string. -/
structure TaskFilter where
  _id : IdCond
  userId : OwnerCond
  status : Option QueryValue
  priority : Option QueryValue
  or : Option (List RegexCond)
  deriving DecidableEq, Repr

/-- The object handed to `Task.create`. -/
structure NewTask where
  title : Option String
  description : Option String
  status : Option String
  priority : Option String
  userId : Option String
  deriving DecidableEq, Repr

/-- The operations of the task store. -/
inductive OpKind
  | find
  | findOne
  | create
  | save
  | deleteOne
  | deleteMany
  | countDocuments
  | aggregate
  deriving DecidableEq, Repr

/-- Modelled from the spec: the task store behind the `Task` model, which is not among
the sources. `docs` are the stored tasks; `faults` lists the operations that currently
reject, each with its error message (an unexpected failure of the database). -/
structure TaskStore where
  docs : List Task
  faults : List (OpKind × String)
  deriving DecidableEq, Repr

/-- A call of the task store, with its argument. -/
inductive StoreCall
  | find (f : TaskFilter) (sort : List (String × Int))
  | findOne (f : TaskFilter)
  | create (r : NewTask)
  | save (t : Task)
  | deleteOne (f : TaskFilter)
  | deleteMany (f : TaskFilter)
  | countDocuments (f : TaskFilter)
  | aggregate (f : TaskFilter)
  deriving DecidableEq, Repr

/-- Whether a task satisfies the `_id` constraint. -/
def IdCond.holds (c : IdCond) (t : Task) : Bool :=
  match c with
  | .any => true
  | .eq id => t._id = id
  | .isIn ids => t._id ∈ ids

/-- Modelled from the spec: whether a task satisfies the `userId` constraint. A key
whose value is `undefined` reaches the database as `null`, which selects only documents
without an owner; every task has exactly one owner, so no task satisfies it. -/
def OwnerCond.holds (c : OwnerCond) (t : Task) : Bool :=
  match c with
  | .any => true
  | .undefined => false
  | .eq id => t.userId = id

/-- The text of a field of a task that a regular-expression filter reads. -/
def Task.text (t : Task) (field : String) : Option String :=
  if field = "title" then some t.title
  else if field = "description" then t.description
  else none

/-- The query operators on a string field that the model of the store knows. -/
def knownOperators : List String := ["$eq", "$ne", "$gt", "$gte", "$lt", "$lte"]

/-- Modelled from the spec: whether a text satisfies one query operator with a string
argument. -/
def operatorHolds (op arg text : String) : Bool :=
  if op = "$eq" then text = arg
  else if op = "$ne" then text ≠ arg
  else if op = "$gt" then arg < text
  else if op = "$gte" then arg ≤ text
  else if op = "$lt" then text < arg
  else if op = "$lte" then text ≤ arg
  else false

/-- Modelled from the spec: whether the text of a string field satisfies a value of a
filter, as the store reads the value: a string selects the texts equal to it, an array
the texts among its items (it is read as `$in`), and an object is read as query
operators, all of which must hold. -/
def QueryValue.selects (v : QueryValue) (text : String) : Bool :=
  match v with
  | .str s => text = s
  | .list items => text ∈ items
  | .object fields => fields.all (fun f => operatorHolds f.1 f.2 text)

/-- Modelled from the spec: whether the store can read a value of a filter on a string
field: a string and an array always, an object when it names only operators the store
knows. -/
def QueryValue.readable (v : QueryValue) : Bool :=
  match v with
  | .str _ => true
  | .list _ => true
  | .object fields => fields.all (fun f => f.1 ∈ knownOperators)

/-- Modelled from the spec: whether the store can read a filter; a pattern of `$regex`
must be a string. An operation handed a filter the store cannot read rejects. -/
def TaskFilter.readable (f : TaskFilter) : Bool :=
  (match f.status with
   | none => true
   | some v => v.readable) &&
  (match f.priority with
   | none => true
   | some v => v.readable) &&
  (match f.or with
   | none => true
   | some alts => alts.all (fun a =>
       match a.pattern with
       | .str _ => true
       | _ => false))

/-- Modelled from the spec: whether a task satisfies a filter; all constraints present
are conjoined. `rx pattern options text` is the regular-expression test of the database. -/
def TaskFilter.holds (rx : String → String → String → Bool) (f : TaskFilter) (t : Task) :
    Bool :=
  f._id.holds t && f.userId.holds t &&
  (match f.status with
   | none => true
   | some v => v.selects t.status) &&
  (match f.priority with
   | none => true
   | some v => v.selects t.priority) &&
  (match f.or with
   | none => true
   | some alts => alts.any (fun a =>
       match t.text a.field, a.pattern with
       | some text, .str pattern => rx pattern a.options text
       | _, _ => false))

/-- The error with which an operation currently rejects, if it does. -/
def TaskStore.faultOf (s : TaskStore) (k : OpKind) : Option String :=
  s.faults.lookup k

/-- Modelled from the spec: `Task.findOne(filter)`, the first task satisfying it. -/
def TaskStore.findOne (rx : String → String → String → Bool) (s : TaskStore)
    (f : TaskFilter) : Except String (Option Task) :=
  match s.faultOf .findOne with
  | some e => .error e
  | none => .ok (s.docs.find? (f.holds rx))

/-- Modelled from the spec: `Task.create(record)`. The title is required; status and
priority default to "pending" and "medium"; the new task gets the identifier `newId`
and the time `now` as creation and update time. -/
def TaskStore.create (s : TaskStore) (newId : String) (now : Nat) (r : NewTask) :
    Except String (Task × TaskStore) :=
  match s.faultOf .create with
  | some e => .error e
  | none =>
    match r.title, r.userId with
    | some title, some owner =>
      let t : Task :=
        { _id := newId, title := title, description := r.description,
          status := r.status.getD "pending", priority := r.priority.getD "medium",
          userId := owner, createdAt := now, updatedAt := now }
      .ok (t, { s with docs := s.docs ++ [t] })
    | _, _ => .error "Task validation failed"

/-- Modelled from the spec: `task.save()`, which writes the task over the stored one
with the same identifier and stamps the update time. -/
def TaskStore.save (s : TaskStore) (now : Nat) (t : Task) : Except String (Task × TaskStore) :=
  match s.faultOf .save with
  | some e => .error e
  | none =>
    let t1 := { t with updatedAt := now }
    .ok (t1, { s with docs := s.docs.map (fun d => if d._id = t._id then t1 else d) })

/-- Modelled from the spec: `Task.deleteOne(filter)`, which removes the first task
satisfying the filter. -/
def TaskStore.deleteOne (rx : String → String → String → Bool) (s : TaskStore)
    (f : TaskFilter) : Except String TaskStore :=
  match s.faultOf .deleteOne with
  | some e => .error e
  | none =>
    match s.docs.find? (f.holds rx) with
    | none => .ok s
    | some t => .ok { s with docs := s.docs.erase t }

/-- Modelled from the spec: `Task.deleteMany(filter)`, which removes every task
satisfying the filter and reports how many it removed (`deletedCount`). -/
def TaskStore.deleteMany (rx : String → String → String → Bool) (s : TaskStore)
    (f : TaskFilter) : Except String (Nat × TaskStore) :=
  match s.faultOf .deleteMany with
  | some e => .error e
  | none =>
    .ok ((s.docs.filter (f.holds rx)).length,
         { s with docs := s.docs.filter (fun t => !(f.holds rx t)) })

/-! ## The handlers of backend/routes/tasks.js

Each handler takes the request as the middleware before it left it and the store, and
returns the response, the store afterwards and the store calls it made, in order. A
handler reads the caller as `req.user.id`; were `req.user` absent, that read would throw
inside the `try` and the `catch` branch would answer. -/

/-- Result of a handler. -/
structure HandlerResult where
  response : Response
  store : TaskStore
  calls : List StoreCall
  deriving DecidableEq, Repr

/-- Body `{ success: false, message }`. -/
def failure (status : Nat) (message : String) : Response :=
  { status := status, body := [("success", .bool false), ("message", .str message)] }

/-- Response to a request whose validation reported errors. -/
def validationFailed (es : List ValidationError) : Response :=
  { status := 400, body := [("success", .bool false), ("errors", .errors es)] }

/-- Response of the single-task handlers when the lookup finds nothing. -/
def taskNotFound : Response := failure 404 "Task not found"

/-- Lines 13 to 40 of the handler of `GET /`: the filter and the sort option it builds
from `req.query` and `req.user.id`; `none` when reading `req.user.id` throws. The values
of `search`, `status` and `priority` are copied into the filter as they are, whatever
their type; `sort` is compared with `===`, so only a string can select a sort option. -/
def listQuery (req : Req) : Option (TaskFilter × List (String × Int)) :=
  match req.user with
  | none => none
  | some u =>
    let search := req.query "search"
    let status := req.query "status"
    let priority := req.query "priority"
    let sort := req.query "sort"
    let query : TaskFilter :=
      { _id := .any, userId := .eq u.id, status := none, priority := none, or := none }
    let query :=
      match search with
      | some pattern =>
        if pattern.truthy then
          { query with or := some [ { field := "title", pattern := pattern, options := "i" },
                                    { field := "description", pattern := pattern,
                                      options := "i" } ] }
        else query
      | none => query
    let query := if queryTruthy status then { query with status := status } else query
    let query := if queryTruthy priority then { query with priority := priority } else query
    let sortOption : List (String × Int) := [("createdAt", -1)]
    let sortOption := if sort = some (.str "oldest") then [("createdAt", 1)] else sortOption
    let sortOption := if sort = some (.str "title") then [("title", 1)] else sortOption
    let sortOption :=
      if sort = some (.str "priority") then [("priority", -1)] else sortOption
    some (query, sortOption)

/-- The filter `{ _id: req.params.id, userId: req.user.id }` of the single-task
handlers. -/
def ownedTaskFilter (id : String) (u : User) : TaskFilter :=
  { _id := .eq id, userId := .eq u.id, status := none, priority := none, or := none }

/-- The handler of `GET /:id`. -/
def getTask (rx : String → String → String → Bool) (store : TaskStore) (req : Req) :
    HandlerResult :=
  let serverError := failure 500 "Server error fetching task"
  match req.user with
  | none => { response := serverError, store := store, calls := [] }
  | some u =>
    let filter := ownedTaskFilter req.paramsId u
    match store.findOne rx filter with
    | .error _ => { response := serverError, store := store, calls := [.findOne filter] }
    | .ok none => { response := taskNotFound, store := store, calls := [.findOne filter] }
    | .ok (some task) =>
      { response := { status := 200, body := [("success", .bool true), ("data", .task task)] },
        store := store, calls := [.findOne filter] }

/-- The object `{ title, description, status, priority, userId: req.user.id }` that
the handler of `POST /` hands to `Task.create`. -/
def createRecord (req : Req) (u : User) : NewTask :=
  { title := req.body "title", description := req.body "description",
    status := req.body "status", priority := req.body "priority", userId := some u.id }

/-- The handler of `POST /`, run after the validator chains. -/
def createTask (newId : String) (now : Nat) (store : TaskStore) (req : Req) :
    HandlerResult :=
  let serverError := failure 500 "Server error creating task"
  if req.validationErrors ≠ [] then
    { response := validationFailed req.validationErrors, store := store, calls := [] }
  else
    match req.user with
    | none => { response := serverError, store := store, calls := [] }
    | some u =>
      let record := createRecord req u
      match store.create newId now record with
      | .error _ => { response := serverError, store := store, calls := [.create record] }
      | .ok (task, store1) =>
        { response :=
            { status := 201,
              body := [("success", .bool true), ("message", .str "Task created successfully"),
                       ("data", .task task)] },
          store := store1, calls := [.create record] }

/-- The route `POST /` behind the gateway: validator chains, then the handler. -/
def createTaskRoute (newId : String) (now : Nat) (store : TaskStore) (req : Req) :
    HandlerResult :=
  createTask newId now store (runChains createTaskChains req)

/-- The assignments `if (x !== undefined) task.x = x` of the handler of `PUT /:id`. -/
def applyUpdate (req : Req) (task : Task) : Task :=
  let task := match req.body "title" with
    | some v => { task with title := v }
    | none => task
  let task := match req.body "description" with
    | some v => { task with description := some v }
    | none => task
  let task := match req.body "status" with
    | some v => { task with status := v }
    | none => task
  match req.body "priority" with
  | some v => { task with priority := v }
  | none => task

/-- The handler of `PUT /:id`, run after the validator chains. -/
def updateTask (rx : String → String → String → Bool) (now : Nat) (store : TaskStore)
    (req : Req) : HandlerResult :=
  let serverError := failure 500 "Server error updating task"
  if req.validationErrors ≠ [] then
    { response := validationFailed req.validationErrors, store := store, calls := [] }
  else
    match req.user with
    | none => { response := serverError, store := store, calls := [] }
    | some u =>
      let filter := ownedTaskFilter req.paramsId u
      match store.findOne rx filter with
      | .error _ => { response := serverError, store := store, calls := [.findOne filter] }
      | .ok none => { response := taskNotFound, store := store, calls := [.findOne filter] }
      | .ok (some found) =>
        let task := applyUpdate req found
        match store.save now task with
        | .error _ =>
          { response := serverError, store := store, calls := [.findOne filter, .save task] }
        | .ok (saved, store1) =>
          { response :=
              { status := 200,
                body := [("success", .bool true),
                         ("message", .str "Task updated successfully"),
                         ("data", .task saved)] },
            store := store1, calls := [.findOne filter, .save task] }

/-- The route `PUT /:id` behind the gateway: validator chains, then the handler. -/
def updateTaskRoute (rx : String → String → String → Bool) (now : Nat) (store : TaskStore)
    (req : Req) : HandlerResult :=
  updateTask rx now store (runChains updateTaskChains req)

/-- The handler of `DELETE /:id`. -/
def deleteTask (rx : String → String → String → Bool) (store : TaskStore) (req : Req) :
    HandlerResult :=
  let serverError := failure 500 "Server error deleting task"
  match req.user with
  | none => { response := serverError, store := store, calls := [] }
  | some u =>
    let filter := ownedTaskFilter req.paramsId u
    match store.findOne rx filter with
    | .error _ => { response := serverError, store := store, calls := [.findOne filter] }
    | .ok none => { response := taskNotFound, store := store, calls := [.findOne filter] }
    | .ok (some _) =>
      let byId : TaskFilter :=
        { _id := .eq req.paramsId, userId := .any, status := none, priority := none,
          or := none }
      match store.deleteOne rx byId with
      | .error _ =>
        { response := serverError, store := store, calls := [.findOne filter, .deleteOne byId] }
      | .ok store1 =>
        { response :=
            { status := 200,
              body := [("success", .bool true),
                       ("message", .str "Task deleted successfully")] },
          store := store1, calls := [.findOne filter, .deleteOne byId] }

/-- The filter `{ _id: { $in: taskIds }, userId: req.userId }` of the batch delete. It
reads `req.userId`, not `req.user.id`. -/
def batchFilter (req : Req) : TaskFilter :=
  { _id := .isIn req.taskIds,
    userId := match req.userId with
      | none => .undefined
      | some id => .eq id,
    status := none, priority := none, or := none }

/-- The handler registered for `DELETE /batch`. -/
def batchDelete (rx : String → String → String → Bool) (store : TaskStore) (req : Req) :
    HandlerResult :=
  let filter := batchFilter req
  match store.deleteMany rx filter with
  | .error e =>
    { response := { status := 500, body := [("error", .str e)] }, store := store,
      calls := [.deleteMany filter] }
  | .ok (deletedCount, store1) =>
    { response :=
        { status := 200,
          body := [("message", .str (toString deletedCount ++ " tasks deleted successfully"))] },
      store := store1, calls := [.deleteMany filter] }

/-- The tasks among `ids` that `owner` owns: what a batch delete scoped to the caller
would remove. -/
def ownedAmong (docs : List Task) (ids : List String) (owner : String) : List Task :=
  docs.filter (fun t => t._id ∈ ids && t.userId = owner)

/-- No two stored tasks share an identifier. -/
def TaskStore.uniqueIds (s : TaskStore) : Prop :=
  (s.docs.map (fun t => t._id)).Nodup

instance (s : TaskStore) : Decidable s.uniqueIds :=
  inferInstanceAs (Decidable (s.docs.map (fun t : Task => t._id)).Nodup)

/-- The fields of the body that the task routes read. -/
def taskFields : List String := ["title", "description", "status", "priority"]

/-- The two alternatives of `$or` that a search adds to the filter. -/
def searchAlternatives (search : QueryValue) : List RegexCond :=
  [ { field := "title", pattern := search, options := "i" },
    { field := "description", pattern := search, options := "i" } ]

/-! ## Reading many tasks: `find`, `sort`, `limit`, `countDocuments`, `aggregate` -/

/-- Comparison of two tasks on one field, as the database orders values: times as
numbers, strings by their characters. A field the model does not know orders nothing. -/
def compareField (field : String) (a b : Task) : Ordering :=
  if field = "createdAt" then compare a.createdAt b.createdAt
  else if field = "updatedAt" then compare a.updatedAt b.updatedAt
  else if field = "title" then compare a.title b.title
  else if field = "status" then compare a.status b.status
  else if field = "priority" then compare a.priority b.priority
  else .eq

/-- Whether `a` may stand before `b` under a sort option: the keys are compared in
order, a direction `-1` (any negative number) reverses a key. -/
def sortLE : List (String × Int) → Task → Task → Bool
  | [], _, _ => true
  | (field, dir) :: rest, a, b =>
    match compareField field a b with
    | .lt => decide (0 ≤ dir)
    | .gt => decide (dir < 0)
    | .eq => sortLE rest a b

/-- Insertion of a task into a list sorted under a sort option, after the tasks that
may stand before it. -/
def sortInsert (sort : List (String × Int)) (t : Task) : List Task → List Task
  | [] => [t]
  | d :: ds => if sortLE sort t d then t :: d :: ds else d :: sortInsert sort t ds

/-- Modelled from the spec: the order `.sort(option)` gives to a result. -/
def sortTasks (sort : List (String × Int)) : List Task → List Task
  | [] => []
  | t :: ts => sortInsert sort t (sortTasks sort ts)

/-- Modelled from the spec: `Task.find(filter).sort(option).limit(n)`; without a
limit every task satisfying the filter is returned. A filter the store cannot read
makes the operation reject. -/
def TaskStore.find (rx : String → String → String → Bool) (s : TaskStore) (f : TaskFilter)
    (sort : List (String × Int)) (limit : Option Nat) : Except String (List Task) :=
  match s.faultOf .find with
  | some e => .error e
  | none =>
    if f.readable then
      let sorted := sortTasks sort (s.docs.filter (f.holds rx))
      match limit with
      | none => .ok sorted
      | some n => .ok (sorted.take n)
    else .error "CastError: the filter cannot be read"

/-- Modelled from the spec: `Task.countDocuments(filter)`. -/
def TaskStore.countDocuments (rx : String → String → String → Bool) (s : TaskStore)
    (f : TaskFilter) : Except String Nat :=
  match s.faultOf .countDocuments with
  | some e => .error e
  | none => .ok (s.docs.filter (f.holds rx)).length

/-- The groups `{ _id: status, count }` of a list of tasks, in order of first
occurrence of the status. -/
def groupByStatus (ts : List Task) : List (String × Nat) :=
  (ts.map (fun t => t.status)).eraseDups.map
    (fun st => (st, (ts.filter (fun t => t.status = st)).length))

/-- Modelled from the spec: `Task.aggregate([{ $match }, { $group: { _id: "$status",
count: { $sum: 1 } } }])`. -/
def TaskStore.aggregate (rx : String → String → String → Bool) (s : TaskStore)
    (f : TaskFilter) : Except String (List (String × Nat)) :=
  match s.faultOf .aggregate with
  | some e => .error e
  | none => .ok (groupByStatus (s.docs.filter (f.holds rx)))

/-- The handler of `GET /`: the query of `listQuery`, then
`Task.find(query).sort(sortOption)`. -/
def listTasks (rx : String → String → String → Bool) (store : TaskStore) (req : Req) :
    HandlerResult :=
  let serverError := failure 500 "Server error fetching tasks"
  match listQuery req with
  | none => { response := serverError, store := store, calls := [] }
  | some (query, sortOption) =>
    match store.find rx query sortOption none with
    | .error _ =>
      { response := serverError, store := store, calls := [.find query sortOption] }
    | .ok tasks =>
      { response :=
          { status := 200,
            body := [("success", .bool true), ("count", .num tasks.length),
                     ("data", .tasks tasks)] },
        store := store, calls := [.find query sortOption] }

/-- The names bound in the module `backend/routes/tasks.js` (its lines 2 to 6). -/
def tasksModuleScope : List String :=
  ["express", "router", "body", "validationResult", "protect", "Task"]

/-- The filter `{ userId: req.userId }` of the stats handler; like the batch delete it
reads `req.userId`. The first stage of the aggregation wraps the same value in an
object identifier, which for `undefined` is an identifier no task has as owner. -/
def statsFilter (req : Req) : TaskFilter :=
  { _id := .any,
    userId := match req.userId with
      | none => .undefined
      | some id => .eq id,
    status := none, priority := none, or := none }

/-- The handler registered for `GET /stats`. Building the argument of `Task.aggregate`
reads the name `mongoose`, which the module does not bind: the read throws inside the
`try` and the `catch` answers with the text of the error. -/
def stats (rx : String → String → String → Bool) (store : TaskStore) (req : Req) :
    HandlerResult :=
  let fail (e : String) (calls : List StoreCall) : HandlerResult :=
    { response := { status := 500, body := [("error", .str e)] }, store := store,
      calls := calls }
  if "mongoose" ∈ tasksModuleScope then
    let filter := statsFilter req
    let recentFirst : List (String × Int) := [("createdAt", -1)]
    match store.aggregate rx filter with
    | .error e => fail e [.aggregate filter]
    | .ok groups =>
      match store.countDocuments rx filter with
      | .error e => fail e [.aggregate filter, .countDocuments filter]
      | .ok total =>
        match store.find rx filter recentFirst (some 5) with
        | .error e =>
          fail e [.aggregate filter, .countDocuments filter, .find filter recentFirst]
        | .ok recent =>
          { response :=
              { status := 200,
                body := [("total", .num total), ("byStatus", .groups groups),
                         ("recentTasks", .tasks recent)] },
            store := store,
            calls := [.aggregate filter, .countDocuments filter, .find filter recentFirst] }
  else fail "mongoose is not defined" []

/-- The errors a validator chain reports for a body. -/
def chainErrors (c : Chain) (body : String → Option String) : List ValidationError :=
  if c.optional && (body c.field).isNone then []
  else (runChecks c.field c.checks (body c.field)).2

/-- The checks of `POST /api/tasks` in the words of the specification: the title, after
trimming, is non-empty and at most 100 characters; the description is absent or, after
trimming, at most 500 characters; the status is absent or one of the three status
values; the priority is absent or one of the three priority values. A character is a
code point of the string. -/
def passesCreateChecks (body : String → Option String) : Bool :=
  (jsTrim (asString (body "title")) ≠ "" && (jsTrim (asString (body "title"))).length ≤ 100) &&
  (match body "description" with
   | none => true
   | some d => (jsTrim d).length ≤ 500) &&
  (match body "status" with
   | none => true
   | some v => v ∈ ["pending", "in-progress", "completed"]) &&
  (match body "priority" with
   | none => true
   | some v => v ∈ ["low", "medium", "high"])

/-- The number of characters of a string other than the variation selectors U+FE0E and
U+FE0F. -/
def countedLength (s : String) : Nat :=
  (s.data.filter (fun c => !isVariationSelector c)).length

/-- The checks of `POST /api/tasks` with the lengths counted without variation
selectors: the title, after trimming, is non-empty and has at most 100 characters other
than variation selectors; the description is absent or, after trimming, has at most 500
such characters; the status is absent or one of the three status values; the priority is
absent or one of the three priority values. -/
def passesCreateChecksCounted (body : String → Option String) : Bool :=
  (jsTrim (asString (body "title")) ≠ "" &&
    countedLength (jsTrim (asString (body "title"))) ≤ 100) &&
  (match body "description" with
   | none => true
   | some d => countedLength (jsTrim d) ≤ 500) &&
  (match body "status" with
   | none => true
   | some v => v ∈ ["pending", "in-progress", "completed"]) &&
  (match body "priority" with
   | none => true
   | some v => v ∈ ["low", "medium", "high"])

/-- The filter `{ _id: req.params.id }` of the `deleteOne` in the handler of
`DELETE /:id`. -/
def byIdFilter (id : String) : TaskFilter :=
  { _id := .eq id, userId := .any, status := none, priority := none, or := none }

/-! ## External collaborators of the auth and user routes -/

/-- The claims of a token: the payload `{ id }` and the times the token library adds,
in seconds. -/
structure Claims where
  id : Option String
  iat : Nat
  exp : Option Nat
  deriving DecidableEq, Repr

/-- A signed token before serialization: its claims and the key it was signed with. -/
structure SignedToken where
  claims : Claims
  key : String
  deriving DecidableEq, Repr

/-- What the auth and user routes take from outside the repository: the environment
variable `JWT_SECRET`, the serialization of signed tokens (`jsonwebtoken`), password
hashing and comparison (the `User` model, not among the sources) and the email
validator and sanitizer (`express-validator`). Nothing is assumed about them except
where a theorem says so. -/
structure Env where
  jwtSecretVar : Option String
  encode : SignedToken → String
  decode : String → Option SignedToken
  hash : String → String
  compare : String → String → Bool
  isEmail : String → Bool
  normalizeEmail : String → String

/-- The expression `process.env.JWT_SECRET || "your_jwt_secret_key_change_this"`, which
both `generateToken` and `protect` use as the key. -/
def jwtSecret (env : Env) : String :=
  if truthy env.jwtSecretVar then asString env.jwtSecretVar
  else "your_jwt_secret_key_change_this"

/-- The value of a non-empty string of decimal digits. -/
def digitsValue (cs : List Char) : Option Nat :=
  if cs ≠ [] ∧ cs.all Char.isDigit then
    some (cs.foldl (fun acc c => 10 * acc + (c.toNat - '0'.toNat)) 0)
  else none

/-- The seconds in one unit of a time span. -/
def unitSeconds (c : Char) : Option Nat :=
  if c = 's' then some 1
  else if c = 'm' then some 60
  else if c = 'h' then some 3600
  else if c = 'd' then some 86400
  else none

/-- Modelled from the spec: the seconds a time span such as `"30d"` stands for, as the
token library reads its option `expiresIn`. -/
def spanSeconds (span : String) : Option Nat :=
  match span.data.reverse with
  | [] => none
  | u :: revDigits =>
    match digitsValue revDigits.reverse, unitSeconds u with
    | some n, some k => some (n * k)
    | _, _ => none

/-- Modelled from the spec: `jwt.sign({ id }, key, { expiresIn })` at time `now`: the
token carries the payload, the issue time and the expiry `now + expiresIn`, signed with
the key; an unreadable span throws. -/
def jwtSign (env : Env) (key : String) (now : Nat) (id : String) (expiresIn : String) :
    Except String String :=
  match spanSeconds expiresIn with
  | none => .error "invalid expiresIn option"
  | some span =>
    .ok (env.encode { claims := { id := some id, iat := now, exp := some (now + span) },
                      key := key })

/-- Modelled from the spec: `jwt.verify(token, key)` at time `now`. An absent, empty or
unreadable token is malformed; a token signed with another key has an invalid signature;
a token whose expiry is not after `now` is expired; otherwise the payload is returned. -/
def jwtVerify (env : Env) (key : String) (now : Nat) (token : Option String) :
    Except JwtError Decoded :=
  match token with
  | none => .error .malformed
  | some t =>
    if t = "" then .error .malformed
    else
      match env.decode t with
      | none => .error .malformed
      | some signed =>
        if signed.key ≠ key then .error .invalidSignature
        else
          match signed.claims.exp with
          | none => .ok { id := signed.claims.id }
          | some exp =>
            if exp ≤ now then .error .expired else .ok { id := signed.claims.id }

/-- The function `generateToken(id)` of backend/routes/auth.js, called at time `now`. -/
def generateToken (env : Env) (now : Nat) (id : String) : Except String String :=
  jwtSign env (jwtSecret env) now id "30d"

/-- The verification `protect` performs at time `now`:
`jwt.verify(token, process.env.JWT_SECRET || "your_jwt_secret_key_change_this")`. -/
def protectVerify (env : Env) (now : Nat) : Option String → Except JwtError Decoded :=
  jwtVerify env (jwtSecret env) now

/-! ## The credential store -/

/-- The operations of the credential store. -/
inductive UserOp
  | findOne
  | findById
  | create
  | findByIdAndUpdate
  deriving DecidableEq, Repr

/-- Modelled from the spec: the credential store behind the `User` model, which is not
among the sources. `docs` are the stored records, each with its password hash; `faults`
lists the operations that currently reject, each with its error message. -/
structure UserStore where
  docs : List User
  faults : List (UserOp × String)
  deriving DecidableEq, Repr

/-- The object `{ name, email, password }` handed to `User.create`. -/
structure NewUser where
  name : Option String
  email : Option String
  password : Option String
  deriving DecidableEq, Repr

/-- The object `updateFields` handed to `User.findByIdAndUpdate`: a field is present
exactly when it is `some`. -/
structure UpdateFields where
  name : Option String
  email : Option String
  deriving DecidableEq, Repr

/-- The error with which an operation currently rejects, if it does. -/
def UserStore.faultOf (s : UserStore) (k : UserOp) : Option String :=
  s.faults.lookup k

/-- Modelled from the spec: `User.findOne({ email })`. The record comes without its
password hash unless the query adds `.select("+password")`, as only the login does. A
filter value `undefined` selects no user. -/
def UserStore.findOneByEmail (s : UserStore) (email : Option String) (withPassword : Bool) :
    Except String (Option User) :=
  match s.faultOf .findOne with
  | some e => .error e
  | none =>
    match email with
    | none => .ok none
    | some e =>
      let found := s.docs.find? (fun u => u.email = e)
      .ok (if withPassword then found else found.map User.selectWithoutPassword)

/-- Modelled from the spec: `User.findOne({ email, _id: { $ne: id } })`. -/
def UserStore.findOneOther (s : UserStore) (email : Option String) (id : String) :
    Except String (Option User) :=
  match s.faultOf .findOne with
  | some e => .error e
  | none =>
    match email with
    | none => .ok none
    | some e =>
      .ok ((s.docs.find? (fun u => u.email = e && u._id ≠ id)).map User.selectWithoutPassword)

/-- Modelled from the spec: `User.findById(id)`, the record without its password hash. -/
def UserStore.findById (s : UserStore) (id : Option String) : Except String (Option User) :=
  match s.faultOf .findById with
  | some e => .error e
  | none =>
    match id with
    | none => .ok none
    | some i => .ok ((s.docs.find? (fun u => u._id = i)).map User.selectWithoutPassword)

/-- Modelled from the spec: `User.create({ name, email, password })`. All three fields
are required, the email must not be present yet, and the password is stored only as its
hash; the new record gets the identifier `newId` and the creation time `now`. -/
def UserStore.create (s : UserStore) (hash : String → String) (newId : String) (now : Nat)
    (r : NewUser) : Except String (User × UserStore) :=
  match s.faultOf .create with
  | some e => .error e
  | none =>
    match r.name, r.email, r.password with
    | some name, some email, some password =>
      if s.docs.any (fun u => u.email = email) then .error "duplicate key: email"
      else
        let u : User :=
          { _id := newId, name := name, email := email, password := some (hash password),
            createdAt := now }
        .ok (u, { s with docs := s.docs ++ [u] })
    | _, _, _ => .error "User validation failed"

/-- The record after the present fields of an update are written over it. -/
def UpdateFields.applyTo (f : UpdateFields) (u : User) : User :=
  { u with name := f.name.getD u.name, email := f.email.getD u.email }

/-- Modelled from the spec: `User.findByIdAndUpdate(id, updateFields, { new: true,
runValidators: true })`: the updated record without its password hash, or nothing when
no record has the id; an email present for another user is rejected. -/
def UserStore.findByIdAndUpdate (s : UserStore) (id : String) (f : UpdateFields) :
    Except String (Option User × UserStore) :=
  match s.faultOf .findByIdAndUpdate with
  | some e => .error e
  | none =>
    match s.docs.find? (fun u => u._id = id) with
    | none => .ok (none, s)
    | some u =>
      if s.docs.any (fun v => some v.email = f.email && v._id ≠ id) then
        .error "duplicate key: email"
      else
        .ok (some (f.applyTo u).selectWithoutPassword,
             { s with docs := s.docs.map (fun v => if v._id = id then f.applyTo v else v) })

/-! ## Request validation of the auth and user routes -/

/-- One link of a validator chain of the auth and user routes: a link of the task
chains, or one of the links only these routes use. -/
inductive AuthCheck
  | base (c : Check)
  | isLengthMin (min : Nat) (msg : String)
  | isEmail (msg : String)
  | normalizeEmail
  deriving DecidableEq, Repr

/-- A validator chain `body(field)` of the auth and user routes. -/
structure AuthChain where
  field : String
  optional : Bool
  checks : List AuthCheck
  deriving DecidableEq, Repr

/-- Runs the links of a chain of the auth and user routes, as `runChecks` does. -/
def runAuthChecks (env : Env) (field : String) : List AuthCheck → Option String →
    Option String × List ValidationError
  | [], v => (v, [])
  | .base c :: cs, v =>
    let (v1, es1) := runChecks field [c] v
    let (v2, es2) := runAuthChecks env field cs v1
    (v2, es1 ++ es2)
  | .isLengthMin min msg :: cs, v =>
    let (v1, es) := runAuthChecks env field cs v
    if min ≤ validatorLength (asString v) then (v1, es)
    else (v1, { path := field, msg := msg, value := v } :: es)
  | .isEmail msg :: cs, v =>
    let (v1, es) := runAuthChecks env field cs v
    if env.isEmail (asString v) then (v1, es)
    else (v1, { path := field, msg := msg, value := v } :: es)
  | .normalizeEmail :: cs, v =>
    runAuthChecks env field cs (some (env.normalizeEmail (asString v)))

/-- A validator chain of the auth and user routes as a middleware, as `Chain.run`. -/
def AuthChain.run (env : Env) (c : AuthChain) (req : Req) : Req :=
  if c.optional && (req.body c.field).isNone then req
  else
    let (v, es) := runAuthChecks env c.field c.checks (req.body c.field)
    { req with body := setField req.body c.field v,
               validationErrors := req.validationErrors ++ es }

/-- Runs validator chains of the auth and user routes in order. -/
def runAuthChains (env : Env) (cs : List AuthChain) (req : Req) : Req :=
  cs.foldl (fun r c => c.run env r) req

/-- The links `isEmail().normalizeEmail().withMessage(..)`; the message belongs to the
validator. -/
def emailChecks : List AuthCheck :=
  [.isEmail "Please provide a valid email", .normalizeEmail]

/-- The links `trim().isLength({ min: 2 }).withMessage(..)` for a name. -/
def nameChecks : List AuthCheck :=
  [.base .trim, .isLengthMin 2 "Name must be at least 2 characters"]

/-- The validator chains of `POST /register`. -/
def registerChains : List AuthChain :=
  [ { field := "name", optional := false, checks := nameChecks },
    { field := "email", optional := false, checks := emailChecks },
    { field := "password", optional := false,
      checks := [.isLengthMin 6 "Password must be at least 6 characters"] } ]

/-- The validator chains of `POST /login`. -/
def loginChains : List AuthChain :=
  [ { field := "email", optional := false, checks := emailChecks },
    { field := "password", optional := false,
      checks := [.base (.notEmpty "Password is required")] } ]

/-- The validator chains of `PUT /profile`. -/
def profileChains : List AuthChain :=
  [ { field := "name", optional := true, checks := nameChecks },
    { field := "email", optional := true, checks := emailChecks } ]

/-! ## The handlers of backend/routes/auth.js and backend/routes/user.js -/

/-- A step a handler of the auth and user routes takes outside itself. -/
inductive AuthCall
  | findOneByEmail (email : Option String) (withPassword : Bool)
  | findOneOther (email : Option String) (id : String)
  | findById (id : String)
  | create (r : NewUser)
  | findByIdAndUpdate (id : String) (fields : UpdateFields)
  | comparePassword (candidate : String)
  | generateToken (id : String)
  deriving DecidableEq, Repr

/-- Result of a handler of the auth and user routes. -/
structure AuthResult where
  response : Response
  store : UserStore
  calls : List AuthCall
  deriving DecidableEq, Repr

/-- The object `data` of the register and login responses. -/
def sessionData (u : User) (token : String) : Val :=
  .obj [("id", .str u._id), ("name", .str u.name), ("email", .str u.email),
        ("createdAt", .num u.createdAt), ("token", .str token)]

/-- The handler of `POST /register`, run after the validator chains, at time `now`;
`newId` is the identifier the store gives the new record. -/
def register (env : Env) (newId : String) (now : Nat) (store : UserStore) (req : Req) :
    AuthResult :=
  let serverError := failure 500 "Server error during registration"
  if req.validationErrors ≠ [] then
    { response := validationFailed req.validationErrors, store := store, calls := [] }
  else
    let email := req.body "email"
    let record : NewUser :=
      { name := req.body "name", email := email, password := req.body "password" }
    match store.findOneByEmail email false with
    | .error _ =>
      { response := serverError, store := store, calls := [.findOneByEmail email false] }
    | .ok (some _) =>
      { response := failure 400 "User with this email already exists", store := store,
        calls := [.findOneByEmail email false] }
    | .ok none =>
      match store.create env.hash newId now record with
      | .error _ =>
        { response := serverError, store := store,
          calls := [.findOneByEmail email false, .create record] }
      | .ok (user, store1) =>
        match generateToken env now user._id with
        | .error _ =>
          { response := serverError, store := store1,
            calls := [.findOneByEmail email false, .create record,
                      .generateToken user._id] }
        | .ok token =>
          { response :=
              { status := 201,
                body := [("success", .bool true),
                         ("message", .str "User registered successfully"),
                         ("data", sessionData user token)] },
            store := store1,
            calls := [.findOneByEmail email false, .create record,
                      .generateToken user._id] }

/-- The route `POST /register`: validator chains, then the handler. -/
def registerRoute (env : Env) (newId : String) (now : Nat) (store : UserStore)
    (req : Req) : AuthResult :=
  register env newId now store (runAuthChains env registerChains req)

/-- The handler of `POST /login`, run after the validator chains, at time `now`. -/
def login (env : Env) (now : Nat) (store : UserStore) (req : Req) : AuthResult :=
  let serverError := failure 500 "Server error during login"
  let invalid := failure 401 "Invalid email or password"
  if req.validationErrors ≠ [] then
    { response := validationFailed req.validationErrors, store := store, calls := [] }
  else
    let email := req.body "email"
    let candidate := asString (req.body "password")
    match store.findOneByEmail email true with
    | .error _ =>
      { response := serverError, store := store, calls := [.findOneByEmail email true] }
    | .ok none =>
      { response := invalid, store := store, calls := [.findOneByEmail email true] }
    | .ok (some user) =>
      match user.password with
      | none =>
        { response := serverError, store := store,
          calls := [.findOneByEmail email true, .comparePassword candidate] }
      | some hashed =>
        if env.compare candidate hashed then
          match generateToken env now user._id with
          | .error _ =>
            { response := serverError, store := store,
              calls := [.findOneByEmail email true, .comparePassword candidate,
                        .generateToken user._id] }
          | .ok token =>
            { response :=
                { status := 200,
                  body := [("success", .bool true), ("message", .str "Login successful"),
                           ("data", sessionData user token)] },
              store := store,
              calls := [.findOneByEmail email true, .comparePassword candidate,
                        .generateToken user._id] }
        else
          { response := invalid, store := store,
            calls := [.findOneByEmail email true, .comparePassword candidate] }

/-- The route `POST /login`: validator chains, then the handler. -/
def loginRoute (env : Env) (now : Nat) (store : UserStore) (req : Req) : AuthResult :=
  login env now store (runAuthChains env loginChains req)

/-- The handler of `POST /logout`. -/
def logout (store : UserStore) (_req : Req) : AuthResult :=
  { response :=
      { status := 200,
        body := [("success", .bool true), ("message", .str "Logout successful")] },
    store := store, calls := [] }

/-- The handler of `GET /profile`. -/
def getProfile (store : UserStore) (req : Req) : AuthResult :=
  let serverError := failure 500 "Server error fetching profile"
  match req.user with
  | none => { response := serverError, store := store, calls := [] }
  | some caller =>
    match store.findById (some caller.id) with
    | .error _ => { response := serverError, store := store, calls := [.findById caller.id] }
    | .ok none =>
      { response := failure 404 "User not found", store := store,
        calls := [.findById caller.id] }
    | .ok (some user) =>
      { response :=
          { status := 200,
            body := [("success", .bool true),
                     ("data", .obj [("id", .str user._id), ("name", .str user.name),
                                    ("email", .str user.email),
                                    ("createdAt", .num user.createdAt)])] },
        store := store, calls := [.findById caller.id] }

/-- The handler of `PUT /profile`, run after the validator chains. -/
def updateProfile (store : UserStore) (req : Req) : AuthResult :=
  let serverError := failure 500 "Server error updating profile"
  if req.validationErrors ≠ [] then
    { response := validationFailed req.validationErrors, store := store, calls := [] }
  else
    let name := req.body "name"
    let email := req.body "email"
    let nameField := if truthy name then name else none
    match req.user with
    | none =>
      { response := serverError, store := store, calls := [] }
    | some caller =>
      let finish (fields : UpdateFields) (before : List AuthCall) : AuthResult :=
        match store.findByIdAndUpdate caller.id fields with
        | .error _ =>
          { response := serverError, store := store,
            calls := before ++ [.findByIdAndUpdate caller.id fields] }
        | .ok (none, store1) =>
          { response := failure 404 "User not found", store := store1,
            calls := before ++ [.findByIdAndUpdate caller.id fields] }
        | .ok (some user, store1) =>
          { response :=
              { status := 200,
                body := [("success", .bool true),
                         ("message", .str "Profile updated successfully"),
                         ("data", .obj [("id", .str user._id), ("name", .str user.name),
                                        ("email", .str user.email)])] },
            store := store1, calls := before ++ [.findByIdAndUpdate caller.id fields] }
      if truthy email then
        match store.findOneOther email caller.id with
        | .error _ =>
          { response := serverError, store := store,
            calls := [.findOneOther email caller.id] }
        | .ok (some _) =>
          { response := failure 400 "Email already in use", store := store,
            calls := [.findOneOther email caller.id] }
        | .ok none =>
          finish { name := nameField, email := email } [.findOneOther email caller.id]
      else finish { name := nameField, email := none } []

/-- The route `PUT /profile` behind the gateway: validator chains, then the handler. -/
def updateProfileRoute (env : Env) (store : UserStore) (req : Req) : AuthResult :=
  updateProfile store (runAuthChains env profileChains req)

/-- The errors a validator chain of the auth and user routes reports for a body. -/
def authChainErrors (env : Env) (c : AuthChain) (body : String → Option String) :
    List ValidationError :=
  if c.optional && (body c.field).isNone then []
  else (runAuthChecks env c.field c.checks (body c.field)).2

/-- The value a validator chain of the auth and user routes leaves in its field. -/
def authChainValue (env : Env) (c : AuthChain) (body : String → Option String) :
    Option String :=
  if c.optional && (body c.field).isNone then body c.field
  else (runAuthChecks env c.field c.checks (body c.field)).1

/-- The record a successful registration stores for a request, as the register route
builds it: the trimmed name, the normalized email and the hash of the password. -/
def registeredUser (env : Env) (newId : String) (now : Nat) (req : Req) : User :=
  { _id := newId, name := jsTrim (asString (req.body "name")),
    email := env.normalizeEmail (asString (req.body "email")),
    password := some (env.hash (asString (req.body "password"))), createdAt := now }

/-- The token `generateToken(id)` returns at time `now`. -/
def issuedToken (env : Env) (now : Nat) (id : String) : String :=
  env.encode { claims := { id := some id, iat := now, exp := some (now + 2592000) },
               key := jwtSecret env }

/-- The names the `data` object of a response of the auth and user routes may carry. -/
def dataFieldNames : List String := ["id", "name", "email", "createdAt", "token"]

/-- Whether a field of a response body is one a response of the auth and user routes may
carry: the boolean `success`, the string `message`, the `errors` list of a failed
validation, or the object `data` with no field name outside `dataFieldNames`. -/
def authFieldAllowed (kv : String × Val) : Bool :=
  match kv with
  | (k, .bool _) => k = "success"
  | (k, .str _) => k = "message"
  | (k, .errors _) => k = "errors"
  | (k, .obj fields) => k = "data" && fields.all (fun f => f.1 ∈ dataFieldNames)
  | _ => false

/-- Whether every field of a response body is allowed by `authFieldAllowed`. -/
def authShaped (r : Response) : Bool :=
  r.body.all authFieldAllowed

/-- Two credential stores that differ at most in the password hashes of their records. -/
def sameButPasswords (s₁ s₂ : UserStore) : Prop :=
  s₁.docs.map User.selectWithoutPassword = s₂.docs.map User.selectWithoutPassword ∧
  s₁.faults = s₂.faults

/-- Whether a response body has a boolean field `success`. -/
def hasSuccess (r : Response) : Bool :=
  match r.field "success" with
  | some (.bool _) => true
  | _ => false

/-! ## The client: frontend/lib/api.js -/

/-- The body `response.data` of an HTTP response as the client reads it. -/
structure ApiData where
  success : Option Bool
  message : Option String
  deriving DecidableEq, Repr

/-- An HTTP response as the HTTP client hands it over. -/
structure ApiResponse where
  status : Nat
  data : ApiData
  deriving DecidableEq, Repr

/-- The error with which the HTTP client rejects: `error.response` is absent when no
response arrived (a network failure). -/
structure ApiError where
  response : Option ApiResponse
  deriving DecidableEq, Repr

/-- The browser state the client touches: local storage and `window.location.href`. -/
structure Browser where
  storage : List (String × String)
  location : String
  deriving DecidableEq, Repr

/-- The call `localStorage.getItem(key)`. -/
def Browser.getItem (b : Browser) (key : String) : Option String :=
  b.storage.lookup key

/-- The call `localStorage.removeItem(key)`. -/
def Browser.removeItem (b : Browser) (key : String) : Browser :=
  { b with storage := b.storage.filter (fun kv => kv.1 ≠ key) }

/-- The rejection handler of `api.interceptors.response`: on a 401 with a token in
local storage it removes `token` and `user` and goes to `/login`; it always returns
`Promise.reject(error)`. -/
def onResponseError (b : Browser) (error : ApiError) : Browser × Except ApiError ApiResponse :=
  let b1 :=
    if error.response.map (fun r => r.status) = some 401 then
      let token := b.getItem "token"
      if truthy token then
        { (b.removeItem "token").removeItem "user" with location := "/login" }
      else b
    else b
  (b1, .error error)

/-- A request through `api`: the outcome of the HTTP exchange, with a rejection passed
through the response interceptor. The HTTP client resolves on a 2xx status and rejects
otherwise. -/
def apiRequest (b : Browser) (outcome : Except ApiError ApiResponse) :
    Browser × Except ApiError ApiResponse :=
  match outcome with
  | .ok response => (b, .ok response)
  | .error error => onResponseError b error

/-- The expression `error.response?.data?.message || fallback`. -/
def errorMessageOr (error : ApiError) (fallback : String) : String :=
  match error.response with
  | none => fallback
  | some r => if truthy r.data.message then asString r.data.message else fallback

/-- The wrapper `tasksAPI.createTask(data)`: it returns `response.data`, and when the
request rejects it catches the error and returns `{ success: false, message }`. It never
rejects. -/
def createTaskApi (b : Browser) (outcome : Except ApiError ApiResponse) :
    Browser × Except ApiError ApiData :=
  match apiRequest b outcome with
  | (b1, .ok response) => (b1, .ok response.data)
  | (b1, .error error) =>
    (b1, .ok { success := some false,
               message := some (errorMessageOr error
                 "Unable to create task. Please try again.") })

/-- The wrapper `tasksAPI.updateTask(id, data)`, built like `createTaskApi`. -/
def updateTaskApi (b : Browser) (outcome : Except ApiError ApiResponse) :
    Browser × Except ApiError ApiData :=
  match apiRequest b outcome with
  | (b1, .ok response) => (b1, .ok response.data)
  | (b1, .error error) =>
    (b1, .ok { success := some false,
               message := some (errorMessageOr error
                 "Unable to update task. Please try again.") })

/-! ## The client: frontend/context/AuthContext.js -/

/-- A value a React context can hold: `undefined`, `null` or an object, given by the
names of its properties. -/
inductive ContextValue
  | undefined
  | null
  | object (properties : List String)
  deriving DecidableEq, Repr

/-- JavaScript truthiness of a context value: every object is truthy, the empty one
included. -/
def ContextValue.truthy : ContextValue → Bool
  | .undefined => false
  | .null => false
  | .object _ => true

/-- The default value of `AuthContext`: `createContext({})`. -/
def authContextDefault : ContextValue := .object []

/-- The value `AuthProvider` provides. -/
def authProviderValue : ContextValue :=
  .object ["user", "loading", "login", "register", "logout", "isAuthenticated"]

/-- The hook `useContext(AuthContext)`: the value of the nearest enclosing provider, or
the default value of the context when there is none. -/
def useAuthContext (provided : Option ContextValue) : ContextValue :=
  match provided with
  | some v => v
  | none => authContextDefault

/-- The hook `useAuth`: it throws when the context value is falsy and returns the value
otherwise. -/
def useAuth (provided : Option ContextValue) : Except String ContextValue :=
  let context := useAuthContext provided
  if !context.truthy then .error "useAuth must be used within AuthProvider"
  else .ok context

/-! ## The client: frontend/components/TaskModal.jsx -/

/-- The form of the task modal. -/
structure FormData where
  title : String
  description : String
  status : String
  priority : String
  deriving DecidableEq, Repr

/-- The state of the task modal that `handleSubmit` sets. -/
structure ModalState where
  error : String
  loading : Bool
  deriving DecidableEq, Repr

/-- What `handleSubmit` leaves behind: the state of the modal, the browser, how many
requests it sent and how often it called `onSave`. -/
structure SubmitResult where
  state : ModalState
  browser : Browser
  requests : Nat
  onSaveCalls : Nat
  deriving DecidableEq, Repr

/-- The function `handleSubmit` of the task modal. `task` is the task being edited, if
any, and `outcome` the outcome of the HTTP exchange should a request be sent. The client
checks come first; then the request is awaited inside a `try` whose `catch` sets the
error message, and `onSave()` follows the `await`. -/
def handleSubmit (b : Browser) (task : Option Task) (formData : FormData)
    (outcome : Except ApiError ApiResponse) : SubmitResult :=
  let stop (message : String) : SubmitResult :=
    { state := { error := message, loading := false }, browser := b, requests := 0,
      onSaveCalls := 0 }
  if jsTrim formData.title = "" then stop "Title is required"
  else if 100 < utf16Length formData.title then stop "Title cannot exceed 100 characters"
  else if formData.description ≠ "" ∧ 500 < utf16Length formData.description then
    stop "Description cannot exceed 500 characters"
  else
    let awaited :=
      match task with
      | some _ => updateTaskApi b outcome
      | none => createTaskApi b outcome
    match awaited with
    | (b1, .ok _) =>
      { state := { error := "", loading := false }, browser := b1, requests := 1,
        onSaveCalls := 1 }
    | (b1, .error error) =>
      { state := { error := errorMessageOr error "Failed to save task", loading := false },
        browser := b1, requests := 1, onSaveCalls := 0 }

/-- The client-side checks of `handleSubmit`. -/
def passesClientChecks (formData : FormData) : Bool :=
  jsTrim formData.title ≠ "" && utf16Length formData.title ≤ 100 &&
    (formData.description = "" || utf16Length formData.description ≤ 500)

/-! ## The client: filterAndSortTasks of frontend/app/dashboard/tasks/page.jsx -/

/-- The string methods of the JavaScript runtime that `filterAndSortTasks` calls and the
model does not define: `toLowerCase` and `localeCompare`. -/
structure JsStrings where
  toLowerCase : String → String
  localeCompare : String → String → Int

/-- Whether the characters `part` stand, one after the other, somewhere in a list of
characters: at its start or further on. -/
def includesChars (part : List Char) : List Char → Bool
  | [] => part.isEmpty
  | c :: cs => part.isPrefixOf (c :: cs) || includesChars part cs

/-- The method `s.includes(part)`. -/
def includes (s part : String) : Bool :=
  includesChars part.data s.data

/-- The state of the tasks page that `filterAndSortTasks` reads and sets. -/
structure PageState where
  tasks : List Task
  filteredTasks : List Task
  searchQuery : String
  statusFilter : String
  priorityFilter : String
  sortBy : String
  deriving DecidableEq, Repr

/-- The names every object literal inherits from `Object.prototype`. -/
def objectPrototypeNames : List String :=
  ["constructor", "__defineGetter__", "__defineSetter__", "hasOwnProperty",
   "__lookupGetter__", "__lookupSetter__", "isPrototypeOf", "propertyIsEnumerable",
   "toString", "valueOf", "__proto__", "toLocaleString"]

/-- The expression `priorityOrder[p] || 0` with `priorityOrder = {high: 3, medium: 2,
low: 1}`, as the subtraction of the comparator reads it. An own key gives its number and
a name the object does not have gives `undefined || 0`, that is 0. A name inherited from
`Object.prototype` gives a function or an object, which is truthy and as a number is NaN:
`none`. -/
def priorityRank (p : String) : Option Int :=
  if p = "high" then some 3
  else if p = "medium" then some 2
  else if p = "low" then some 1
  else if p ∈ objectPrototypeNames then none
  else some 0

/-- The comparator handed to `sort`, by the value of `sortBy`; times are the numbers
the dates stand for, and `none` is the result NaN. -/
def sortComparator (js : JsStrings) (sortBy : String) (a b : Task) : Option Int :=
  if sortBy = "newest" then some ((b.createdAt : Int) - (a.createdAt : Int))
  else if sortBy = "oldest" then some ((a.createdAt : Int) - (b.createdAt : Int))
  else if sortBy = "title" then some (js.localeCompare a.title b.title)
  else if sortBy = "priority" then
    match priorityRank b.priority, priorityRank a.priority with
    | some rb, some ra => some (rb - ra)
    | _, _ => none
  else some 0

/-- The method `sort(compare)` on a fresh array: a stable sort that leaves `a` before
`b` when `compare(a, b) ≤ 0`; a result NaN of the comparator is read as 0. -/
def jsSort (compare : Task → Task → Option Int) (l : List Task) : List Task :=
  l.insertionSort (fun a b => (compare a b).getD 0 ≤ 0)

/-- The test of the search filter on one task: the title, or the description if there
is one, contains the query, both in lower case. -/
def searchHit (js : JsStrings) (query : String) (t : Task) : Bool :=
  includes (js.toLowerCase t.title) (js.toLowerCase query) ||
    (match t.description with
     | none => false
     | some d => includes (js.toLowerCase d) (js.toLowerCase query))

/-- The function `filterAndSortTasks`: a copy of `tasks` is filtered three times, the
result is sorted and stored as `filteredTasks`. -/
def filterAndSortTasks (js : JsStrings) (st : PageState) : PageState :=
  let filtered := st.tasks
  let filtered :=
    if st.searchQuery ≠ "" then filtered.filter (searchHit js st.searchQuery) else filtered
  let filtered :=
    if st.statusFilter ≠ "all" then filtered.filter (fun t => t.status = st.statusFilter)
    else filtered
  let filtered :=
    if st.priorityFilter ≠ "all" then filtered.filter (fun t => t.priority = st.priorityFilter)
    else filtered
  { st with filteredTasks := jsSort (sortComparator js st.sortBy) filtered }

/-- The three tests of `filterAndSortTasks` on one task, each skipped when its filter is
not active. -/
def passesFilters (js : JsStrings) (st : PageState) (t : Task) : Bool :=
  (st.searchQuery = "" || searchHit js st.searchQuery t) &&
  (st.statusFilter = "all" || t.status = st.statusFilter) &&
  (st.priorityFilter = "all" || t.priority = st.priorityFilter)

/-- A text contains a query case-insensitively: with both put in lower case, the query
stands somewhere in the text, between what comes before it and what comes after it. -/
def ContainsIgnoringCase (js : JsStrings) (text query : String) : Prop :=
  ∃ before after : List Char,
    (js.toLowerCase text).data = before ++ (js.toLowerCase query).data ++ after

/-- The active filters in the words of the specification: the search query is empty or
the title or the description contains it case-insensitively; the status filter is 'all'
or equals the status; the priority filter is 'all' or equals the priority. -/
def SatisfiesFilters (js : JsStrings) (st : PageState) (t : Task) : Prop :=
  (st.searchQuery = "" ∨ ContainsIgnoringCase js t.title st.searchQuery ∨
    ∃ d, t.description = some d ∧ ContainsIgnoringCase js d st.searchQuery) ∧
  (st.statusFilter = "all" ∨ t.status = st.statusFilter) ∧
  (st.priorityFilter = "all" ∨ t.priority = st.priorityFilter)

/-! ## The application: a request served through the mounted routers -/

/-- The two stores behind the application. -/
structure World where
  users : UserStore
  tasks : TaskStore
  deriving DecidableEq, Repr

/-- A store operation, named with the store it belongs to. -/
inductive StoreOp
  | task (k : OpKind)
  | user (k : UserOp)
  deriving DecidableEq, Repr

/-- The operation of the task store that a call is. -/
def StoreCall.kind : StoreCall → OpKind
  | .find _ _ => .find
  | .findOne _ => .findOne
  | .create _ => .create
  | .save _ => .save
  | .deleteOne _ => .deleteOne
  | .deleteMany _ => .deleteMany
  | .countDocuments _ => .countDocuments
  | .aggregate _ => .aggregate

/-- The operation of the credential store behind a step of a handler of the auth and
user routes; comparing a password and issuing a token are no store operations. -/
def AuthCall.kind : AuthCall → Option UserOp
  | .findOneByEmail _ _ => some .findOne
  | .findOneOther _ _ => some .findOne
  | .findById _ => some .findById
  | .create _ => some .create
  | .findByIdAndUpdate _ _ => some .findByIdAndUpdate
  | .comparePassword _ => none
  | .generateToken _ => none

/-- Whether a store operation currently rejects. -/
def World.rejects (w : World) : StoreOp → Bool
  | .task k => (w.tasks.faultOf k).isSome
  | .user k => (w.users.faultOf k).isSome

/-- What serving a request leaves behind: the response, the stores, and the store
operations the final handler called, in order. -/
structure Served where
  response : Response
  world : World
  ops : List StoreOp
  deriving DecidableEq, Repr

/-- The result of a handler of the tasks router as a served request. -/
def Served.ofTasks (w : World) (r : HandlerResult) : Served :=
  { response := r.response, world := { w with tasks := r.store },
    ops := r.calls.map (fun c => .task c.kind) }

/-- The result of a handler of the auth and user routers as a served request. -/
def Served.ofUsers (w : World) (r : AuthResult) : Served :=
  { response := r.response, world := { w with users := r.store },
    ops := r.calls.filterMap (fun c => c.kind.map .user) }

/-- A final handler run on the request as the middleware before it left it. -/
def runHandler (env : Env) (rx : String → String → String → Bool) (newId : String)
    (now : Nat) (h : Handler) (w : World) (req : Req) : Served :=
  match h with
  | .register => .ofUsers w (register env newId now w.users req)
  | .login => .ofUsers w (login env now w.users req)
  | .logout => .ofUsers w (logout w.users req)
  | .getProfile => .ofUsers w (getProfile w.users req)
  | .updateProfile => .ofUsers w (updateProfile w.users req)
  | .listTasks => .ofTasks w (listTasks rx w.tasks req)
  | .getTask => .ofTasks w (getTask rx w.tasks req)
  | .createTask => .ofTasks w (createTask newId now w.tasks req)
  | .updateTask => .ofTasks w (updateTask rx now w.tasks req)
  | .deleteTask => .ofTasks w (deleteTask rx w.tasks req)
  | .batchDelete => .ofTasks w (batchDelete rx w.tasks req)
  | .stats => .ofTasks w (stats rx w.tasks req)

/-- The validator chain `body(field)` in the chain of a route, run on the request; the
route is known by its final handler. -/
def runValidator (env : Env) (final : Handler) (field : String) (req : Req) : Req :=
  match final with
  | .createTask =>
    match createTaskChains.find? (fun c => c.field = field) with
    | some c => c.run req
    | none => req
  | .updateTask =>
    match updateTaskChains.find? (fun c => c.field = field) with
    | some c => c.run req
    | none => req
  | .register =>
    match registerChains.find? (fun c => c.field = field) with
    | some c => c.run env req
    | none => req
  | .login =>
    match loginChains.find? (fun c => c.field = field) with
    | some c => c.run env req
    | none => req
  | .updateProfile =>
    match profileChains.find? (fun c => c.field = field) with
    | some c => c.run env req
    | none => req
  | _ => req

/-- The final handler of a chain. -/
def finalHandler : List Middleware → Option Handler
  | [] => none
  | .handler h :: _ => some h
  | _ :: rest => finalHandler rest

/-- The chain of a route run on a request at time `now`: the gateway answers itself or
hands the request on, a validator chain always hands it on, and the final handler
answers. `none` when the chain ends without an answer. -/
def serveChain (env : Env) (rx : String → String → String → Bool) (newId : String)
    (now : Nat) (final : Handler) : List Middleware → World → Req → Option Served
  | [], _, _ => none
  | .protect :: rest, w, req =>
    match responses (protect (protectVerify env now) w.users.findById req).2 with
    | r :: _ => some { response := r, world := w, ops := [] }
    | [] =>
      if nextCalls (protect (protectVerify env now) w.users.findById req).2 = 0 then none
      else
        serveChain env rx newId now final rest w
          (protect (protectVerify env now) w.users.findById req).1
  | .validator field :: rest, w, req =>
    serveChain env rx newId now final rest w (runValidator env final field req)
  | .handler h :: _, w, req => some (runHandler env rx newId now h w req)

/-- The value of `req.params.id` for a request served by a route `/:id`: the last
segment of the request path. -/
def paramId (url : String) : String :=
  (segments url).getLast?.getD ""

/-- The application serving one request at time `now`: the route is chosen by
`appDispatch` and its chain runs on the request. `none` when none of the three routers
has a route for the request. `newId` is the identifier the store gives a record created
while the request is served. -/
def serve (env : Env) (rx : String → String → String → Bool) (newId : String) (now : Nat)
    (m : Method) (url : String) (w : World) (req : Req) : Option Served :=
  match appDispatch appMounts m url with
  | none => none
  | some route =>
    match finalHandler route.chain with
    | none => none
    | some final =>
      serveChain env rx newId now final route.chain w { req with paramsId := paramId url }

/-- The routes a request can be dispatched to: every route of the three routers but the
last two of the tasks router. -/
def reachableRoutes : List Route :=
  authRouter ++ userRouter ++ tasksRouter.take 5

/-- The messages of the 500 responses of the handlers. -/
def serverErrorMessages : List String :=
  ["Server error during registration", "Server error during login",
   "Server error fetching profile", "Server error updating profile",
   "Server error fetching tasks", "Server error fetching task",
   "Server error creating task", "Server error updating task",
   "Server error deleting task"]

/-- Two states of the stores that hold the same records and in which the same
operations reject, possibly with different errors. -/
def sameButErrors (w₁ w₂ : World) : Prop :=
  w₁.users.docs = w₂.users.docs ∧ w₁.tasks.docs = w₂.tasks.docs ∧
  w₁.users.faults.map Prod.fst = w₂.users.faults.map Prod.fst ∧
  w₁.tasks.faults.map Prod.fst = w₂.tasks.faults.map Prod.fst


/-! ## Sample collaborators used to instantiate the theorems -/

/-- A token library that accepts exactly two tokens and rejects everything else. -/
def sampleVerify : Option String → Except JwtError Decoded
  | some "tok-alice" => .ok { id := some "u1" }
  | some "tok-ghost" => .ok { id := some "u9" }
  | some "tok-old" => .error .expired
  | _ => .error .malformed

/-- A user record of the sample store. -/
def alice : User :=
  { _id := "u1", name := "Alice", email := "alice@example.com", password := some "$2a$hash",
    createdAt := 1 }

/-- A credential store holding only `alice`. -/
def sampleFindById : Option String → Except String (Option User)
  | some "u1" => .ok (some alice)
  | _ => .ok none

/-- A request that carries only an Authorization header. -/
def headerOnly (authorization : Option String) : Req :=
  Req.incoming authorization "" (fun _ => none) (fun _ => none) []

/-- A regular-expression test that never matches, for instantiating theorems that do
not depend on it. -/
def noMatch : String → String → String → Bool := fun _ _ _ => false

/-- A task of the sample store owned by `alice`. -/
def aliceTask : Task :=
  { _id := "t1", title := "Write spec", description := none, status := "pending",
    priority := "medium", userId := "u1", createdAt := 10, updatedAt := 10 }

/-- A task of the sample store owned by another user. -/
def bobTask : Task :=
  { _id := "t2", title := "Pay rent", description := some "before Friday",
    status := "pending", priority := "high", userId := "u2", createdAt := 11,
    updatedAt := 11 }

/-- A store with one task of each of two owners. -/
def sampleStore : TaskStore := { docs := [aliceTask, bobTask], faults := [] }

/-- A request of `alice`, already through the gateway, for the task id `id`. -/
def aliceReq (id : String) (query : String → Option QueryValue)
    (body : String → Option String) (taskIds : List String) : Req :=
  { Req.incoming (some "Bearer tok-alice") id query body taskIds with
    user := some alice.selectWithoutPassword }

/-- A request of `alice` for `GET /api/tasks?status=`: `status` is supplied and empty. -/
def emptyStatusReq : Req :=
  aliceReq "" (fun k => if k = "status" then some (.str "") else none) (fun _ => none) []

/-- A body for `POST /api/tasks` that also carries a `userId` naming another user. -/
def forgedOwnerBody : String → Option String := fun k =>
  if k = "title" then some "  Write spec " else if k = "userId" then some "u2" else none

/-- A request for `DELETE /api/tasks/batch` naming one task of each owner, as it enters
the gateway with the token of `alice`. -/
def batchReq : Req :=
  Req.incoming (some "Bearer tok-alice") "" (fun _ => none) (fun _ => none) ["t1", "t2"]

/-- A store with three tasks of `alice`, one of each priority, created in the order
low, high, medium. -/
def priorityStore : TaskStore :=
  { docs :=
      [ { aliceTask with _id := "p1", title := "Tidy desk", priority := "low", createdAt := 1 },
        { aliceTask with _id := "p2", title := "File taxes", priority := "high",
                         createdAt := 2 },
        { aliceTask with _id := "p3", title := "Book dentist", priority := "medium",
                         createdAt := 3 } ],
    faults := [] }

/-- A request of `alice` for `GET /api/tasks?sort=priority`. -/
def sortByPriorityReq : Req :=
  aliceReq "" (fun k => if k = "sort" then some (.str "priority") else none)
    (fun _ => none) []

/-- Sample collaborators of the auth routes: tokens are written `jwt.<id>.<iat>`, and
the one token read back is the token issued for "u7" at time 2000 with the default key. -/
def sampleEnv : Env :=
  { jwtSecretVar := none,
    encode := fun st => "jwt." ++ asString st.claims.id ++ "." ++ toString st.claims.iat,
    decode := fun s =>
      if s = "jwt.u7.2000" then
        some { claims := { id := some "u7", iat := 2000, exp := some 2594000 },
               key := "your_jwt_secret_key_change_this" }
      else none,
    hash := fun p => "hash:" ++ p,
    compare := fun p h => h = "hash:" ++ p,
    isEmail := fun e => e.data.contains '@',
    normalizeEmail := fun e => String.mk (e.data.map Char.toLower) }

/-- A credential store holding only `alice`. -/
def sampleUsers : UserStore := { docs := [alice], faults := [] }

/-- The body `{ name: "Jane Doe", email: "Jane@Example.com", password: "secret1" }`. -/
def janeBody : String → Option String := fun k =>
  if k = "name" then some "Jane Doe"
  else if k = "email" then some "Jane@Example.com"
  else if k = "password" then some "secret1"
  else none

/-- A registration body that reuses the email of `alice`. -/
def duplicateBody : String → Option String := fun k =>
  if k = "name" then some "Mallory"
  else if k = "email" then some "Alice@Example.com"
  else if k = "password" then some "hunter22"
  else none

/-- A request without credentials that carries only a body. -/
def bodyOnly (body : String → Option String) : Req :=
  Req.incoming none "" (fun _ => none) body []

/-- A second user record. -/
def bob : User :=
  { _id := "u2", name := "Bob", email := "bob@example.com", password := some "$2a$other",
    createdAt := 2 }

/-- A credential store holding `alice` and `bob`. -/
def twoUsers : UserStore := { docs := [alice, bob], faults := [] }

/-- The store `twoUsers` with another password hash for `alice`. -/
def twoUsersRehashed : UserStore :=
  { docs := [{ alice with password := some "$2a$changed" }, bob], faults := [] }

/-- A `PUT /profile` body asking for the email of `bob`. -/
def takeBobsEmailBody : String → Option String := fun k =>
  if k = "email" then some "Bob@Example.com" else none

/-- A registration body whose password is too short. -/
def shortPasswordBody : String → Option String := fun k =>
  if k = "name" then some "Jane Doe"
  else if k = "email" then some "jane@example.com"
  else if k = "password" then some "abc"
  else none

/-- A body for `POST /api/tasks` with a blank title and an unknown status. -/
def blankTitleBody : String → Option String := fun k =>
  if k = "title" then some "   " else if k = "status" then some "done" else none

/-- A credential store whose lookup fails with an unexpected error. -/
def brokenFindById : Option String → Except String (Option User) :=
  fun _ => .error "MongoNetworkError: connection lost"

/-- The sample task store while its `deleteMany` rejects with the error `e`. -/
def failingDeleteMany (e : String) : TaskStore :=
  { docs := sampleStore.docs, faults := [(.deleteMany, e)] }

/-- A login body for the registered email of `alice` with a wrong password. -/
def wrongPasswordBody : String → Option String := fun k =>
  if k = "email" then some "alice@example.com"
  else if k = "password" then some "not-her-password"
  else none

/-- A credential store holding nobody. -/
def noUsers : UserStore := { docs := [], faults := [] }

/-- A `PUT` body that changes the status only and tries to change the owner. -/
def statusOnlyBody : String → Option String := fun k =>
  if k = "status" then some "completed" else if k = "userId" then some "u2" else none

/-- A browser with a session in local storage, on the tasks page. -/
def loggedInBrowser : Browser :=
  { storage := [("token", "jwt.u7.2000"), ("user", "id=u7"), ("theme", "dark")],
    location := "/dashboard/tasks" }

/-- The rejection the HTTP client raises for a response with the given status. -/
def httpError (status : Nat) (message : String) : ApiError :=
  { response := some { status := status,
                       data := { success := some false, message := some message } } }

/-- A form of the task modal that passes the client-side checks. -/
def validForm : FormData :=
  { title := "Write spec", description := "", status := "pending", priority := "medium" }

/-- String methods for plain text without capitals: lower-casing changes nothing and
strings compare by their characters. -/
def plainStrings : JsStrings :=
  { toLowerCase := fun s => s,
    localeCompare := fun a b => if a < b then -1 else if a = b then 0 else 1 }

/-- A tasks page showing the three tasks of `priorityStore`, sorted by priority. -/
def priorityPage : PageState :=
  { tasks := priorityStore.docs, filteredTasks := [], searchQuery := "", statusFilter := "all",
    priorityFilter := "all", sortBy := "priority" }

/-- One hundred letters followed by the variation selector U+FE0F. -/
def selectorTitle : String :=
  String.mk (List.replicate 100 'a' ++ [Char.ofNat 0xFE0F])

/-- A body for `POST /api/tasks` whose title is `selectorTitle`. -/
def selectorTitleBody : String → Option String := fun k =>
  if k = "title" then some selectorTitle else none

/-- String methods that put the letters A to Z in lower case and compare strings by
their characters. -/
def asciiStrings : JsStrings :=
  { toLowerCase := fun s => String.mk (s.data.map Char.toLower),
    localeCompare := fun a b => if a < b then -1 else if a = b then 0 else 1 }

/-- A tasks page showing three tasks whose priorities are, in this order, "low",
"constructor" and "high", sorted by priority. -/
def inheritedNamePage : PageState :=
  { tasks :=
      [ { aliceTask with _id := "p1", title := "Tidy desk", priority := "low" },
        { aliceTask with _id := "p2", title := "File taxes", priority := "constructor" },
        { aliceTask with _id := "p3", title := "Book dentist", priority := "high" } ],
    filteredTasks := [], searchQuery := "", statusFilter := "all", priorityFilter := "all",
    sortBy := "priority" }

/-- A tasks page showing the two tasks of the sample store with a search query. -/
def searchPage (query : String) : PageState :=
  { tasks := sampleStore.docs, filteredTasks := [], searchQuery := query,
    statusFilter := "all", priorityFilter := "all", sortBy := "newest" }

/-- A request of `alice` for `GET /api/tasks?status=pending&status=completed`: the
query parser delivers `status` as an array. -/
def repeatedStatusReq : Req :=
  aliceReq "" (fun k => if k = "status" then some (.list ["pending", "completed"]) else none)
    (fun _ => none) []

/-- A request of `alice` for `GET /api/tasks?status=pending`. -/
def pendingStatusReq : Req :=
  aliceReq "" (fun k => if k = "status" then some (.str "pending") else none)
    (fun _ => none) []

/-- The user record the sample token "jwt.u7.2000" names. -/
def jane : User :=
  { _id := "u7", name := "Jane Doe", email := "jane@example.com",
    password := some "hash:secret1", createdAt := 1000 }

/-- A task owned by `jane`. -/
def janeTask : Task :=
  { _id := "t7", title := "Call plumber", description := none, status := "pending",
    priority := "low", userId := "u7", createdAt := 12, updatedAt := 12 }

/-- Stores holding `alice` and `jane` and one task of each of three owners; the
operations of the task store listed in `faults` reject. -/
def sampleWorld (faults : List (OpKind × String)) : World :=
  { users := { docs := [alice, jane], faults := [] },
    tasks := { docs := [aliceTask, bobTask, janeTask], faults := faults } }

/-- A request carrying the sample token of `jane`. -/
def janeRequest : Req :=
  headerOnly (some "Bearer jwt.u7.2000")


/-! # Theorems -/

set_option maxRecDepth 8000

/-! ## Lemmas on the string primitives -/

theorem truthy_of_startsWith_bearer (h : String) (hb : startsWith h "Bearer" = true) :
    truthy (some h) = true := by
  have hne : h ≠ "" := by
    rintro rfl
    revert hb
    decide
  simp [truthy, hne]

theorem hasBearer_of_startsWith (h : String) (hb : startsWith h "Bearer" = true) :
    hasBearer (some h) = true := by
  simp [hasBearer, truthy_of_startsWith_bearer h hb, hb]

theorem hasBearer_some_iff (h : String) :
    hasBearer (some h) = true ↔ startsWith h "Bearer" = true := by
  constructor
  · intro hh
    simp only [hasBearer, Bool.and_eq_true] at hh
    exact hh.2
  · exact hasBearer_of_startsWith h

theorem splitChars_of_not_mem (sep : Char) (cs : List Char) (hs : sep ∉ cs) :
    splitChars sep cs = [cs] := by
  induction cs with
  | nil => rfl
  | cons c cs ih =>
    have hc : c ≠ sep := fun hEq => hs (by simp [hEq])
    have hcs : sep ∉ cs := fun hm => hs (List.mem_cons_of_mem _ hm)
    simp [splitChars, ih hcs, hc]

/-- For a token `t` without a space, the header `"Bearer " ++ t` passes the guard of
`protect` and the token extracted from it is `t`. -/
theorem bearerToken_bearer (t : String) (ht : ' ' ∉ t.data) :
    startsWith ("Bearer " ++ t) "Bearer" = true ∧ bearerToken ("Bearer " ++ t) = some t := by
  constructor
  · simp [startsWith, String.data_append, List.isPrefixOf]
  · have hsplit := splitChars_of_not_mem ' ' t.data ht
    simp [bearerToken, split, String.data_append, splitChars, hsplit]

/-! ## The gateway -/

theorem protect_without_bearer (verify : Option String → Except JwtError Decoded)
    (findById : Option String → Except String (Option User)) (req : Req)
    (h : hasBearer req.authorization = false) :
    protect verify findById req = (req, [.respond noTokenResponse]) := by
  unfold protect
  cases ha : req.authorization with
  | none => rfl
  | some a =>
    rw [ha] at h
    simp [h]

theorem protect_verify_fails (verify : Option String → Except JwtError Decoded)
    (findById : Option String → Except String (Option User)) (req : Req) (h : String)
    (e : JwtError) (ha : req.authorization = some h) (hb : startsWith h "Bearer" = true)
    (hv : verify (bearerToken h) = .error e) :
    protect verify findById req =
      (req, [.verify (bearerToken h), .respond forbiddenResponse]) := by
  unfold protect
  simp [ha, hasBearer_of_startsWith h hb, hv]

/-- C1: when the Authorization header is absent, or present but does not begin with
"Bearer", `protect` writes the single response 401 `{success: false, message: "Not
authorized, no token"}` and does nothing else: the token library is not called, the
credential store is not queried, `next()` is not called and the request is unchanged. -/
theorem protect_missing_credential (verify : Option String → Except JwtError Decoded)
    (findById : Option String → Except String (Option User)) (req : Req)
    (h : req.authorization = none ∨
      ∃ a, req.authorization = some a ∧ startsWith a "Bearer" = false) :
    (protect verify findById req).2 = [.respond noTokenResponse] ∧
    noTokenResponse.status = 401 ∧
    noTokenResponse.body =
      [("success", .bool false), ("message", .str "Not authorized, no token")] ∧
    verifyCalled (protect verify findById req).2 = false ∧
    storeQueried (protect verify findById req).2 = false ∧
    nextCalls (protect verify findById req).2 = 0 := by
  have hg : hasBearer req.authorization = false := by
    rcases h with h | ⟨a, ha, hs⟩
    · rw [h]; rfl
    · rw [ha]; simp [hasBearer, hs]
  rw [protect_without_bearer verify findById req hg]
  refine ⟨rfl, rfl, rfl, rfl, rfl, rfl⟩

theorem protect_missing_credential_witness :
    ((headerOnly (some "Basic YWxpY2U6cHc=")).authorization = none ∨
      ∃ a, (headerOnly (some "Basic YWxpY2U6cHc=")).authorization = some a ∧
        startsWith a "Bearer" = false) ∧
    (protect sampleVerify sampleFindById (headerOnly (some "Basic YWxpY2U6cHc="))).2 =
      [.respond noTokenResponse] :=
  ⟨Or.inr ⟨"Basic YWxpY2U6cHc=", rfl, by decide⟩,
   (protect_missing_credential sampleVerify sampleFindById
      (headerOnly (some "Basic YWxpY2U6cHc="))
      (Or.inr ⟨"Basic YWxpY2U6cHc=", rfl, by decide⟩)).1⟩

/-- C2: whenever the header begins with "Bearer" and verification of the token taken
from it fails, for whatever reason, `protect` calls the token library once and writes the
single response 403 `{success: false, message: "Forbidden: Invalid or expired token"}`;
two requests failing verification therefore get identical responses, `next()` is not
called and the store is not queried, and the response differs from the
missing-credential response. The token is the second space-separated piece of the
header, which for a header `"Bearer " ++ t` with `t` free of spaces is `t`
(`bearerToken_bearer`). -/
theorem protect_invalid_token_uniform (verify : Option String → Except JwtError Decoded)
    (findById : Option String → Except String (Option User)) (req₁ req₂ : Req)
    (h₁ h₂ : String) (e₁ e₂ : JwtError)
    (ha₁ : req₁.authorization = some h₁) (hb₁ : startsWith h₁ "Bearer" = true)
    (hv₁ : verify (bearerToken h₁) = .error e₁)
    (ha₂ : req₂.authorization = some h₂) (hb₂ : startsWith h₂ "Bearer" = true)
    (hv₂ : verify (bearerToken h₂) = .error e₂) :
    responses (protect verify findById req₁).2 = [forbiddenResponse] ∧
    responses (protect verify findById req₂).2 = responses (protect verify findById req₁).2 ∧
    nextCalls (protect verify findById req₁).2 = 0 ∧
    storeQueried (protect verify findById req₁).2 = false ∧
    forbiddenResponse.status = 403 ∧
    forbiddenResponse.body =
      [("success", .bool false), ("message", .str "Forbidden: Invalid or expired token")] ∧
    forbiddenResponse ≠ noTokenResponse ∧
    forbiddenResponse.status ≠ noTokenResponse.status := by
  rw [protect_verify_fails verify findById req₁ h₁ e₁ ha₁ hb₁ hv₁,
    protect_verify_fails verify findById req₂ h₂ e₂ ha₂ hb₂ hv₂]
  refine ⟨rfl, rfl, rfl, rfl, rfl, rfl, by decide, by decide⟩

theorem protect_invalid_token_uniform_witness :
    (sampleVerify (bearerToken "Bearer tok-old") = .error .expired ∧
      sampleVerify (bearerToken "Bearer not.a.token") = .error .malformed) ∧
    responses (protect sampleVerify sampleFindById (headerOnly (some "Bearer not.a.token"))).2 =
      responses (protect sampleVerify sampleFindById (headerOnly (some "Bearer tok-old"))).2 :=
  ⟨⟨by decide, by decide⟩,
   (protect_invalid_token_uniform sampleVerify sampleFindById
      (headerOnly (some "Bearer tok-old")) (headerOnly (some "Bearer not.a.token"))
      "Bearer tok-old" "Bearer not.a.token" .expired .malformed
      rfl (by decide) (by decide) rfl (by decide) (by decide)).2.1⟩

/-- C3: when the token verifies but the credential store has no record for the decoded
id (`findById` returns nothing), `protect` writes the single response 401 with message
"User not found" and does not call `next()`. -/
theorem protect_user_not_found (verify : Option String → Except JwtError Decoded)
    (findById : Option String → Except String (Option User)) (req : Req) (h : String)
    (d : Decoded) (ha : req.authorization = some h) (hb : startsWith h "Bearer" = true)
    (hv : verify (bearerToken h) = .ok d) (hf : findById d.id = .ok none) :
    responses (protect verify findById req).2 = [userNotFoundResponse] ∧
    userNotFoundResponse.status = 401 ∧
    userNotFoundResponse.field "message" = some (.str "User not found") ∧
    userNotFoundResponse.field "success" = some (.bool false) ∧
    nextCalls (protect verify findById req).2 = 0 := by
  have hp : protect verify findById req =
      ({ req with user := none },
        [.verify (bearerToken h), .findById d.id, .respond userNotFoundResponse]) := by
    unfold protect
    simp [ha, hasBearer_of_startsWith h hb, hv, hf]
  rw [hp]
  refine ⟨rfl, rfl, by decide, by decide, rfl⟩

theorem protect_user_not_found_witness :
    (sampleVerify (bearerToken "Bearer tok-ghost") = .ok { id := some "u9" } ∧
      sampleFindById (some "u9") = .ok none) ∧
    responses (protect sampleVerify sampleFindById (headerOnly (some "Bearer tok-ghost"))).2 =
      [userNotFoundResponse] :=
  ⟨⟨by decide, by decide⟩,
   (protect_user_not_found sampleVerify sampleFindById (headerOnly (some "Bearer tok-ghost"))
      "Bearer tok-ghost" { id := some "u9" } rfl (by decide) (by decide) (by decide)).1⟩

theorem protect_accepts (verify : Option String → Except JwtError Decoded)
    (findById : Option String → Except String (Option User)) (req : Req) (h : String)
    (d : Decoded) (u : User) (ha : req.authorization = some h)
    (hb : startsWith h "Bearer" = true) (hv : verify (bearerToken h) = .ok d)
    (hf : findById d.id = .ok (some u)) (ht : truthy (bearerToken h) = true) :
    protect verify findById req =
      ({ req with user := some u.selectWithoutPassword },
        [.verify (bearerToken h), .findById d.id, .next]) := by
  unfold protect
  simp [ha, hasBearer_of_startsWith h hb, hv, hf, ht]

theorem protect_next_only_if (verify : Option String → Except JwtError Decoded)
    (findById : Option String → Except String (Option User)) (req : Req)
    (hn : 0 < nextCalls (protect verify findById req).2) :
    ∃ h d u, req.authorization = some h ∧ startsWith h "Bearer" = true ∧
      verify (bearerToken h) = .ok d ∧ findById d.id = .ok (some u) := by
  cases ha : req.authorization with
  | none =>
    rw [protect_without_bearer verify findById req (by rw [ha]; rfl)] at hn
    simp [nextCalls] at hn
  | some h =>
    by_cases hb : startsWith h "Bearer" = true
    · cases hvr : verify (bearerToken h) with
      | error e =>
        rw [protect_verify_fails verify findById req h e ha hb hvr] at hn
        simp [nextCalls] at hn
      | ok d =>
        cases hf : findById d.id with
        | error e =>
          have hp : (protect verify findById req).2 =
              [.verify (bearerToken h), .findById d.id, .respond forbiddenResponse] := by
            unfold protect
            simp [ha, hasBearer_of_startsWith h hb, hvr, hf]
          rw [hp] at hn
          simp [nextCalls] at hn
        | ok found =>
          cases found with
          | none =>
            have hp : (protect verify findById req).2 =
                [.verify (bearerToken h), .findById d.id,
                  .respond userNotFoundResponse] := by
              unfold protect
              simp [ha, hasBearer_of_startsWith h hb, hvr, hf]
            rw [hp] at hn
            simp [nextCalls] at hn
          | some u => exact ⟨h, d, u, rfl, hb, hvr, hf⟩
    · have hg : hasBearer req.authorization = false := by
        rw [ha]
        simp [hasBearer, hb]
      rw [protect_without_bearer verify findById req hg] at hn
      simp [nextCalls] at hn

theorem protect_calls_next (verify : Option String → Except JwtError Decoded)
    (findById : Option String → Except String (Option User)) (req : Req) (h : String)
    (d : Decoded) (u : User) (ha : req.authorization = some h)
    (hb : startsWith h "Bearer" = true) (hv : verify (bearerToken h) = .ok d)
    (hf : findById d.id = .ok (some u)) :
    0 < nextCalls (protect verify findById req).2 := by
  unfold protect
  by_cases ht : truthy (bearerToken h) = true
  · simp [ha, hasBearer_of_startsWith h hb, hv, hf, ht, nextCalls]
  · simp [ha, hasBearer_of_startsWith h hb, hv, hf, ht, nextCalls]

/-- C4: `protect` calls `next()` exactly when the Authorization header begins with
"Bearer", verification of its second space-separated piece succeeds and the credential
store returns a user for the decoded id. In that case, given that the token library
rejects an absent or empty token, `req.user` is the record the store returned with its
password field removed, `next()` is called once and `protect` writes no response. -/
theorem protect_next_iff (verify : Option String → Except JwtError Decoded)
    (findById : Option String → Except String (Option User)) (req : Req)
    (hfalsy : ∀ t, truthy t = false → ∃ e, verify t = .error e) :
    (0 < nextCalls (protect verify findById req).2 ↔
      ∃ h d u, req.authorization = some h ∧ startsWith h "Bearer" = true ∧
        verify (bearerToken h) = .ok d ∧ findById d.id = .ok (some u)) ∧
    (∀ h d u, req.authorization = some h → startsWith h "Bearer" = true →
      verify (bearerToken h) = .ok d → findById d.id = .ok (some u) →
      (protect verify findById req).1.user = some u.selectWithoutPassword ∧
      u.selectWithoutPassword.password = none ∧
      responses (protect verify findById req).2 = [] ∧
      nextCalls (protect verify findById req).2 = 1) := by
  refine ⟨⟨protect_next_only_if verify findById req, ?_⟩, ?_⟩
  · rintro ⟨h, d, u, ha, hb, hv, hf⟩
    exact protect_calls_next verify findById req h d u ha hb hv hf
  · intro h d u ha hb hv hf
    have ht : truthy (bearerToken h) = true := by
      cases htt : truthy (bearerToken h) with
      | true => rfl
      | false =>
        obtain ⟨e, he⟩ := hfalsy _ htt
        rw [hv] at he
        cases he
    rw [protect_accepts verify findById req h d u ha hb hv hf ht]
    exact ⟨rfl, rfl, rfl, rfl⟩

theorem sampleVerify_rejects_falsy (t : Option String) (ht : truthy t = false) :
    ∃ e, sampleVerify t = .error e := by
  cases t with
  | none => exact ⟨.malformed, rfl⟩
  | some s =>
    have hs : s = "" := by simpa [truthy] using ht
    subst hs
    exact ⟨.malformed, rfl⟩

theorem protect_next_iff_witness :
    (∀ t, truthy t = false → ∃ e, sampleVerify t = .error e) ∧
    (protect sampleVerify sampleFindById (headerOnly (some "Bearer tok-alice"))).1.user =
      some alice.selectWithoutPassword ∧
    responses (protect sampleVerify sampleFindById (headerOnly (some "Bearer tok-alice"))).2
      = [] ∧
    nextCalls (protect sampleVerify sampleFindById (headerOnly (some "Bearer tok-alice"))).2
      = 1 :=
  have hw := (protect_next_iff sampleVerify sampleFindById
    (headerOnly (some "Bearer tok-alice")) sampleVerify_rejects_falsy).2
    "Bearer tok-alice" { id := some "u1" } alice rfl (by decide) (by decide) (by decide)
  ⟨sampleVerify_rejects_falsy, hw.1, hw.2.2.1, hw.2.2.2⟩

/-! ## Routing -/

theorem executed_after_protect (callsNext : Middleware → Bool) (rest : List Middleware)
    (m : Middleware) (hm : m ∈ executed callsNext (.protect :: rest))
    (hne : m ≠ .protect) : callsNext .protect = true := by
  cases hc : callsNext .protect with
  | true => rfl
  | false =>
    simp [executed, hc] at hm
    exact absurd hm hne

/-- C5: in every route of the tasks router and of the user router, and in `POST
/logout` of the auth router, `protect` is the first middleware of the chain; hence a
validator or handler of such a route executes only if `protect` called `next()`. -/
theorem protect_first_on_authenticated_routes (r : Route) (hr : r ∈ authenticatedRoutes)
    (callsNext : Middleware → Bool) :
    r.chain.head? = some .protect ∧
    ∀ m, m ∈ executed callsNext r.chain → m ≠ .protect → callsNext .protect = true := by
  have hhead : ∀ r ∈ authenticatedRoutes, r.chain.head? = some .protect := by
    decide
  have hh := hhead r hr
  cases hc : r.chain with
  | nil => simp [hc] at hh
  | cons m0 rest =>
    rw [hc] at hh
    have hm0 : m0 = .protect := by simpa using hh
    subst hm0
    exact ⟨rfl, fun m hm hne => executed_after_protect callsNext rest m hm hne⟩

theorem protect_first_on_authenticated_routes_witness :
    ({ method := .POST, path := "/logout", chain := [.protect, .handler .logout] } : Route)
      ∈ authenticatedRoutes ∧
    ∀ m, m ∈ executed (fun _ => false) [Middleware.protect, .handler .logout] →
      m ≠ .protect → (fun _ => false) Middleware.protect = true :=
  ⟨by decide,
   (protect_first_on_authenticated_routes
      { method := .POST, path := "/logout", chain := [.protect, .handler .logout] }
      (by decide) (fun _ => false)).2⟩

/-- C10: the code does not do what the claim says. Under first-registered,
first-matched dispatch a `DELETE` of `/api/tasks/batch` is served by the route
`DELETE /:id` (handler `deleteTask`, with id "batch") and a `GET` of `/api/tasks/stats`
by the route `GET /:id` (handler `getTask`, with id "stats"), because both single-task
routes are registered before `/batch` and `/stats`. -/
theorem batch_and_stats_captured_by_id_routes :
    appDispatch appMounts .DELETE "/api/tasks/batch" =
      some { method := .DELETE, path := "/:id", chain := [.protect, .handler .deleteTask] } ∧
    appDispatch appMounts .GET "/api/tasks/stats" =
      some { method := .GET, path := "/:id", chain := [.protect, .handler .getTask] } ∧
    dispatch tasksRouter .DELETE "/batch" ≠
      some { method := .DELETE, path := "/batch",
             chain := [.protect, .handler .batchDelete] } ∧
    dispatch tasksRouter .GET "/stats" ≠
      some { method := .GET, path := "/stats", chain := [.protect, .handler .stats] } := by
  decide

/-! ## Owner scoping of the task routes -/

theorem ownedTaskFilter_holds (rx : String → String → String → Bool) (id : String)
    (u : User) (d : Task) :
    (ownedTaskFilter id u).holds rx d = (decide (d._id = id) && decide (d.userId = u.id)) := by
  simp [TaskFilter.holds, ownedTaskFilter, IdCond.holds, OwnerCond.holds]

theorem Chain.run_user (c : Chain) (req : Req) : (c.run req).user = req.user := by
  unfold Chain.run
  split <;> rfl

theorem Chain.run_paramsId (c : Chain) (req : Req) : (c.run req).paramsId = req.paramsId := by
  unfold Chain.run
  split <;> rfl

theorem runChains_user (cs : List Chain) (req : Req) : (runChains cs req).user = req.user := by
  induction cs generalizing req with
  | nil => rfl
  | cons c cs ih =>
    show (runChains cs (c.run req)).user = req.user
    rw [ih, Chain.run_user]

theorem runChains_paramsId (cs : List Chain) (req : Req) :
    (runChains cs req).paramsId = req.paramsId := by
  induction cs generalizing req with
  | nil => rfl
  | cons c cs ih =>
    show (runChains cs (c.run req)).paramsId = req.paramsId
    rw [ih, Chain.run_paramsId]

/-- The lookup `{ _id, userId }` finds nothing when the only task with that id belongs
to somebody else. -/
theorem findOne_foreign (rx : String → String → String → Bool) (s : TaskStore)
    (id : String) (caller : User) (t : Task) (huniq : s.uniqueIds) (ht : t ∈ s.docs)
    (hid : t._id = id) (hown : t.userId ≠ caller.id) :
    s.docs.find? ((ownedTaskFilter id caller).holds rx) = none := by
  rw [List.find?_eq_none]
  intro d hd hholds
  rw [ownedTaskFilter_holds] at hholds
  simp only [Bool.and_eq_true, decide_eq_true_eq] at hholds
  have hdt : d = t :=
    List.inj_on_of_nodup_map huniq hd ht (by rw [hholds.1, hid])
  exact hown (hdt ▸ hholds.2)

/-- The lookup `{ _id, userId }` finds nothing when no task has that id. -/
theorem findOne_absent (rx : String → String → String → Bool) (s : TaskStore)
    (id : String) (caller : User) (habsent : ∀ d ∈ s.docs, d._id ≠ id) :
    s.docs.find? ((ownedTaskFilter id caller).holds rx) = none := by
  rw [List.find?_eq_none]
  intro d hd hholds
  rw [ownedTaskFilter_holds] at hholds
  simp only [Bool.and_eq_true, decide_eq_true_eq] at hholds
  exact habsent d hd hholds.1

/-- What the three single-task routes do when the scoped lookup finds nothing or the
store rejects it: the response is the same function of the fault alone, the store is
unchanged and the body has no `data`. -/
theorem single_task_routes_on_miss (rx : String → String → String → Bool) (now : Nat)
    (s : TaskStore) (req : Req) (caller : User) (hu : req.user = some caller)
    (hvalid : (runChains updateTaskChains req).validationErrors = [])
    (hmiss : s.docs.find? ((ownedTaskFilter req.paramsId caller).holds rx) = none) :
    (getTask rx s req).response =
      (match s.faultOf .findOne with
       | some _ => failure 500 "Server error fetching task"
       | none => taskNotFound) ∧
    (updateTaskRoute rx now s req).response =
      (match s.faultOf .findOne with
       | some _ => failure 500 "Server error updating task"
       | none => taskNotFound) ∧
    (deleteTask rx s req).response =
      (match s.faultOf .findOne with
       | some _ => failure 500 "Server error deleting task"
       | none => taskNotFound) ∧
    (getTask rx s req).store = s ∧ (updateTaskRoute rx now s req).store = s ∧
    (deleteTask rx s req).store = s := by
  have hu2 : (runChains updateTaskChains req).user = some caller := by
    rw [runChains_user, hu]
  have hp2 : (runChains updateTaskChains req).paramsId = req.paramsId :=
    runChains_paramsId _ _
  cases hfault : s.faultOf .findOne with
  | some e =>
    simp [getTask, updateTaskRoute, updateTask, deleteTask, hu, hu2, hp2, hvalid,
      TaskStore.findOne, hfault]
  | none =>
    simp [getTask, updateTaskRoute, updateTask, deleteTask, hu, hu2, hp2, hvalid,
      TaskStore.findOne, hfault, hmiss]

/-- C6: for `GET /:id`, `PUT /:id` with a body that passes validation, and `DELETE
/:id`: the response when a task with the requested id exists but belongs to another
user equals the response when no task has that id; when the lookup itself does not fail
that response is 404 "Task not found"; the body never has a `data` field; and the store
is left unchanged. -/
theorem foreign_task_indistinguishable (rx : String → String → String → Bool) (now : Nat)
    (s₁ s₂ : TaskStore) (req : Req) (caller : User) (t : Task)
    (hu : req.user = some caller)
    (hvalid : (runChains updateTaskChains req).validationErrors = [])
    (huniq : s₁.uniqueIds) (ht : t ∈ s₁.docs) (hid : t._id = req.paramsId)
    (hown : t.userId ≠ caller.id)
    (habsent : ∀ d ∈ s₂.docs, d._id ≠ req.paramsId)
    (hfaults : s₁.faults = s₂.faults) :
    ((getTask rx s₁ req).response = (getTask rx s₂ req).response ∧
      (updateTaskRoute rx now s₁ req).response = (updateTaskRoute rx now s₂ req).response ∧
      (deleteTask rx s₁ req).response = (deleteTask rx s₂ req).response) ∧
    (s₁.faultOf .findOne = none →
      (getTask rx s₁ req).response = taskNotFound ∧
      (updateTaskRoute rx now s₁ req).response = taskNotFound ∧
      (deleteTask rx s₁ req).response = taskNotFound) ∧
    (taskNotFound.status = 404 ∧
      taskNotFound.body = [("success", .bool false), ("message", .str "Task not found")]) ∧
    ((getTask rx s₁ req).response.field "data" = none ∧
      (updateTaskRoute rx now s₁ req).response.field "data" = none ∧
      (deleteTask rx s₁ req).response.field "data" = none) ∧
    ((getTask rx s₁ req).store = s₁ ∧ (updateTaskRoute rx now s₁ req).store = s₁ ∧
      (deleteTask rx s₁ req).store = s₁) := by
  obtain ⟨g₁, u₁, d₁, sg₁, su₁, sd₁⟩ := single_task_routes_on_miss rx now s₁ req caller hu
    hvalid (findOne_foreign rx s₁ req.paramsId caller t huniq ht hid hown)
  obtain ⟨g₂, u₂, d₂, -, -, -⟩ := single_task_routes_on_miss rx now s₂ req caller hu
    hvalid (findOne_absent rx s₂ req.paramsId caller habsent)
  have hf : s₂.faultOf .findOne = s₁.faultOf .findOne := by
    simp [TaskStore.faultOf, hfaults]
  rw [hf] at g₂ u₂ d₂
  refine ⟨⟨g₁.trans g₂.symm, u₁.trans u₂.symm, d₁.trans d₂.symm⟩, ?_, ⟨rfl, rfl⟩, ?_,
    ⟨sg₁, su₁, sd₁⟩⟩
  · intro hnone
    rw [hnone] at g₁ u₁ d₁
    exact ⟨g₁, u₁, d₁⟩
  · rw [g₁, u₁, d₁]
    cases s₁.faultOf .findOne with
    | none => exact ⟨by decide, by decide, by decide⟩
    | some e => exact ⟨rfl, rfl, rfl⟩

theorem foreign_task_indistinguishable_witness :
    (getTask noMatch sampleStore (aliceReq "t2" (fun _ => none) (fun _ => none) [])).response =
      (getTask noMatch { docs := [aliceTask], faults := [] }
        (aliceReq "t2" (fun _ => none) (fun _ => none) [])).response ∧
    (getTask noMatch sampleStore (aliceReq "t2" (fun _ => none) (fun _ => none) [])).response =
      taskNotFound :=
  have hw := foreign_task_indistinguishable noMatch 20 sampleStore
    { docs := [aliceTask], faults := [] }
    (aliceReq "t2" (fun _ => none) (fun _ => none) []) alice.selectWithoutPassword bobTask
    rfl (by decide) (by decide) (by decide) rfl (by decide) (by decide) rfl
  ⟨hw.1.1, (hw.2.1 rfl).1⟩

theorem TaskFilter.holds_owner (rx : String → String → String → Bool) (f : TaskFilter)
    (t : Task) (owner : String) (hf : f.userId = .eq owner) (hh : f.holds rx t = true) :
    t.userId = owner := by
  simp only [TaskFilter.holds, Bool.and_eq_true] at hh
  have ho := hh.1.1.1.2
  rw [hf] at ho
  simpa [OwnerCond.holds] using ho

/-- C7, as stated, fails: for `GET /api/tasks?status=` the parameter `status` is
supplied, yet the filter has no status constraint. -/
theorem listQuery_empty_status_unconstrained :
    emptyStatusReq.query "status" = some (.str "") ∧
    ¬ (((listQuery emptyStatusReq).bind (fun p => p.1.status)).isSome = true ↔
        (emptyStatusReq.query "status").isSome = true) := by
  decide

theorem holds_status (rx : String → String → String → Bool) (f : TaskFilter) (t : Task)
    (v : QueryValue) (hf : f.status = some v) (hh : f.holds rx t = true) :
    v.selects t.status = true := by
  simp only [TaskFilter.holds, Bool.and_eq_true] at hh
  have hs := hh.1.1.2
  rw [hf] at hs
  exact hs

theorem holds_priority (rx : String → String → String → Bool) (f : TaskFilter) (t : Task)
    (v : QueryValue) (hf : f.priority = some v) (hh : f.holds rx t = true) :
    v.selects t.priority = true := by
  simp only [TaskFilter.holds, Bool.and_eq_true] at hh
  have hs := hh.1.2
  rw [hf] at hs
  exact hs

theorem holds_search (rx : String → String → String → Bool) (f : TaskFilter) (t : Task)
    (s : String) (hf : f.or = some (searchAlternatives (.str s)))
    (hh : f.holds rx t = true) :
    rx s "i" t.title = true ∨ ∃ d, t.description = some d ∧ rx s "i" d = true := by
  simp only [TaskFilter.holds, Bool.and_eq_true] at hh
  have hs := hh.2
  rw [hf] at hs
  simp only [searchAlternatives, List.any_cons, List.any_nil, Bool.or_false, Task.text,
    Bool.or_eq_true] at hs
  rcases hs with hs | hs
  · left
    simpa using hs
  · right
    have hne : ¬ ("description" = "title") := by decide
    simp only [hne, if_false, if_true] at hs
    cases hd : t.description with
    | none => simp [hd] at hs
    | some d =>
      rw [hd] at hs
      exact ⟨d, rfl, hs⟩

/-- C7, amended: for every combination of the query parameters, whatever the query
parser delivers for them (a string, an array, an object), the filter built for
`GET /api/tasks` has its owner field equal to the caller's id and no constraint on the
task id, and every task satisfying the filter is owned by the caller. A parameter adds
its constraint exactly when its value is truthy, and the constraint carries the value as
it came. For a parameter given as a string that means: `status` adds the constraint that
the status equals the string exactly when the string is not empty, `priority` likewise,
and `search` adds the alternatives (title matches search, description matches search)
exactly when the string is not empty; a parameter that is absent adds nothing. -/
theorem listQuery_owner_scoped (req : Req) (caller : User) (hu : req.user = some caller) :
    ∃ q sortOption, listQuery req = some (q, sortOption) ∧
      q.userId = .eq caller.id ∧ q._id = .any ∧
      q.status = (if queryTruthy (req.query "status") then req.query "status" else none) ∧
      q.priority =
        (if queryTruthy (req.query "priority") then req.query "priority" else none) ∧
      q.or = (if queryTruthy (req.query "search")
        then (req.query "search").map searchAlternatives else none) ∧
      (q.status.isSome = true ↔ queryTruthy (req.query "status") = true) ∧
      (q.priority.isSome = true ↔ queryTruthy (req.query "priority") = true) ∧
      (q.or.isSome = true ↔ queryTruthy (req.query "search") = true) ∧
      (∀ rx t, q.holds rx t = true → t.userId = caller.id) ∧
      (∀ s, req.query "status" = some (.str s) →
        (q.status = some (.str s) ↔ s ≠ "") ∧ (s = "" → q.status = none) ∧
        (s ≠ "" → ∀ rx t, q.holds rx t = true → t.status = s)) ∧
      (∀ s, req.query "priority" = some (.str s) →
        (q.priority = some (.str s) ↔ s ≠ "") ∧ (s = "" → q.priority = none) ∧
        (s ≠ "" → ∀ rx t, q.holds rx t = true → t.priority = s)) ∧
      (∀ s, req.query "search" = some (.str s) →
        (q.or = some [ { field := "title", pattern := .str s, options := "i" },
                       { field := "description", pattern := .str s, options := "i" } ] ↔
          s ≠ "") ∧
        (s = "" → q.or = none) ∧
        (s ≠ "" → ∀ rx t, q.holds rx t = true →
          rx s "i" t.title = true ∨ ∃ d, t.description = some d ∧ rx s "i" d = true)) ∧
      (req.query "status" = none → q.status = none) ∧
      (req.query "priority" = none → q.priority = none) ∧
      (req.query "search" = none → q.or = none) := by
  have hq : ∃ q sortOption, listQuery req = some (q, sortOption) ∧
      q.userId = .eq caller.id ∧ q._id = .any ∧
      q.status = (if queryTruthy (req.query "status") then req.query "status" else none) ∧
      q.priority =
        (if queryTruthy (req.query "priority") then req.query "priority" else none) ∧
      q.or = (if queryTruthy (req.query "search")
        then (req.query "search").map searchAlternatives else none) := by
    simp only [listQuery, hu]
    refine ⟨_, _, rfl, ?_⟩
    cases hsearch : req.query "search" with
    | none =>
      have hn : queryTruthy none = false := rfl
      by_cases h2 : queryTruthy (req.query "status") = true <;>
        by_cases h3 : queryTruthy (req.query "priority") = true <;>
        simp [h2, h3, hn]
    | some v =>
      have hv : queryTruthy (some v) = v.truthy := rfl
      by_cases h1 : v.truthy = true <;>
        by_cases h2 : queryTruthy (req.query "status") = true <;>
        by_cases h3 : queryTruthy (req.query "priority") = true <;>
        simp [h1, h2, h3, hv, searchAlternatives]
  obtain ⟨q, sortOption, hl, ho, hi, hs, hp, hor⟩ := hq
  refine ⟨q, sortOption, hl, ho, hi, hs, hp, hor, ?_, ?_, ?_, ?_, ?_, ?_, ?_, ?_, ?_, ?_⟩
  · rw [hs]
    cases hq : req.query "status" with
    | none => simp [queryTruthy]
    | some v => by_cases hv : v.truthy = true <;> simp [queryTruthy, hv]
  · rw [hp]
    cases hq : req.query "priority" with
    | none => simp [queryTruthy]
    | some v => by_cases hv : v.truthy = true <;> simp [queryTruthy, hv]
  · rw [hor]
    cases hq : req.query "search" with
    | none => simp [queryTruthy]
    | some v => by_cases hv : v.truthy = true <;> simp [queryTruthy, hv]
  · intro rx t hh
    exact TaskFilter.holds_owner rx q t caller.id ho hh
  · intro s hq
    rw [hq] at hs
    by_cases hv : s = ""
    · have hq2 : q.status = none := by
        rw [hs]
        simp [queryTruthy, QueryValue.truthy, hv]
      exact ⟨by simp [hq2, hv], fun _ => hq2, fun h => absurd hv h⟩
    · have hq2 : q.status = some (.str s) := by
        rw [hs]
        simp [queryTruthy, QueryValue.truthy, hv]
      refine ⟨by simp [hq2, hv], fun h => absurd h hv, fun _ rx t hh => ?_⟩
      have := holds_status rx q t _ hq2 hh
      simpa [QueryValue.selects] using this
  · intro s hq
    rw [hq] at hp
    by_cases hv : s = ""
    · have hq2 : q.priority = none := by
        rw [hp]
        simp [queryTruthy, QueryValue.truthy, hv]
      exact ⟨by simp [hq2, hv], fun _ => hq2, fun h => absurd hv h⟩
    · have hq2 : q.priority = some (.str s) := by
        rw [hp]
        simp [queryTruthy, QueryValue.truthy, hv]
      refine ⟨by simp [hq2, hv], fun h => absurd h hv, fun _ rx t hh => ?_⟩
      have := holds_priority rx q t _ hq2 hh
      simpa [QueryValue.selects] using this
  · intro s hq
    rw [hq] at hor
    by_cases hv : s = ""
    · have hq2 : q.or = none := by
        rw [hor]
        simp [queryTruthy, QueryValue.truthy, hv]
      exact ⟨by simp [hq2, hv], fun _ => hq2, fun h => absurd hv h⟩
    · have hq2 : q.or = some (searchAlternatives (.str s)) := by
        rw [hor]
        simp [queryTruthy, QueryValue.truthy, hv]
      refine ⟨?_, fun h => absurd h hv, fun _ rx t hh => holds_search rx q t s hq2 hh⟩
      constructor
      · intro _
        exact hv
      · intro _
        rw [hq2]
        rfl
  · intro hq
    rw [hs, hq]
    rfl
  · intro hq
    rw [hp, hq]
    rfl
  · intro hq
    rw [hor, hq]
    rfl

theorem listQuery_owner_scoped_witness :
    emptyStatusReq.user = some alice.selectWithoutPassword ∧
    (∃ q sortOption, listQuery emptyStatusReq = some (q, sortOption) ∧
      q.userId = .eq "u1" ∧ q.status = none) ∧
    (∃ q sortOption, listQuery repeatedStatusReq = some (q, sortOption) ∧
      q.userId = .eq "u1" ∧ q.status = some (.list ["pending", "completed"])) ∧
    (listQuery pendingStatusReq).map (fun p => p.1) =
      some { _id := .any, userId := .eq "u1", status := some (.str "pending"),
             priority := none, or := none } :=
  ⟨rfl,
   (match listQuery_owner_scoped emptyStatusReq alice.selectWithoutPassword rfl with
    | ⟨q, sortOption, hl, ho, _, hs, _⟩ => ⟨q, sortOption, hl, ho, hs⟩),
   (match listQuery_owner_scoped repeatedStatusReq alice.selectWithoutPassword rfl with
    | ⟨q, sortOption, hl, ho, _, hs, _⟩ => ⟨q, sortOption, hl, ho, hs⟩),
   by decide⟩

theorem runChecks_value (field : String) (cs : List Check) (v : Option String)
    (hcs : Check.trim ∉ cs) : (runChecks field cs v).1 = v := by
  induction cs with
  | nil => rfl
  | cons c cs ih =>
    have hrest : Check.trim ∉ cs := fun hm => hcs (List.mem_cons_of_mem _ hm)
    have ih1 := ih hrest
    cases c with
    | trim => exact absurd (List.mem_cons_self _ _) hcs
    | notEmpty msg =>
      simp only [runChecks]
      split <;> exact ih1
    | isLengthMax max msg =>
      simp only [runChecks]
      split <;> exact ih1
    | isIn allowed msg =>
      simp only [runChecks]
      split <;> exact ih1

theorem Chain.run_body (c : Chain) (req : Req) (k : String) :
    (c.run req).body k =
      if c.optional && (req.body c.field).isNone then req.body k
      else if k = c.field then (runChecks c.field c.checks (req.body c.field)).1
      else req.body k := by
  unfold Chain.run
  split
  · rfl
  · rfl

theorem Chain.run_agree (c : Chain) (r₁ r₂ : Req) (k : String)
    (hf : r₁.body c.field = r₂.body c.field) (hk : r₁.body k = r₂.body k)
    (he : r₁.validationErrors = r₂.validationErrors) :
    (c.run r₁).body k = (c.run r₂).body k ∧
    (c.run r₁).validationErrors = (c.run r₂).validationErrors := by
  refine ⟨by rw [Chain.run_body, Chain.run_body, hf, hk], ?_⟩
  unfold Chain.run
  rw [hf]
  split
  · exact he
  · simp [he]

theorem runChains_agree (K : List String) (cs : List Chain) (hK : ∀ c ∈ cs, c.field ∈ K)
    (r₁ r₂ : Req) (hb : ∀ k ∈ K, r₁.body k = r₂.body k)
    (he : r₁.validationErrors = r₂.validationErrors) :
    (∀ k ∈ K, (runChains cs r₁).body k = (runChains cs r₂).body k) ∧
    (runChains cs r₁).validationErrors = (runChains cs r₂).validationErrors := by
  induction cs generalizing r₁ r₂ with
  | nil => exact ⟨hb, he⟩
  | cons c cs ih =>
    have hc : c.field ∈ K := hK c (List.mem_cons_self _ _)
    exact ih (fun c1 h1 => hK c1 (List.mem_cons_of_mem _ h1)) (c.run r₁) (c.run r₂)
      (fun k hk => (Chain.run_agree c r₁ r₂ k (hb _ hc) (hb k hk) he).1)
      (Chain.run_agree c r₁ r₂ c.field (hb _ hc) (hb _ hc) he).2

/-- The fields of the body after the validator chains of `POST /`. -/
theorem createTaskChains_body (req : Req) :
    (runChains createTaskChains req).body "title" =
      some (jsTrim (asString (req.body "title"))) ∧
    (runChains createTaskChains req).body "description" =
      (req.body "description").map jsTrim ∧
    (runChains createTaskChains req).body "status" = req.body "status" ∧
    (runChains createTaskChains req).body "priority" = req.body "priority" := by
  have hv : ∀ (f : String) (a : List String) (m : String) (v : Option String),
      (runChecks f [.isIn a m] v).1 = v :=
    fun f a m v => runChecks_value f _ v (by simp)
  have ht : ∀ (f : String) (m1 m2 : String) (n : Nat) (v : Option String),
      (runChecks f [.trim, .notEmpty m1, .isLengthMax n m2] v).1 =
        some (jsTrim (asString v)) :=
    fun f m1 m2 n v => runChecks_value f [.notEmpty m1, .isLengthMax n m2] _ (by simp)
  have hd : ∀ (f : String) (m : String) (n : Nat) (v : Option String),
      (runChecks f [.trim, .isLengthMax n m] v).1 = some (jsTrim (asString v)) :=
    fun f m n v => runChecks_value f [.isLengthMax n m] _ (by simp)
  simp only [runChains, createTaskChains, commonTaskChains, List.foldl, Chain.run_body,
    hv, ht, hd]
  refine ⟨?_, ?_, ?_, ?_⟩
  · simp
  · cases h : req.body "description" <;> simp [asString]
  · cases h : req.body "status" <;> simp
  · cases h : req.body "priority" <;> simp

theorem createTaskRoute_calls (newId : String) (now : Nat) (store : TaskStore) (req : Req)
    (caller : User) (hu : req.user = some caller)
    (hacc : (runChains createTaskChains req).validationErrors = []) :
    (createTaskRoute newId now store req).calls =
      [.create { title := some (jsTrim (asString (req.body "title"))),
                 description := (req.body "description").map jsTrim,
                 status := req.body "status", priority := req.body "priority",
                 userId := some caller.id }] := by
  have hu2 : (runChains createTaskChains req).user = some caller := by
    rw [runChains_user, hu]
  obtain ⟨h1, h2, h3, h4⟩ := createTaskChains_body req
  have hrec : createRecord (runChains createTaskChains req) caller =
      { title := some (jsTrim (asString (req.body "title"))),
        description := (req.body "description").map jsTrim,
        status := req.body "status", priority := req.body "priority",
        userId := some caller.id } := by
    simp only [createRecord, h1, h2, h3, h4]
  unfold createTaskRoute createTask
  simp only [hacc, hu2, hrec, ne_eq, not_true_eq_false, if_false]
  split <;> rfl

/-- C8: for every authenticated caller and every body that `POST /api/tasks` accepts,
the handler makes exactly one store call, `Task.create`, whose record has the caller's id
as owner and the sanitized `title`, `description`, `status` and `priority` of the body;
nothing else of the body, such as a `userId` field, influences the call. -/
theorem createTask_owner_is_caller (newId : String) (now : Nat) (store : TaskStore)
    (req : Req) (caller : User) (hu : req.user = some caller)
    (hacc : (runChains createTaskChains req).validationErrors = []) :
    (createTaskRoute newId now store req).calls =
      [.create { title := some (jsTrim (asString (req.body "title"))),
                 description := (req.body "description").map jsTrim,
                 status := req.body "status", priority := req.body "priority",
                 userId := some caller.id }] ∧
    (∀ body2 : String → Option String, (∀ k ∈ taskFields, body2 k = req.body k) →
      (createTaskRoute newId now store { req with body := body2 }).calls =
        (createTaskRoute newId now store req).calls) := by
  refine ⟨createTaskRoute_calls newId now store req caller hu hacc, ?_⟩
  intro body2 hb
  have hag := runChains_agree taskFields createTaskChains (by decide)
    { req with body := body2 } req hb rfl
  have hacc2 : (runChains createTaskChains { req with body := body2 }).validationErrors
      = [] := by
    rw [hag.2, hacc]
  rw [createTaskRoute_calls newId now store { req with body := body2 } caller hu hacc2,
    createTaskRoute_calls newId now store req caller hu hacc]
  have e1 : body2 "title" = req.body "title" := hb _ (by decide)
  have e2 : body2 "description" = req.body "description" := hb _ (by decide)
  have e3 : body2 "status" = req.body "status" := hb _ (by decide)
  have e4 : body2 "priority" = req.body "priority" := hb _ (by decide)
  simp only [e1, e2, e3, e4]

theorem createTask_owner_is_caller_witness :
    (runChains createTaskChains (aliceReq "" (fun _ => none) forgedOwnerBody [])).validationErrors
      = [] ∧
    (createTaskRoute "t3" 30 sampleStore
        (aliceReq "" (fun _ => none) forgedOwnerBody [])).calls =
      [.create { title := some "Write spec", description := none, status := none,
                 priority := none, userId := some "u1" }] :=
  ⟨by decide,
   (createTask_owner_is_caller "t3" 30 sampleStore
      (aliceReq "" (fun _ => none) forgedOwnerBody []) alice.selectWithoutPassword rfl
      (by decide)).1.trans (by decide)⟩

theorem batchDelete_without_userId (rx : String → String → String → Bool) (store : TaskStore)
    (req : Req) (hid : req.userId = none) (hfault : store.faultOf .deleteMany = none) :
    (batchDelete rx store req).store = store ∧
    (batchDelete rx store req).response =
      { status := 200, body := [("message", .str "0 tasks deleted successfully")] } := by
  have hno : ∀ t, (batchFilter req).holds rx t = false := by
    intro t
    simp [TaskFilter.holds, batchFilter, hid, OwnerCond.holds]
  have hfilter : ∀ docs : List Task,
      docs.filter (fun t => !((batchFilter req).holds rx t)) = docs := by
    intro docs
    simp [hno]
  have hcount : ∀ docs : List Task,
      (docs.filter ((batchFilter req).holds rx)).length = 0 := by
    intro docs
    simp [hno]
  simp only [batchDelete, TaskStore.deleteMany, hfault, hfilter, hcount]
  exact ⟨trivial, by decide⟩

/-- C9: the code does not do what the claim says. The batch-delete handler scopes its
filter by `req.userId`, a property that `protect` never sets (it sets `req.user`), so
the owner constraint carries `undefined`: for `alice`, authenticated by `protect`, and
`taskIds = ["t1", "t2"]` where she owns `t1`, nothing is deleted and the response reports
0 tasks, although one task among `taskIds` is hers. -/
theorem batchDelete_not_scoped_to_caller :
    (protect sampleVerify sampleFindById batchReq).1.user = some alice.selectWithoutPassword ∧
    (protect sampleVerify sampleFindById batchReq).1.userId = none ∧
    (batchFilter (protect sampleVerify sampleFindById batchReq).1).userId = .undefined ∧
    (batchDelete noMatch sampleStore (protect sampleVerify sampleFindById batchReq).1).store
      = sampleStore ∧
    (batchDelete noMatch sampleStore
        (protect sampleVerify sampleFindById batchReq).1).response =
      { status := 200, body := [("message", .str "0 tasks deleted successfully")] } ∧
    ownedAmong sampleStore.docs batchReq.taskIds alice.id = [aliceTask] := by
  decide

/-! ## Statistics and sorting -/

theorem stats_eq (rx : String → String → String → Bool) (store : TaskStore) (req : Req) :
    stats rx store req =
      { response := { status := 500, body := [("error", .str "mongoose is not defined")] },
        store := store, calls := [] } := by
  have hscope : ¬ ("mongoose" ∈ tasksModuleScope) := by decide
  simp only [stats, hscope, if_false]

/-- C11: the code does not do what the claim says. The stats handler reads the name
`mongoose`, which `routes/tasks.js` never binds, before it makes any store call: for
every request and every store it answers 500 with the body `{ error: "mongoose is not
defined" }`, makes no store call and reports no total, no counts and no recent tasks.
Here for `alice`, who owns one task of the sample store. -/
theorem stats_always_fails :
    "mongoose" ∉ tasksModuleScope ∧
    (∀ (rx : String → String → String → Bool) (store : TaskStore) (req : Req),
      (stats rx store req).response =
        { status := 500, body := [("error", .str "mongoose is not defined")] } ∧
      (stats rx store req).calls = []) ∧
    (stats noMatch sampleStore (protect sampleVerify sampleFindById batchReq).1).response.status
      = 500 ∧
    (stats noMatch sampleStore
      (protect sampleVerify sampleFindById batchReq).1).response.field "total" = none ∧
    (sampleStore.docs.filter (fun t => t.userId = alice.id)).length = 1 := by
  refine ⟨by decide, ?_, by decide, by decide, by decide⟩
  intro rx store req
  rw [stats_eq rx store req]
  exact ⟨rfl, rfl⟩

/-- C12: the code does not do what the claim says. With `sort=priority` the handler
sorts on the priority strings in descending order, and as strings "medium" > "low" >
"high": of three tasks of the caller with priorities low, high and medium the response
lists the medium one first, then the low one, and the high one last. -/
theorem listTasks_priority_sort_is_alphabetical :
    (listQuery sortByPriorityReq).map (fun p => p.2) = some [("priority", -1)] ∧
    ((listTasks noMatch priorityStore sortByPriorityReq).response.field "data").map
        (fun v => match v with
          | .tasks ts => ts.map (fun t => t.priority)
          | _ => []) = some ["medium", "low", "high"] ∧
    (listTasks noMatch priorityStore sortByPriorityReq).response.status = 200 := by
  decide

/-! ## Validation of `POST /api/tasks` -/

theorem Chain.run_errors (c : Chain) (req : Req) :
    (c.run req).validationErrors = req.validationErrors ++ chainErrors c req.body := by
  unfold Chain.run chainErrors
  split <;> simp

theorem Chain.run_body_other (c : Chain) (req : Req) (k : String) (hk : k ≠ c.field) :
    (c.run req).body k = req.body k := by
  rw [Chain.run_body]
  simp [hk]

theorem chainErrors_congr (c : Chain) (b₁ b₂ : String → Option String)
    (h : b₁ c.field = b₂ c.field) : chainErrors c b₁ = chainErrors c b₂ := by
  unfold chainErrors
  rw [h]

/-- Chains on pairwise different fields report, one after the other, what each reports
on the body as it came in. -/
theorem runChains_errors (cs : List Chain) (hnd : (cs.map (fun c => c.field)).Nodup)
    (req : Req) :
    (runChains cs req).validationErrors =
      req.validationErrors ++ (cs.map (fun c => chainErrors c req.body)).flatten := by
  induction cs generalizing req with
  | nil => simp [runChains]
  | cons c cs ih =>
    have hnd2 : (cs.map (fun c => c.field)).Nodup := (List.nodup_cons.mp hnd).2
    have hc : ∀ c1 ∈ cs, c1.field ≠ c.field := by
      intro c1 h1 heq
      exact (List.nodup_cons.mp hnd).1 (List.mem_map.mpr ⟨c1, h1, heq⟩)
    show (runChains cs (c.run req)).validationErrors = _
    rw [ih hnd2, Chain.run_errors]
    have hsame : cs.map (fun c1 => chainErrors c1 (c.run req).body) =
        cs.map (fun c1 => chainErrors c1 req.body) := by
      apply List.map_congr_left
      intro c1 h1
      exact chainErrors_congr c1 _ _ (Chain.run_body_other c req c1.field (hc c1 h1))
    rw [hsame]
    simp

theorem utf16Length_eq (l : List Char) :
    (l.map utf16Units).sum =
      l.length + (l.filter (fun c => decide (0x10000 ≤ c.toNat))).length := by
  induction l with
  | nil => rfl
  | cons c cs ih =>
    simp only [List.map_cons, List.sum_cons, List.filter_cons, List.length_cons, ih,
      utf16Units]
    by_cases h : 0x10000 ≤ c.toNat
    · simp only [h, if_true, decide_True, List.length_cons]
      omega
    · simp only [h, if_false, decide_False]
      simp
      omega

theorem length_filter_selectors (l : List Char) :
    l.length = (l.filter isVariationSelector).length +
      (l.filter (fun c => !isVariationSelector c)).length := by
  induction l with
  | nil => rfl
  | cons c cs ih =>
    simp only [List.filter_cons, List.length_cons]
    cases h : isVariationSelector c
    · simp
      omega
    · simp
      omega

/-- The length the validator compares is the number of characters other than variation
selectors. -/
theorem validatorLength_eq_counted (s : String) : validatorLength s = countedLength s := by
  have h1 := utf16Length_eq s.data
  have h2 := length_filter_selectors s.data
  simp only [validatorLength, countedLength, utf16Length]
  omega

theorem validatorLength_empty : validatorLength "" = 0 := by decide

theorem createTaskChains_accepts_iff (req : Req) (hempty : req.validationErrors = []) :
    (runChains createTaskChains req).validationErrors = [] ↔
      passesCreateChecksCounted req.body = true := by
  rw [runChains_errors createTaskChains (by decide) req, hempty]
  simp only [createTaskChains, commonTaskChains, chainErrors, passesCreateChecksCounted,
    runChecks, validatorLength_eq_counted, statusValues, priorityValues, List.map_cons, List.map_nil, List.flatten_cons,
    List.flatten_nil, List.nil_append, List.append_nil, Bool.false_and, Bool.true_and]
  cases hd : req.body "description" <;> cases hs : req.body "status" <;>
    cases hp : req.body "priority" <;>
    simp only [Option.isNone_none, Option.isNone_some, if_true, if_false, asString] <;>
    (repeat' split) <;> simp_all

theorem createTaskRoute_rejected (newId : String) (now : Nat) (store : TaskStore) (req : Req)
    (hrej : (runChains createTaskChains req).validationErrors ≠ []) :
    createTaskRoute newId now store req =
      { response := validationFailed (runChains createTaskChains req).validationErrors,
        store := store, calls := [] } := by
  unfold createTaskRoute createTask
  simp [hrej]

/-- C13, the claim as stated fails: the validator counts the length of a string without
the variation selectors U+FE0E and U+FE0F. A title of one hundred letters followed by a
variation selector has 101 characters, so it does not pass the checks as the
specification words them, yet the validator chains report no error and the handler
calls `Task.create` with that title. -/
theorem createTask_accepts_title_of_101_characters :
    selectorTitle.length = 101 ∧
    utf16Length selectorTitle = 101 ∧
    passesCreateChecks selectorTitleBody = false ∧
    (runChains createTaskChains
      (aliceReq "" (fun _ => none) selectorTitleBody [])).validationErrors = [] ∧
    (createTaskRoute "t3" 30 sampleStore
      (aliceReq "" (fun _ => none) selectorTitleBody [])).calls =
      [.create { title := some selectorTitle, description := none, status := none,
                 priority := none, userId := some "u1" }] := by
  decide

/-- C13, amended: for every body sent to `POST /api/tasks` by an authenticated caller,
the handler invokes the store's create operation exactly when the body passes the checks
with lengths counted without variation selectors (`passesCreateChecksCounted`: the
trimmed title is non-empty and has at most 100 characters other than U+FE0E and U+FE0F,
the trimmed description at most 500, status and priority are absent or among their three
values); otherwise it makes no store call, leaves the store unchanged and answers 400
with `success: false` and a non-empty `errors` list. -/
theorem createTask_invoked_iff_valid (newId : String) (now : Nat) (store : TaskStore)
    (req : Req) (caller : User) (hu : req.user = some caller)
    (hempty : req.validationErrors = []) :
    ((∃ r, StoreCall.create r ∈ (createTaskRoute newId now store req).calls) ↔
      passesCreateChecksCounted req.body = true) ∧
    (passesCreateChecksCounted req.body = false →
      (createTaskRoute newId now store req).response.status = 400 ∧
      (createTaskRoute newId now store req).response.field "success" = some (.bool false) ∧
      (∃ es, es ≠ [] ∧
        (createTaskRoute newId now store req).response.field "errors" = some (.errors es)) ∧
      (createTaskRoute newId now store req).calls = [] ∧
      (createTaskRoute newId now store req).store = store) := by
  have hiff := createTaskChains_accepts_iff req hempty
  constructor
  · constructor
    · rintro ⟨r, hr⟩
      by_contra hp
      have hrej : (runChains createTaskChains req).validationErrors ≠ [] :=
        fun h => hp (hiff.mp h)
      rw [createTaskRoute_rejected newId now store req hrej] at hr
      simp at hr
    · intro hp
      have hc := createTaskRoute_calls newId now store req caller hu (hiff.mpr hp)
      exact ⟨_, by rw [hc]; exact List.mem_singleton.mpr rfl⟩
  · intro hp
    have hrej : (runChains createTaskChains req).validationErrors ≠ [] := by
      intro h
      rw [hiff.mp h] at hp
      cases hp
    rw [createTaskRoute_rejected newId now store req hrej]
    refine ⟨rfl, ?_, ⟨_, hrej, ?_⟩, rfl, rfl⟩
    · simp [Response.field, validationFailed, List.lookup]
    · simp [Response.field, validationFailed, List.lookup]

theorem createTask_invoked_iff_valid_witness :
    (aliceReq "" (fun _ => none) blankTitleBody []).user = some alice.selectWithoutPassword ∧
    passesCreateChecksCounted blankTitleBody = false ∧
    (createTaskRoute "t3" 30 sampleStore
      (aliceReq "" (fun _ => none) blankTitleBody [])).response.status = 400 ∧
    (createTaskRoute "t3" 30 sampleStore
      (aliceReq "" (fun _ => none) blankTitleBody [])).store = sampleStore ∧
    ((∃ r, StoreCall.create r ∈ (createTaskRoute "t3" 30 sampleStore
        (aliceReq "" (fun _ => none) selectorTitleBody [])).calls) ↔
      passesCreateChecksCounted selectorTitleBody = true) :=
  have hw := (createTask_invoked_iff_valid "t3" 30 sampleStore
    (aliceReq "" (fun _ => none) blankTitleBody []) alice.selectWithoutPassword rfl rfl).2
    (by decide)
  ⟨rfl, by decide, hw.1, hw.2.2.2.2,
   (createTask_invoked_iff_valid "t3" 30 sampleStore
    (aliceReq "" (fun _ => none) selectorTitleBody []) alice.selectWithoutPassword rfl rfl).1⟩

/-! ## Frame of `DELETE /api/tasks/:id` -/

theorem byIdFilter_holds (rx : String → String → String → Bool) (id : String) (d : Task) :
    (byIdFilter id).holds rx d = decide (d._id = id) := by
  simp [TaskFilter.holds, byIdFilter, IdCond.holds, OwnerCond.holds]

/-- With unique identifiers, the task the handler deletes by id is the task its scoped
lookup found. -/
theorem find_byId_eq (rx : String → String → String → Bool) (s : TaskStore) (id : String)
    (t : Task) (huniq : s.uniqueIds) (ht : t ∈ s.docs) (hid : t._id = id) :
    s.docs.find? ((byIdFilter id).holds rx) = some t := by
  cases hf : s.docs.find? ((byIdFilter id).holds rx) with
  | none =>
    rw [List.find?_eq_none] at hf
    have := hf t ht
    rw [byIdFilter_holds] at this
    simp [hid] at this
  | some t1 =>
    have h1 := List.find?_some hf
    rw [byIdFilter_holds] at h1
    have hm := List.mem_of_find?_eq_some hf
    have heq : t1 = t :=
      List.inj_on_of_nodup_map huniq hm ht (by rw [of_decide_eq_true h1, hid])
    rw [heq]

/-- The outcomes of the handler of `DELETE /:id`, by what the scoped lookup and the
delete return. -/
theorem deleteTask_cases (rx : String → String → String → Bool) (store : TaskStore)
    (req : Req) (caller : User) (hu : req.user = some caller) (huniq : store.uniqueIds) :
    ((deleteTask rx store req).store = store ∧
      (∀ f, StoreCall.deleteOne f ∉ (deleteTask rx store req).calls) ∧
      ((store.faultOf .findOne = none ∧
          store.docs.find? ((ownedTaskFilter req.paramsId caller).holds rx) = none) →
        (deleteTask rx store req).response = taskNotFound)) ∨
    (∃ t ∈ store.docs, t._id = req.paramsId ∧ t.userId = caller.id ∧
      (deleteTask rx store req).calls =
        [.findOne (ownedTaskFilter req.paramsId caller), .deleteOne (byIdFilter req.paramsId)] ∧
      ((deleteTask rx store req).store = store ∨
        (deleteTask rx store req).store = { store with docs := store.docs.erase t })) := by
  unfold deleteTask
  simp only [hu, TaskStore.findOne]
  cases hff : store.faultOf .findOne with
  | some e => left; simp
  | none =>
    cases hfind : store.docs.find? ((ownedTaskFilter req.paramsId caller).holds rx) with
    | none => left; simp
    | some t =>
      right
      have hmem := List.mem_of_find?_eq_some hfind
      have hholds := List.find?_some hfind
      rw [ownedTaskFilter_holds] at hholds
      simp only [Bool.and_eq_true, decide_eq_true_eq] at hholds
      refine ⟨t, hmem, hholds.1, hholds.2, ?_⟩
      have hby := find_byId_eq rx store req.paramsId t huniq hmem hholds.1
      simp only [byIdFilter] at hby
      simp only [TaskStore.deleteOne, byIdFilter, hby]
      cases hfd : store.faultOf .deleteOne with
      | some e => simp
      | none => simp

/-- C19: for every caller, task id and store (with unique task identifiers), the handler
of `DELETE /api/tasks/:id` calls the store's delete, which is keyed by the id alone, only
after its lookup found a task with that id owned by the caller; the store afterwards is
the store before or the store before without that one task; every task of another user
is still stored; and when no task with that id is owned by the caller and the lookup
does not fail, the response is 404 and the store is unchanged. -/
theorem deleteTask_frame (rx : String → String → String → Bool) (store : TaskStore)
    (req : Req) (caller : User) (hu : req.user = some caller) (huniq : store.uniqueIds) :
    (∀ f, StoreCall.deleteOne f ∈ (deleteTask rx store req).calls →
      f = byIdFilter req.paramsId ∧ f.userId = .any ∧
      ∃ t ∈ store.docs, t._id = req.paramsId ∧ t.userId = caller.id ∧
        (deleteTask rx store req).calls =
          [.findOne (ownedTaskFilter req.paramsId caller), .deleteOne f]) ∧
    ((deleteTask rx store req).store = store ∨
      ∃ t ∈ store.docs, t._id = req.paramsId ∧ t.userId = caller.id ∧
        (deleteTask rx store req).store = { store with docs := store.docs.erase t }) ∧
    (∀ d ∈ store.docs, d.userId ≠ caller.id → d ∈ (deleteTask rx store req).store.docs) ∧
    ((∀ t ∈ store.docs, t._id = req.paramsId → t.userId ≠ caller.id) →
      store.faultOf .findOne = none →
      (deleteTask rx store req).response = taskNotFound ∧ taskNotFound.status = 404 ∧
      (deleteTask rx store req).store = store) := by
  rcases deleteTask_cases rx store req caller hu huniq with
    ⟨hs, hno, h404⟩ | ⟨t, ht, hid, hown, hcalls, hstore⟩
  · refine ⟨fun f hf => absurd hf (hno f), Or.inl hs, ?_, ?_⟩
    · intro d hd _
      rw [hs]
      exact hd
    · intro hnone hfault
      refine ⟨h404 ⟨hfault, ?_⟩, rfl, hs⟩
      rw [List.find?_eq_none]
      intro d hd hholds
      rw [ownedTaskFilter_holds] at hholds
      simp only [Bool.and_eq_true, decide_eq_true_eq] at hholds
      exact hnone d hd hholds.1 hholds.2
  · refine ⟨?_, ?_, ?_, ?_⟩
    · intro f hf
      rw [hcalls] at hf
      simp only [List.mem_cons, List.mem_singleton, StoreCall.deleteOne.injEq,
        List.not_mem_nil, or_false, false_or, reduceCtorEq] at hf
      subst hf
      exact ⟨rfl, rfl, t, ht, hid, hown, hcalls⟩
    · rcases hstore with h | h
      · exact Or.inl h
      · exact Or.inr ⟨t, ht, hid, hown, h⟩
    · intro d hd hne
      rcases hstore with h | h
      · rw [h]
        exact hd
      · rw [h]
        have hdt : d ≠ t := fun heq => hne (heq ▸ hown)
        exact (List.mem_erase_of_ne hdt).mpr hd
    · intro hnone _
      exact absurd hown (hnone t ht hid)

theorem deleteTask_frame_witness :
    sampleStore.uniqueIds ∧
    (∀ d ∈ sampleStore.docs, d.userId ≠ alice.selectWithoutPassword.id →
      d ∈ (deleteTask noMatch sampleStore
        (aliceReq "t1" (fun _ => none) (fun _ => none) [])).store.docs) ∧
    (deleteTask noMatch sampleStore
      (aliceReq "t1" (fun _ => none) (fun _ => none) [])).store.docs = [bobTask] :=
  ⟨by decide,
   (deleteTask_frame noMatch sampleStore (aliceReq "t1" (fun _ => none) (fun _ => none) [])
      alice.selectWithoutPassword rfl (by decide)).2.2.1,
   by decide⟩

/-! ## Validation of the auth and user routes -/

theorem authChain_run_user (env : Env) (c : AuthChain) (req : Req) :
    (c.run env req).user = req.user := by
  unfold AuthChain.run
  split <;> rfl

theorem runAuthChains_user (env : Env) (cs : List AuthChain) (req : Req) :
    (runAuthChains env cs req).user = req.user := by
  induction cs generalizing req with
  | nil => rfl
  | cons c cs ih =>
    show (runAuthChains env cs (c.run env req)).user = req.user
    rw [ih, authChain_run_user]

theorem authChain_run_errors (env : Env) (c : AuthChain) (req : Req) :
    (c.run env req).validationErrors = req.validationErrors ++ authChainErrors env c req.body := by
  unfold AuthChain.run authChainErrors
  split <;> simp

theorem authChain_run_body_self (env : Env) (c : AuthChain) (req : Req) :
    (c.run env req).body c.field = authChainValue env c req.body := by
  unfold AuthChain.run authChainValue
  split
  · rfl
  · simp [setField]

theorem authChain_run_body_other (env : Env) (c : AuthChain) (req : Req) (k : String)
    (hk : k ≠ c.field) : (c.run env req).body k = req.body k := by
  unfold AuthChain.run
  split
  · rfl
  · simp [setField, hk]

theorem authChainErrors_congr (env : Env) (c : AuthChain) (b₁ b₂ : String → Option String)
    (h : b₁ c.field = b₂ c.field) : authChainErrors env c b₁ = authChainErrors env c b₂ := by
  unfold authChainErrors
  rw [h]

theorem authChainValue_congr (env : Env) (c : AuthChain) (b₁ b₂ : String → Option String)
    (h : b₁ c.field = b₂ c.field) : authChainValue env c b₁ = authChainValue env c b₂ := by
  unfold authChainValue
  rw [h]

theorem runAuthChains_body_other (env : Env) (cs : List AuthChain) (req : Req) (k : String)
    (hk : ∀ c ∈ cs, k ≠ c.field) : (runAuthChains env cs req).body k = req.body k := by
  induction cs generalizing req with
  | nil => rfl
  | cons c cs ih =>
    show (runAuthChains env cs (c.run env req)).body k = req.body k
    rw [ih _ (fun c1 h1 => hk c1 (List.mem_cons_of_mem _ h1)),
      authChain_run_body_other env c req k (hk c (List.mem_cons_self _ _))]

/-- Chains on pairwise different fields: the errors are those each chain reports on the
body as it came in, and each field holds what its chain leaves there. -/
theorem runAuthChains_spec (env : Env) (cs : List AuthChain)
    (hnd : (cs.map (fun c => c.field)).Nodup) (req : Req) :
    (runAuthChains env cs req).validationErrors =
      req.validationErrors ++ (cs.map (fun c => authChainErrors env c req.body)).flatten ∧
    ∀ c ∈ cs, (runAuthChains env cs req).body c.field = authChainValue env c req.body := by
  induction cs generalizing req with
  | nil => simp [runAuthChains]
  | cons c cs ih =>
    have hnd2 : (cs.map (fun c => c.field)).Nodup := (List.nodup_cons.mp hnd).2
    have hc : ∀ c1 ∈ cs, c1.field ≠ c.field := by
      intro c1 h1 heq
      exact (List.nodup_cons.mp hnd).1 (List.mem_map.mpr ⟨c1, h1, heq⟩)
    obtain ⟨ihe, ihb⟩ := ih hnd2 (c.run env req)
    constructor
    · show (runAuthChains env cs (c.run env req)).validationErrors = _
      rw [ihe, authChain_run_errors]
      have hsame : cs.map (fun c1 => authChainErrors env c1 (c.run env req).body) =
          cs.map (fun c1 => authChainErrors env c1 req.body) := by
        apply List.map_congr_left
        intro c1 h1
        exact authChainErrors_congr env c1 _ _
          (authChain_run_body_other env c req c1.field (hc c1 h1))
      rw [hsame]
      simp
    · intro c1 h1
      show (runAuthChains env cs (c.run env req)).body c1.field = _
      rcases List.mem_cons.mp h1 with h | h
      · subst h
        rw [runAuthChains_body_other env cs _ _ (fun c2 h2 => (hc c2 h2).symm),
          authChain_run_body_self]
      · rw [ihb c1 h]
        exact authChainValue_congr env c1 _ _
          (authChain_run_body_other env c req c1.field (hc c1 h))

theorem emailChecks_run (env : Env) (f : String) (v : Option String) :
    (runAuthChecks env f emailChecks v).1 = some (env.normalizeEmail (asString v)) ∧
    ((runAuthChecks env f emailChecks v).2 = [] ↔ env.isEmail (asString v) = true) := by
  simp only [runAuthChecks, emailChecks]
  split <;> simp_all

theorem nameChecks_run (env : Env) (f : String) (v : Option String) :
    (runAuthChecks env f nameChecks v).1 = some (jsTrim (asString v)) ∧
    ((runAuthChecks env f nameChecks v).2 = [] ↔ 2 ≤ validatorLength (jsTrim (asString v))) := by
  simp only [runAuthChecks, nameChecks, runChecks, asString]
  split <;> simp_all

theorem minLength_run (env : Env) (f : String) (n : Nat) (m : String) (v : Option String) :
    (runAuthChecks env f [.isLengthMin n m] v).1 = v ∧
    ((runAuthChecks env f [.isLengthMin n m] v).2 = [] ↔ n ≤ validatorLength (asString v)) := by
  simp only [runAuthChecks]
  split <;> simp_all

theorem notEmpty_run (env : Env) (f : String) (m : String) (v : Option String) :
    (runAuthChecks env f [.base (.notEmpty m)] v).1 = v ∧
    ((runAuthChecks env f [.base (.notEmpty m)] v).2 = [] ↔ asString v ≠ "") := by
  simp only [runAuthChecks, runChecks]
  split <;> simp_all

theorem registerChains_spec (env : Env) (req : Req) (hempty : req.validationErrors = []) :
    (runAuthChains env registerChains req).body "name" =
      some (jsTrim (asString (req.body "name"))) ∧
    (runAuthChains env registerChains req).body "email" =
      some (env.normalizeEmail (asString (req.body "email"))) ∧
    (runAuthChains env registerChains req).body "password" = req.body "password" ∧
    ((runAuthChains env registerChains req).validationErrors = [] ↔
      (2 ≤ validatorLength (jsTrim (asString (req.body "name"))) ∧
        env.isEmail (asString (req.body "email")) = true ∧
        6 ≤ validatorLength (asString (req.body "password")))) := by
  obtain ⟨he, hb⟩ := runAuthChains_spec env registerChains (by decide) req
  have h1 := hb _ (List.mem_cons_self _ _)
  have h2 := hb _ (List.mem_cons_of_mem _ (List.mem_cons_self _ _))
  have h3 := hb _ (List.mem_cons_of_mem _ (List.mem_cons_of_mem _ (List.mem_cons_self _ _)))
  simp only [authChainValue, Bool.false_and, if_false, Bool.false_eq_true] at h1 h2 h3
  rw [(nameChecks_run env _ _).1] at h1
  rw [(emailChecks_run env _ _).1] at h2
  rw [(minLength_run env _ _ _ _).1] at h3
  refine ⟨h1, h2, h3, ?_⟩
  rw [he, hempty]
  simp only [registerChains, authChainErrors, List.map_cons, List.map_nil, List.flatten_cons,
    List.flatten_nil, List.nil_append, List.append_nil, Bool.false_and, if_false,
    Bool.false_eq_true, List.append_eq_nil, (nameChecks_run env _ _).2,
    (emailChecks_run env _ _).2, (minLength_run env _ _ _ _).2]

theorem loginChains_spec (env : Env) (req : Req) (hempty : req.validationErrors = []) :
    (runAuthChains env loginChains req).body "email" =
      some (env.normalizeEmail (asString (req.body "email"))) ∧
    (runAuthChains env loginChains req).body "password" = req.body "password" ∧
    ((runAuthChains env loginChains req).validationErrors = [] ↔
      (env.isEmail (asString (req.body "email")) = true ∧
        asString (req.body "password") ≠ "")) := by
  obtain ⟨he, hb⟩ := runAuthChains_spec env loginChains (by decide) req
  have h1 := hb _ (List.mem_cons_self _ _)
  have h2 := hb _ (List.mem_cons_of_mem _ (List.mem_cons_self _ _))
  simp only [authChainValue, Bool.false_and, if_false, Bool.false_eq_true] at h1 h2
  rw [(emailChecks_run env _ _).1] at h1
  rw [(notEmpty_run env _ _ _).1] at h2
  refine ⟨h1, h2, ?_⟩
  rw [he, hempty]
  simp only [loginChains, authChainErrors, List.map_cons, List.map_nil, List.flatten_cons,
    List.flatten_nil, List.nil_append, List.append_nil, Bool.false_and, if_false,
    Bool.false_eq_true, List.append_eq_nil, (emailChecks_run env _ _).2,
    (notEmpty_run env _ _ _).2]

theorem profileChains_spec (env : Env) (req : Req) (hempty : req.validationErrors = []) :
    (runAuthChains env profileChains req).body "name" = (req.body "name").map jsTrim ∧
    (runAuthChains env profileChains req).body "email" =
      (req.body "email").map env.normalizeEmail ∧
    ((runAuthChains env profileChains req).validationErrors = [] ↔
      ((∀ n, req.body "name" = some n → 2 ≤ validatorLength (jsTrim n)) ∧
        (∀ e, req.body "email" = some e → env.isEmail e = true))) := by
  obtain ⟨he, hb⟩ := runAuthChains_spec env profileChains (by decide) req
  have h1 := hb _ (List.mem_cons_self _ _)
  have h2 := hb _ (List.mem_cons_of_mem _ (List.mem_cons_self _ _))
  simp only [authChainValue, Bool.true_and] at h1 h2
  rw [(nameChecks_run env _ _).1] at h1
  rw [(emailChecks_run env _ _).1] at h2
  refine ⟨?_, ?_, ?_⟩
  · rw [h1]
    cases hn : req.body "name" <;> simp [asString]
  · rw [h2]
    cases hm : req.body "email" <;> simp [asString]
  · rw [he, hempty]
    simp only [profileChains, authChainErrors, List.map_cons, List.map_nil,
      List.flatten_cons, List.flatten_nil, List.nil_append, List.append_nil, Bool.true_and,
      List.append_eq_nil]
    cases hn : req.body "name" <;> cases hm : req.body "email" <;>
      simp [(nameChecks_run env _ _).2, (emailChecks_run env _ _).2, asString]

/-! ## Registration and login -/

theorem find?_some_of_mem {α : Type} (p : α → Bool) (l : List α) (a : α) (ha : a ∈ l)
    (hp : p a = true) : ∃ b, l.find? p = some b ∧ p b = true ∧ b ∈ l := by
  cases hf : l.find? p with
  | none =>
    rw [List.find?_eq_none] at hf
    exact absurd hp (hf a ha)
  | some b => exact ⟨b, rfl, List.find?_some hf, List.mem_of_find?_eq_some hf⟩

/-- C14: for every well-formed registration request whose normalized email belongs to
a user of the store, and a store whose lookup does not fail, the register route answers
400 `{success: false, message: "User with this email already exists"}`; it calls neither
the store's create operation nor `generateToken`, the store is unchanged and the
response carries no `data`, hence no token. -/
theorem register_duplicate_email (env : Env) (newId : String) (now : Nat) (store : UserStore)
    (req : Req) (u : User) (hempty : req.validationErrors = [])
    (hvalid : (runAuthChains env registerChains req).validationErrors = [])
    (hu : u ∈ store.docs)
    (hemail : u.email = env.normalizeEmail (asString (req.body "email")))
    (hfault : store.faultOf .findOne = none) :
    (registerRoute env newId now store req).response =
      failure 400 "User with this email already exists" ∧
    (registerRoute env newId now store req).response.status = 400 ∧
    (registerRoute env newId now store req).response.field "success" = some (.bool false) ∧
    (registerRoute env newId now store req).response.field "data" = none ∧
    (registerRoute env newId now store req).store = store ∧
    (∀ r, AuthCall.create r ∉ (registerRoute env newId now store req).calls) ∧
    (∀ id, AuthCall.generateToken id ∉ (registerRoute env newId now store req).calls) := by
  obtain ⟨-, hbe, -, -⟩ := registerChains_spec env req hempty
  obtain ⟨b, hfind, -, -⟩ := find?_some_of_mem
    (fun v : User => decide (v.email = env.normalizeEmail (asString (req.body "email"))))
    store.docs u hu (by simp [hemail])
  have hr : registerRoute env newId now store req =
      { response := failure 400 "User with this email already exists", store := store,
        calls := [.findOneByEmail (some (env.normalizeEmail (asString (req.body "email"))))
                    false] } := by
    unfold registerRoute register
    simp [hvalid, hbe, UserStore.findOneByEmail, hfault, hfind]
  rw [hr]
  refine ⟨rfl, rfl, rfl, rfl, rfl, ?_, ?_⟩ <;> intro x hx <;> simp at hx

theorem register_duplicate_email_witness :
    (runAuthChains sampleEnv registerChains (bodyOnly duplicateBody)).validationErrors = [] ∧
    alice.email = sampleEnv.normalizeEmail (asString ((bodyOnly duplicateBody).body "email")) ∧
    (registerRoute sampleEnv "u7" 1000 sampleUsers (bodyOnly duplicateBody)).response =
      failure 400 "User with this email already exists" :=
  ⟨by decide, by decide,
   (register_duplicate_email sampleEnv "u7" 1000 sampleUsers (bodyOnly duplicateBody) alice
      rfl (by decide) (by decide) (by decide) rfl).1⟩

/-! ## Token lifetime -/

theorem spanSeconds_thirty_days : spanSeconds "30d" = some 2592000 := by decide

theorem generateToken_eq (env : Env) (now : Nat) (id : String) :
    generateToken env now id =
      .ok (env.encode { claims := { id := some id, iat := now, exp := some (now + 2592000) },
                        key := jwtSecret env }) := by
  simp only [generateToken, jwtSign, spanSeconds_thirty_days]

theorem jwtVerify_expired (env : Env) (key : String) (now : Nat) (tok : String)
    (signed : SignedToken) (exp : Nat) (hdec : env.decode tok = some signed)
    (hkey : signed.key = key) (hexp : signed.claims.exp = some exp) (hlate : exp ≤ now) :
    ∃ e, jwtVerify env key now (some tok) = .error e := by
  unfold jwtVerify
  by_cases ht : tok = ""
  · exact ⟨.malformed, by simp [ht]⟩
  · exact ⟨.expired, by simp [ht, hdec, hkey, hexp, hlate]⟩

/-- C16: `generateToken(id)` called at time `now` returns the token whose payload is
`{ id }` and whose expiry is `now + 2592000` seconds, that is 30 days after its issue
time; and when that token (which the token library reads back, and which like every
serialized token contains no space) is presented to `protect` at a time later than its
expiry, the gateway answers 403 and does not call `next()`, whatever the id is. -/
theorem generateToken_expires_after_30_days (env : Env) (now later : Nat) (id : String)
    (findById : Option String → Except String (Option User)) (req : Req)
    (hdecode : env.decode (env.encode
        { claims := { id := some id, iat := now, exp := some (now + 2592000) },
          key := jwtSecret env }) =
      some { claims := { id := some id, iat := now, exp := some (now + 2592000) },
             key := jwtSecret env })
    (hnospace : ' ' ∉ (env.encode
        { claims := { id := some id, iat := now, exp := some (now + 2592000) },
          key := jwtSecret env }).data)
    (hreq : req.authorization = some ("Bearer " ++ env.encode
        { claims := { id := some id, iat := now, exp := some (now + 2592000) },
          key := jwtSecret env }))
    (hlate : now + 2592000 < later) :
    generateToken env now id =
      .ok (env.encode { claims := { id := some id, iat := now, exp := some (now + 2592000) },
                        key := jwtSecret env }) ∧
    2592000 = 30 * 24 * 60 * 60 ∧
    responses (protect (protectVerify env later) findById req).2 = [forbiddenResponse] ∧
    forbiddenResponse.status = 403 ∧
    nextCalls (protect (protectVerify env later) findById req).2 = 0 := by
  obtain ⟨hb, htok⟩ := bearerToken_bearer _ hnospace
  obtain ⟨e, he⟩ := jwtVerify_expired env (jwtSecret env) later _ _ (now + 2592000) hdecode
    rfl rfl (Nat.le_of_lt hlate)
  have hv : protectVerify env later (bearerToken ("Bearer " ++ env.encode
      { claims := { id := some id, iat := now, exp := some (now + 2592000) },
        key := jwtSecret env })) = .error e := by
    rw [htok]
    exact he
  rw [protect_verify_fails (protectVerify env later) findById req _ e hreq hb hv]
  exact ⟨generateToken_eq env now id, by norm_num, rfl, rfl, rfl⟩

theorem generateToken_expires_after_30_days_witness :
    generateToken sampleEnv 2000 "u7" = .ok "jwt.u7.2000" ∧
    responses (protect (protectVerify sampleEnv 2594001) sampleFindById
      (headerOnly (some "Bearer jwt.u7.2000"))).2 = [forbiddenResponse] :=
  have hw := generateToken_expires_after_30_days sampleEnv 2000 2594001 "u7" sampleFindById
    (headerOnly (some "Bearer jwt.u7.2000")) (by decide) (by decide) (by decide) (by decide)
  ⟨hw.1.trans (by decide), hw.2.2.1⟩

theorem asString_some (s : String) : asString (some s) = s := rfl

/-- What a registration that answers 201 has done. -/
theorem register_success_inv (env : Env) (newId : String) (now : Nat) (store : UserStore)
    (req : Req) (hempty : req.validationErrors = [])
    (hsucc : (registerRoute env newId now store req).response.status = 201) :
    (2 ≤ validatorLength (jsTrim (asString (req.body "name"))) ∧
      env.isEmail (asString (req.body "email")) = true ∧
      6 ≤ validatorLength (asString (req.body "password"))) ∧
    store.faultOf .findOne = none ∧
    store.docs.find? (fun u => u.email = env.normalizeEmail (asString (req.body "email")))
      = none ∧
    (registerRoute env newId now store req).store =
      { store with docs := store.docs ++ [registeredUser env newId now req] } ∧
    (registerRoute env newId now store req).response.field "data" =
      some (sessionData (registeredUser env newId now req) (issuedToken env now newId)) := by
  obtain ⟨hbn, hbe, hbp, hiff⟩ := registerChains_spec env req hempty
  have hv : (runAuthChains env registerChains req).validationErrors = [] := by
    by_contra hne
    simp [registerRoute, register, hne, validationFailed] at hsucc
  have hchecks := hiff.mp hv
  obtain ⟨pw, hpw⟩ : ∃ pw, req.body "password" = some pw := by
    cases hp : req.body "password" with
    | none =>
      have h6 := hchecks.2.2
      rw [hp] at h6
      simp [asString, validatorLength_empty] at h6
    | some pw => exact ⟨pw, rfl⟩
  cases hff : store.faultOf .findOne with
  | some e =>
    simp [registerRoute, register, hv, hbe, UserStore.findOneByEmail, hff, failure] at hsucc
  | none =>
    cases hfind : store.docs.find?
        (fun u => decide (u.email = env.normalizeEmail (asString (req.body "email")))) with
    | some u0 =>
      simp [registerRoute, register, hv, hbe, UserStore.findOneByEmail, hff, hfind, failure]
        at hsucc
    | none =>
      have hany : store.docs.any
          (fun u => decide (u.email = env.normalizeEmail (asString (req.body "email"))))
          = false := by
        rw [List.find?_eq_none] at hfind
        rw [List.any_eq_false]
        exact hfind
      cases hfc : store.faultOf .create with
      | some e =>
        simp [registerRoute, register, hv, hbe, hbn, hbp, hpw, UserStore.findOneByEmail, hff,
          hfind, UserStore.create, hfc, failure] at hsucc
      | none =>
        refine ⟨hchecks, rfl, rfl, ?_, ?_⟩
        · simp [registerRoute, register, hv, hbe, hbn, hbp, hpw, UserStore.findOneByEmail,
            hff, hfind, UserStore.create, hfc, hany, generateToken_eq, registeredUser,
            asString_some]
        · simp [registerRoute, register, hv, hbe, hbn, hbp, hpw, UserStore.findOneByEmail,
            hff, hfind, UserStore.create, hfc, hany, generateToken_eq, registeredUser,
            asString_some, issuedToken, Response.field, List.lookup]

theorem jwtVerify_accepts (env : Env) (key : String) (now : Nat) (tok : String)
    (claims : Claims) (exp : Nat) (hne : tok ≠ "")
    (hdec : env.decode tok = some { claims := claims, key := key })
    (hexp : claims.exp = some exp) (hnow : now < exp) :
    jwtVerify env key now (some tok) = .ok { id := claims.id } := by
  unfold jwtVerify
  simp [hne, hdec, hexp, Nat.not_le.mpr hnow]

theorem login_after_register (env : Env) (newId : String) (t₀ t₁ : Nat) (store : UserStore)
    (reg log : Req) (hlog0 : log.validationErrors = [])
    (hchecks : 2 ≤ validatorLength (jsTrim (asString (reg.body "name"))) ∧
      env.isEmail (asString (reg.body "email")) = true ∧
      6 ≤ validatorLength (asString (reg.body "password")))
    (hff : store.faultOf .findOne = none)
    (hfind : store.docs.find?
      (fun u => u.email = env.normalizeEmail (asString (reg.body "email"))) = none)
    (hemail : log.body "email" = reg.body "email")
    (hpw : log.body "password" = reg.body "password")
    (hcompare : env.compare (asString (reg.body "password"))
      (env.hash (asString (reg.body "password"))) = true) :
    loginRoute env t₁ { store with docs := store.docs ++ [registeredUser env newId t₀ reg] } log =
      { response :=
          { status := 200,
            body := [("success", .bool true), ("message", .str "Login successful"),
                     ("data", sessionData (registeredUser env newId t₀ reg)
                        (issuedToken env t₁ newId))] },
        store := { store with docs := store.docs ++ [registeredUser env newId t₀ reg] },
        calls := [.findOneByEmail (some (env.normalizeEmail (asString (reg.body "email")))) true,
                  .comparePassword (asString (reg.body "password")),
                  .generateToken newId] } := by
  obtain ⟨hbe, hbp, hiff⟩ := loginChains_spec env log hlog0
  rw [hemail] at hbe hiff
  rw [hpw] at hbp hiff
  have hne : asString (reg.body "password") ≠ "" := by
    intro h
    have h6 := hchecks.2.2
    rw [h] at h6
    simp [validatorLength_empty] at h6
  have hv := hiff.mpr ⟨hchecks.2.1, hne⟩
  have hff2 : UserStore.faultOf
      { store with docs := store.docs ++ [registeredUser env newId t₀ reg] } .findOne = none :=
    hff
  have hfind2 : (store.docs ++ [registeredUser env newId t₀ reg]).find?
      (fun u => decide (u.email = env.normalizeEmail (asString (reg.body "email")))) =
      some (registeredUser env newId t₀ reg) := by
    rw [List.find?_append, hfind]
    simp [registeredUser]
  unfold loginRoute login
  simp only [hv, hbe, hbp, UserStore.findOneByEmail, hff2, hfind2, ne_eq, not_true_eq_false,
    if_false, if_true]
  simp [registeredUser, hcompare, generateToken_eq, issuedToken]

/-- C15: after a registration that succeeded (201), a login with the same email and
password on the store the registration left - given that the password comparison accepts
the password that was hashed - answers 200, and its `data` object carries the identifier
`newId` that the `data` of the registration response carries, the trimmed name, the
normalized email, the creation time and the token that `generateToken` issues for
`newId` at the time of the login; and `protect`, given "Bearer " followed by that token
before its expiry - given that the token library reads the token back as signed with the
key of `generateToken` - calls `next()` with `req.user` being the registered user without
the password and writes no response. `generateToken` and `protect` take the key from the
same expression. -/
theorem register_login_protect_roundtrip (env : Env) (newId : String) (t₀ t₁ t₂ : Nat)
    (store : UserStore) (reg log req : Req)
    (hreg0 : reg.validationErrors = []) (hlog0 : log.validationErrors = [])
    (hsucc : (registerRoute env newId t₀ store reg).response.status = 201)
    (hemail : log.body "email" = reg.body "email")
    (hpw : log.body "password" = reg.body "password")
    (hfresh : ∀ u ∈ store.docs, u._id ≠ newId)
    (hfindById : store.faultOf .findById = none)
    (hcompare : env.compare (asString (reg.body "password"))
      (env.hash (asString (reg.body "password"))) = true)
    (hdecode : env.decode (issuedToken env t₁ newId) =
      some { claims := { id := some newId, iat := t₁, exp := some (t₁ + 2592000) },
             key := jwtSecret env })
    (hnospace : ' ' ∉ (issuedToken env t₁ newId).data)
    (hnonempty : issuedToken env t₁ newId ≠ "")
    (hreq : req.authorization = some ("Bearer " ++ issuedToken env t₁ newId))
    (hunexpired : t₂ < t₁ + 2592000) :
    (loginRoute env t₁ (registerRoute env newId t₀ store reg).store log).response.status
      = 200 ∧
    (registerRoute env newId t₀ store reg).response.field "data" =
      some (.obj [("id", .str newId),
                  ("name", .str (jsTrim (asString (reg.body "name")))),
                  ("email", .str (env.normalizeEmail (asString (reg.body "email")))),
                  ("createdAt", .num t₀),
                  ("token", .str (env.encode
                    { claims := { id := some newId, iat := t₀, exp := some (t₀ + 2592000) },
                      key := jwtSecret env }))]) ∧
    (loginRoute env t₁ (registerRoute env newId t₀ store reg).store log).response =
      { status := 200,
        body := [("success", .bool true), ("message", .str "Login successful"),
                 ("data", .obj [("id", .str newId),
                   ("name", .str (jsTrim (asString (reg.body "name")))),
                   ("email", .str (env.normalizeEmail (asString (reg.body "email")))),
                   ("createdAt", .num t₀),
                   ("token", .str (env.encode
                     { claims := { id := some newId, iat := t₁, exp := some (t₁ + 2592000) },
                       key := jwtSecret env }))])] } ∧
    issuedToken env t₁ newId = env.encode
      { claims := { id := some newId, iat := t₁, exp := some (t₁ + 2592000) },
        key := jwtSecret env } ∧
    (registeredUser env newId t₀ reg)._id = newId ∧
    generateToken env t₁ newId = .ok (issuedToken env t₁ newId) ∧
    protect (protectVerify env t₂) (registerRoute env newId t₀ store reg).store.findById req =
      ({ req with user := some (registeredUser env newId t₀ reg).selectWithoutPassword },
        [.verify (some (issuedToken env t₁ newId)), .findById (some newId), .next]) ∧
    (generateToken env t₁ newId = jwtSign env (jwtSecret env) t₁ newId "30d" ∧
      protectVerify env t₂ = jwtVerify env (jwtSecret env) t₂) := by
  obtain ⟨hchecks, hff, hfind, hstore, hdata⟩ :=
    register_success_inv env newId t₀ store reg hreg0 hsucc
  rw [hstore,
    login_after_register env newId t₀ t₁ store reg log hlog0 hchecks hff hfind hemail hpw
      hcompare]
  refine ⟨rfl, hdata, rfl, rfl, rfl, generateToken_eq env t₁ newId, ?_, rfl, rfl⟩
  obtain ⟨hb, htok⟩ := bearerToken_bearer _ hnospace
  have hverify : protectVerify env t₂ (bearerToken ("Bearer " ++ issuedToken env t₁ newId)) =
      .ok { id := some newId } := by
    rw [htok]
    exact jwtVerify_accepts env (jwtSecret env) t₂ _ _ (t₁ + 2592000) hnonempty hdecode rfl
      hunexpired
  have hnone : store.docs.find? (fun u => decide (u._id = newId)) = none := by
    rw [List.find?_eq_none]
    intro u hu
    simpa using hfresh u hu
  have hfound : UserStore.findById
      { store with docs := store.docs ++ [registeredUser env newId t₀ reg] } (some newId) =
      .ok (some (registeredUser env newId t₀ reg).selectWithoutPassword) := by
    have hf2 : UserStore.faultOf
        { store with docs := store.docs ++ [registeredUser env newId t₀ reg] } .findById
        = none := hfindById
    simp only [UserStore.findById, hf2, List.find?_append, hnone]
    simp [registeredUser]
  have htruthy : truthy (bearerToken ("Bearer " ++ issuedToken env t₁ newId)) = true := by
    rw [htok]
    simp [truthy, hnonempty]
  rw [protect_accepts (protectVerify env t₂) _ req _ { id := some newId }
    (registeredUser env newId t₀ reg).selectWithoutPassword hreq hb hverify hfound htruthy,
    htok]
  rfl

theorem register_login_protect_roundtrip_witness :
    (registerRoute sampleEnv "u7" 1000 sampleUsers (bodyOnly janeBody)).response.status = 201 ∧
    (registerRoute sampleEnv "u7" 1000 sampleUsers (bodyOnly janeBody)).response.field "data" =
      some (.obj [("id", .str "u7"), ("name", .str "Jane Doe"),
                  ("email", .str "jane@example.com"), ("createdAt", .num 1000),
                  ("token", .str "jwt.u7.1000")]) ∧
    (loginRoute sampleEnv 2000
      (registerRoute sampleEnv "u7" 1000 sampleUsers (bodyOnly janeBody)).store
      (bodyOnly janeBody)).response =
      { status := 200,
        body := [("success", .bool true), ("message", .str "Login successful"),
                 ("data", .obj [("id", .str "u7"), ("name", .str "Jane Doe"),
                   ("email", .str "jane@example.com"), ("createdAt", .num 1000),
                   ("token", .str "jwt.u7.2000")])] } ∧
    protect (protectVerify sampleEnv 3000)
      (registerRoute sampleEnv "u7" 1000 sampleUsers (bodyOnly janeBody)).store.findById
      (headerOnly (some "Bearer jwt.u7.2000")) =
      ({ headerOnly (some "Bearer jwt.u7.2000") with
          user := some { _id := "u7", name := "Jane Doe", email := "jane@example.com",
                         password := none, createdAt := 1000 } },
        [.verify (some "jwt.u7.2000"), .findById (some "u7"), .next]) :=
  have hw := register_login_protect_roundtrip sampleEnv "u7" 1000 2000 3000 sampleUsers
    (bodyOnly janeBody) (bodyOnly janeBody) (headerOnly (some "Bearer jwt.u7.2000"))
    rfl rfl (by decide) rfl rfl (by decide) (by decide) (by decide) (by decide) (by decide)
    (by decide) (by decide) (by decide)
  ⟨by decide, hw.2.1.trans (by decide), hw.2.2.1.trans (by decide),
   hw.2.2.2.2.2.2.1.trans rfl⟩

/-! ## Profile update -/

theorem findByIdAndUpdate_docs (store : UserStore) (id : String) (f : UpdateFields)
    (hfault : store.faultOf .findByIdAndUpdate = none)
    (hfree : ¬ ∃ u ∈ store.docs, some u.email = f.email ∧ u._id ≠ id) :
    ∃ r, store.findByIdAndUpdate id f = .ok r ∧
      r.2.docs = store.docs.map (fun v => if v._id = id then f.applyTo v else v) := by
  unfold UserStore.findByIdAndUpdate
  rw [hfault]
  cases hfind : store.docs.find? (fun u => decide (u._id = id)) with
  | none =>
    refine ⟨_, rfl, ?_⟩
    rw [List.find?_eq_none] at hfind
    symm
    conv_rhs => rw [← List.map_id store.docs]
    apply List.map_congr_left
    intro v hv
    have := hfind v hv
    simp at this
    simp [this]
  | some u =>
    have hany : store.docs.any (fun v => decide (some v.email = f.email) && decide (v._id ≠ id))
        = false := by
      rw [List.any_eq_false]
      intro v hv hp
      simp only [Bool.and_eq_true, decide_eq_true_eq] at hp
      exact hfree ⟨v, hv, hp.1, hp.2⟩
    simp only [hany]
    exact ⟨_, rfl, rfl⟩

theorem updateProfile_finish_calls (store : UserStore) (id : String) (f : UpdateFields)
    (before : List AuthCall) (r : AuthResult)
    (hr : r = (match store.findByIdAndUpdate id f with
      | .error _ =>
        { response := failure 500 "Server error updating profile", store := store,
          calls := before ++ [.findByIdAndUpdate id f] }
      | .ok (none, store1) =>
        { response := failure 404 "User not found", store := store1,
          calls := before ++ [.findByIdAndUpdate id f] }
      | .ok (some user, store1) =>
        { response :=
            { status := 200,
              body := [("success", .bool true),
                       ("message", .str "Profile updated successfully"),
                       ("data", .obj [("id", .str user._id), ("name", .str user.name),
                                      ("email", .str user.email)])] },
          store := store1, calls := before ++ [.findByIdAndUpdate id f] })) :
    r.calls = before ++ [.findByIdAndUpdate id f] ∧
    ∀ res, store.findByIdAndUpdate id f = .ok res → r.store = res.2 := by
  subst hr
  cases h : store.findByIdAndUpdate id f with
  | error e => exact ⟨rfl, fun res hres => by cases hres⟩
  | ok res =>
    obtain ⟨o, s1⟩ := res
    cases o with
    | none => exact ⟨rfl, fun res hres => by cases hres; rfl⟩
    | some u => exact ⟨rfl, fun res hres => by cases hres; rfl⟩

/-- C18: for every authenticated caller and every valid `PUT /profile` body (the email
sanitizer giving a non-empty address for every valid email, and the email lookup not
failing): if the normalized email of the body belongs to a user other than the caller,
the route answers 400 "Email already in use", never calls the update and leaves the store
unchanged; otherwise it calls `findByIdAndUpdate` for the caller with exactly those of
name (trimmed) and email (normalized) that the body supplies, and when that call does
not fail the stored records are the old ones with the supplied fields written over the
caller's record, every other field and record unchanged. -/
theorem updateProfile_conflict_and_fields (env : Env) (store : UserStore) (req : Req)
    (caller : User) (hu : req.user = some caller) (hempty : req.validationErrors = [])
    (hvalid : (runAuthChains env profileChains req).validationErrors = [])
    (hmail : ∀ e, env.isEmail e = true → env.normalizeEmail e ≠ "")
    (hff : store.faultOf .findOne = none) :
    ((∃ u ∈ store.docs, some u.email = (req.body "email").map env.normalizeEmail ∧
        u._id ≠ caller.id) →
      (updateProfileRoute env store req).response = failure 400 "Email already in use" ∧
      (updateProfileRoute env store req).store = store ∧
      ∀ id f, AuthCall.findByIdAndUpdate id f ∉ (updateProfileRoute env store req).calls) ∧
    ((¬ ∃ u ∈ store.docs, some u.email = (req.body "email").map env.normalizeEmail ∧
        u._id ≠ caller.id) →
      AuthCall.findByIdAndUpdate caller.id
          { name := (req.body "name").map jsTrim,
            email := (req.body "email").map env.normalizeEmail } ∈
        (updateProfileRoute env store req).calls ∧
      (store.faultOf .findByIdAndUpdate = none →
        (updateProfileRoute env store req).store.docs =
          store.docs.map (fun v => if v._id = caller.id then
            { v with name := ((req.body "name").map jsTrim).getD v.name,
                     email := ((req.body "email").map env.normalizeEmail).getD v.email }
            else v))) := by
  obtain ⟨hbn, hbe, hiff⟩ := profileChains_spec env req hempty
  obtain ⟨hcn, hce⟩ := hiff.mp hvalid
  have hu2 : (runAuthChains env profileChains req).user = some caller := by
    rw [runAuthChains_user, hu]
  have hname : (if truthy ((req.body "name").map jsTrim) = true
      then (req.body "name").map jsTrim else none) = (req.body "name").map jsTrim := by
    cases hn : req.body "name" with
    | none => simp [truthy]
    | some n =>
      have h2 := hcn n hn
      have hne : jsTrim n ≠ "" := by
        intro h
        rw [h] at h2
        simp [validatorLength_empty] at h2
      simp [truthy, hne]
  cases he : req.body "email" with
  | none =>
    have hroute : updateProfileRoute env store req =
        (match store.findByIdAndUpdate caller.id
            { name := (req.body "name").map jsTrim, email := none } with
          | .error _ =>
            { response := failure 500 "Server error updating profile", store := store,
              calls := [] ++ [.findByIdAndUpdate caller.id
                { name := (req.body "name").map jsTrim, email := none }] }
          | .ok (none, store1) =>
            { response := failure 404 "User not found", store := store1,
              calls := [] ++ [.findByIdAndUpdate caller.id
                { name := (req.body "name").map jsTrim, email := none }] }
          | .ok (some user, store1) =>
            { response :=
                { status := 200,
                  body := [("success", .bool true),
                           ("message", .str "Profile updated successfully"),
                           ("data", .obj [("id", .str user._id), ("name", .str user.name),
                                          ("email", .str user.email)])] },
              store := store1,
              calls := [] ++ [.findByIdAndUpdate caller.id
                { name := (req.body "name").map jsTrim, email := none }] }) := by
      unfold updateProfileRoute updateProfile
      have htn : truthy (none : Option String) = false := rfl
      simp only [hvalid, hu2, hbn, hbe, he, hname, Option.map_none', htn, ne_eq,
        not_true_eq_false, if_false, Bool.false_eq_true]
    obtain ⟨hcalls, hstore⟩ := updateProfile_finish_calls store caller.id _ [] _ hroute
    constructor
    · rintro ⟨u, -, hmailEq, -⟩
      simp at hmailEq
    · intro hfree
      refine ⟨by rw [hcalls]; simp, ?_⟩
      intro hfu
      obtain ⟨r, hr, hdocs⟩ := findByIdAndUpdate_docs store caller.id
        { name := (req.body "name").map jsTrim, email := none } hfu (by simp)
      rw [hstore r hr, hdocs]
      simp [UpdateFields.applyTo]
  | some e =>
    have hne : env.normalizeEmail e ≠ "" := hmail e (hce e he)
    by_cases hconf : ∃ u ∈ store.docs, some u.email = some (env.normalizeEmail e) ∧
        u._id ≠ caller.id
    · obtain ⟨u, hmem, heq, hid⟩ := hconf
      obtain ⟨b, hfind, -, -⟩ := find?_some_of_mem
        (fun v : User => decide (v.email = env.normalizeEmail e) && decide (v._id ≠ caller.id))
        store.docs u hmem (by simpa using ⟨Option.some.inj heq, hid⟩)
      have hroute : updateProfileRoute env store req =
          { response := failure 400 "Email already in use", store := store,
            calls := [.findOneOther (some (env.normalizeEmail e)) caller.id] } := by
        have hte : truthy (some (env.normalizeEmail e)) = true := by simp [truthy, hne]
        simp only [decide_not] at hfind
        unfold updateProfileRoute updateProfile
        simp [hvalid, hu2, hbe, he, hte, UserStore.findOneOther, hff, hfind]
      constructor
      · intro _
        rw [hroute]
        refine ⟨rfl, rfl, ?_⟩
        intro id f hx
        simp at hx
      · intro hfree
        exact (hfree ⟨u, hmem, heq, hid⟩).elim
    · have hfindNone : store.docs.find?
          (fun v : User => decide (v.email = env.normalizeEmail e) &&
            decide (v._id ≠ caller.id)) = none := by
        rw [List.find?_eq_none]
        intro v hv hp
        simp only [Bool.and_eq_true, decide_eq_true_eq] at hp
        exact hconf ⟨v, hv, by rw [hp.1], hp.2⟩
      have hroute : updateProfileRoute env store req =
          (match store.findByIdAndUpdate caller.id
              { name := (req.body "name").map jsTrim,
                email := some (env.normalizeEmail e) } with
            | .error _ =>
              { response := failure 500 "Server error updating profile", store := store,
                calls := [.findOneOther (some (env.normalizeEmail e)) caller.id] ++
                  [.findByIdAndUpdate caller.id
                    { name := (req.body "name").map jsTrim,
                      email := some (env.normalizeEmail e) }] }
            | .ok (none, store1) =>
              { response := failure 404 "User not found", store := store1,
                calls := [.findOneOther (some (env.normalizeEmail e)) caller.id] ++
                  [.findByIdAndUpdate caller.id
                    { name := (req.body "name").map jsTrim,
                      email := some (env.normalizeEmail e) }] }
            | .ok (some user, store1) =>
              { response :=
                  { status := 200,
                    body := [("success", .bool true),
                             ("message", .str "Profile updated successfully"),
                             ("data", .obj [("id", .str user._id), ("name", .str user.name),
                                            ("email", .str user.email)])] },
                store := store1,
                calls := [.findOneOther (some (env.normalizeEmail e)) caller.id] ++
                  [.findByIdAndUpdate caller.id
                    { name := (req.body "name").map jsTrim,
                      email := some (env.normalizeEmail e) }] }) := by
        unfold updateProfileRoute updateProfile
        have hte : truthy (some (env.normalizeEmail e)) = true := by simp [truthy, hne]
        simp only [hvalid, hu2, hbn, hbe, he, hname, Option.map_some', hte, ne_eq,
          not_true_eq_false, if_false, if_true, UserStore.findOneOther, hff, hfindNone,
          Option.map_none']
      obtain ⟨hcalls, hstore⟩ := updateProfile_finish_calls store caller.id _ _ _ hroute
      constructor
      · intro hc
        exact absurd (by simpa using hc) hconf
      · intro _
        refine ⟨by rw [hcalls]; simp, ?_⟩
        intro hfu
        obtain ⟨r, hr, hdocs⟩ := findByIdAndUpdate_docs store caller.id
          { name := (req.body "name").map jsTrim, email := some (env.normalizeEmail e) } hfu
          hconf
        rw [hstore r hr, hdocs]
        simp [UpdateFields.applyTo]

theorem sampleEnv_normalizeEmail_ne (e : String) (h : sampleEnv.isEmail e = true) :
    sampleEnv.normalizeEmail e ≠ "" := by
  obtain ⟨cs⟩ := e
  cases cs with
  | nil => simp [sampleEnv] at h
  | cons c cs =>
    intro hEq
    have hd := congrArg String.data hEq
    simp [sampleEnv] at hd

theorem updateProfile_conflict_and_fields_witness :
    (runAuthChains sampleEnv profileChains
      (aliceReq "" (fun _ => none) takeBobsEmailBody [])).validationErrors = [] ∧
    (∃ u ∈ twoUsers.docs,
      some u.email = ((aliceReq "" (fun _ => none) takeBobsEmailBody []).body "email").map
        sampleEnv.normalizeEmail ∧ u._id ≠ alice.selectWithoutPassword.id) ∧
    (updateProfileRoute sampleEnv twoUsers
      (aliceReq "" (fun _ => none) takeBobsEmailBody [])).response =
      failure 400 "Email already in use" :=
  ⟨by decide, ⟨bob, by decide, by decide, by decide⟩,
   ((updateProfile_conflict_and_fields sampleEnv twoUsers
      (aliceReq "" (fun _ => none) takeBobsEmailBody []) alice.selectWithoutPassword rfl rfl
      (by decide) sampleEnv_normalizeEmail_ne rfl).1
      ⟨bob, by decide, by decide, by decide⟩).1⟩

/-! ## Shape of the responses of the auth and user routes -/

theorem register_shaped (env : Env) (newId : String) (now : Nat) (store : UserStore)
    (req : Req) : authShaped (register env newId now store req).response = true := by
  unfold register
  by_cases hv : req.validationErrors = []
  · simp only [hv, ne_eq, not_true_eq_false, if_false]
    cases h1 : store.findOneByEmail (req.body "email") false with
    | error e => rfl
    | ok o =>
      cases o with
      | some u => rfl
      | none =>
        simp only []
        cases h2 : store.create env.hash newId now
            { name := req.body "name", email := req.body "email",
              password := req.body "password" } with
        | error e => rfl
        | ok p =>
          obtain ⟨user, store1⟩ := p
          simp only []
          cases h3 : generateToken env now user._id with
          | error e => rfl
          | ok token => rfl
  · simp only [hv, ne_eq, not_false_eq_true, if_true]
    rfl

theorem login_shaped (env : Env) (now : Nat) (store : UserStore) (req : Req) :
    authShaped (login env now store req).response = true := by
  unfold login
  by_cases hv : req.validationErrors = []
  · simp only [hv, ne_eq, not_true_eq_false, if_false]
    cases h1 : store.findOneByEmail (req.body "email") true with
    | error e => rfl
    | ok o =>
      cases o with
      | none => rfl
      | some user =>
        simp only []
        cases h2 : user.password with
        | none => rfl
        | some hashed =>
          simp only []
          cases h3 : env.compare (asString (req.body "password")) hashed with
          | false => rfl
          | true =>
            simp only [if_true]
            cases h4 : generateToken env now user._id with
            | error e => rfl
            | ok token => rfl
  · simp only [hv, ne_eq, not_false_eq_true, if_true]
    rfl

theorem getProfile_shaped (store : UserStore) (req : Req) :
    authShaped (getProfile store req).response = true := by
  unfold getProfile
  cases hu : req.user with
  | none => rfl
  | some caller =>
    simp only []
    cases h1 : store.findById (some caller.id) with
    | error e => rfl
    | ok o =>
      cases o with
      | none => rfl
      | some user => rfl

theorem updateProfile_finish_shaped (store : UserStore) (id : String) (f : UpdateFields)
    (before : List AuthCall) :
    authShaped (match store.findByIdAndUpdate id f with
      | Except.error _ =>
        ({ response := failure 500 "Server error updating profile", store := store,
           calls := before ++ [AuthCall.findByIdAndUpdate id f] } : AuthResult)
      | Except.ok (none, store1) =>
        { response := failure 404 "User not found", store := store1,
          calls := before ++ [AuthCall.findByIdAndUpdate id f] }
      | Except.ok (some user, store1) =>
        { response :=
            { status := 200,
              body := [("success", .bool true),
                       ("message", .str "Profile updated successfully"),
                       ("data", .obj [("id", .str user._id), ("name", .str user.name),
                                      ("email", .str user.email)])] },
          store := store1,
          calls := before ++ [AuthCall.findByIdAndUpdate id f] }).response = true := by
  cases h : store.findByIdAndUpdate id f with
  | error e => rfl
  | ok res =>
    obtain ⟨o, s1⟩ := res
    cases o with
    | none => rfl
    | some u => rfl

theorem updateProfile_shaped (store : UserStore) (req : Req) :
    authShaped (updateProfile store req).response = true := by
  unfold updateProfile
  by_cases hv : req.validationErrors = []
  · simp only [hv, ne_eq, not_true_eq_false, if_false]
    cases hu : req.user with
    | none => rfl
    | some caller =>
      simp only []
      by_cases he : truthy (req.body "email") = true
      · simp only [he, if_true]
        cases h1 : store.findOneOther (req.body "email") caller.id with
        | error e => rfl
        | ok o =>
          cases o with
          | some u => rfl
          | none => exact updateProfile_finish_shaped store caller.id _ _
      · simp only [he, if_false, Bool.false_eq_true]
        exact updateProfile_finish_shaped store caller.id _ _
  · simp only [hv, ne_eq, not_false_eq_true, if_true]
    rfl

/-! ## Password hashes do not reach the responses -/

theorem find?_sel (p : User → Bool) (hp : ∀ u, p u.selectWithoutPassword = p u)
    (l : List User) :
    (l.find? p).map User.selectWithoutPassword =
      (l.map User.selectWithoutPassword).find? p := by
  rw [List.find?_map]
  have hcomp : p ∘ User.selectWithoutPassword = p := funext hp
  rw [hcomp]

theorem find?_sel_congr (p : User → Bool) (hp : ∀ u, p u.selectWithoutPassword = p u)
    (l₁ l₂ : List User)
    (h : l₁.map User.selectWithoutPassword = l₂.map User.selectWithoutPassword) :
    (l₁.find? p).map User.selectWithoutPassword =
      (l₂.find? p).map User.selectWithoutPassword := by
  rw [find?_sel p hp, find?_sel p hp, h]

theorem any_sel_congr (p : User → Bool) (hp : ∀ u, p u.selectWithoutPassword = p u)
    (l₁ l₂ : List User)
    (h : l₁.map User.selectWithoutPassword = l₂.map User.selectWithoutPassword) :
    l₁.any p = l₂.any p := by
  have hcomp : p ∘ User.selectWithoutPassword = p := funext hp
  have e₁ : (l₁.map User.selectWithoutPassword).any p = l₁.any p := by
    rw [List.any_map, hcomp]
  have e₂ : (l₂.map User.selectWithoutPassword).any p = l₂.any p := by
    rw [List.any_map, hcomp]
  rw [← e₁, ← e₂, h]

theorem findById_sel (s₁ s₂ : UserStore) (h : sameButPasswords s₁ s₂) (id : Option String) :
    s₁.findById id = s₂.findById id := by
  unfold UserStore.findById UserStore.faultOf
  rw [h.2]
  cases id with
  | none => rfl
  | some i =>
    simp only []
    rw [find?_sel_congr (fun u => decide (u._id = i)) (fun _ => rfl) _ _ h.1]

theorem findOneByEmail_sel (s₁ s₂ : UserStore) (h : sameButPasswords s₁ s₂)
    (email : Option String) :
    s₁.findOneByEmail email false = s₂.findOneByEmail email false := by
  unfold UserStore.findOneByEmail UserStore.faultOf
  rw [h.2]
  cases email with
  | none => rfl
  | some e =>
    simp only [Bool.false_eq_true, if_false]
    rw [find?_sel_congr (fun u => decide (u.email = e)) (fun _ => rfl) _ _ h.1]

theorem findOneOther_sel (s₁ s₂ : UserStore) (h : sameButPasswords s₁ s₂)
    (email : Option String) (id : String) :
    s₁.findOneOther email id = s₂.findOneOther email id := by
  unfold UserStore.findOneOther UserStore.faultOf
  rw [h.2]
  cases email with
  | none => rfl
  | some e =>
    simp only []
    rw [find?_sel_congr (fun u => decide (u.email = e) && decide (u._id ≠ id))
      (fun _ => rfl) _ _ h.1]

theorem applyTo_sel (f : UpdateFields) (u : User) :
    (f.applyTo u).selectWithoutPassword = f.applyTo u.selectWithoutPassword := rfl

theorem findByIdAndUpdate_sel (s₁ s₂ : UserStore) (h : sameButPasswords s₁ s₂) (id : String)
    (f : UpdateFields) :
    (s₁.findByIdAndUpdate id f).map Prod.fst = (s₂.findByIdAndUpdate id f).map Prod.fst := by
  unfold UserStore.findByIdAndUpdate UserStore.faultOf
  rw [h.2]
  cases s₂.faults.lookup UserOp.findByIdAndUpdate with
  | some e => rfl
  | none =>
    simp only []
    have hfind := find?_sel_congr (fun u => decide (u._id = id)) (fun _ => rfl) _ _ h.1
    have hany := any_sel_congr
      (fun v => decide (some v.email = f.email) && decide (v._id ≠ id)) (fun _ => rfl) _ _ h.1
    cases h₁ : s₁.docs.find? (fun u => decide (u._id = id)) with
    | none =>
      cases h₂ : s₂.docs.find? (fun u => decide (u._id = id)) with
      | none => rfl
      | some u₂ => rw [h₁, h₂] at hfind; cases hfind
    | some u₁ =>
      cases h₂ : s₂.docs.find? (fun u => decide (u._id = id)) with
      | none => rw [h₁, h₂] at hfind; cases hfind
      | some u₂ =>
        rw [h₁, h₂] at hfind
        have hsel : u₁.selectWithoutPassword = u₂.selectWithoutPassword := by
          simpa using hfind
        simp only [hany]
        split
        · rfl
        · simp only [Except.map, applyTo_sel, hsel]

theorem create_sel (s₁ s₂ : UserStore) (h : sameButPasswords s₁ s₂) (hash : String → String)
    (newId : String) (now : Nat) (r : NewUser) :
    (s₁.create hash newId now r).map Prod.fst = (s₂.create hash newId now r).map Prod.fst := by
  unfold UserStore.create UserStore.faultOf
  rw [h.2]
  cases s₂.faults.lookup UserOp.create with
  | some e => rfl
  | none =>
    simp only []
    cases r.name <;> cases r.email <;> cases r.password <;> try rfl
    rename_i name email password
    simp only []
    rw [any_sel_congr (fun u => decide (u.email = email)) (fun _ => rfl) _ _ h.1]
    split <;> rfl

theorem getProfile_sel (s₁ s₂ : UserStore) (h : sameButPasswords s₁ s₂) (req : Req) :
    (getProfile s₁ req).response = (getProfile s₂ req).response := by
  unfold getProfile
  cases req.user with
  | none => rfl
  | some caller =>
    simp only []
    rw [findById_sel s₁ s₂ h]
    cases s₂.findById (some caller.id) with
    | error e => rfl
    | ok o => cases o <;> rfl

theorem updateProfile_finish_sel (s₁ s₂ : UserStore) (id : String) (f : UpdateFields)
    (before : List AuthCall)
    (r₁ r₂ : Except String (Option User × UserStore))
    (h : r₁.map Prod.fst = r₂.map Prod.fst) :
    (match r₁ with
      | Except.error _ =>
        ({ response := failure 500 "Server error updating profile", store := s₁,
           calls := before ++ [AuthCall.findByIdAndUpdate id f] } : AuthResult)
      | Except.ok (none, store1) =>
        { response := failure 404 "User not found", store := store1,
          calls := before ++ [AuthCall.findByIdAndUpdate id f] }
      | Except.ok (some user, store1) =>
        { response :=
            { status := 200,
              body := [("success", .bool true),
                       ("message", .str "Profile updated successfully"),
                       ("data", .obj [("id", .str user._id), ("name", .str user.name),
                                      ("email", .str user.email)])] },
          store := store1,
          calls := before ++ [AuthCall.findByIdAndUpdate id f] }).response =
    (match r₂ with
      | Except.error _ =>
        ({ response := failure 500 "Server error updating profile", store := s₂,
           calls := before ++ [AuthCall.findByIdAndUpdate id f] } : AuthResult)
      | Except.ok (none, store1) =>
        { response := failure 404 "User not found", store := store1,
          calls := before ++ [AuthCall.findByIdAndUpdate id f] }
      | Except.ok (some user, store1) =>
        { response :=
            { status := 200,
              body := [("success", .bool true),
                       ("message", .str "Profile updated successfully"),
                       ("data", .obj [("id", .str user._id), ("name", .str user.name),
                                      ("email", .str user.email)])] },
          store := store1,
          calls := before ++ [AuthCall.findByIdAndUpdate id f] }).response := by
  cases r₁ with
  | error e₁ =>
    cases r₂ with
    | error e₂ => rfl
    | ok p₂ => cases h
  | ok p₁ =>
    cases r₂ with
    | error e₂ => cases h
    | ok p₂ =>
      obtain ⟨o₁, t₁⟩ := p₁
      obtain ⟨o₂, t₂⟩ := p₂
      have ho : o₁ = o₂ := by
        simp only [Except.map, Except.ok.injEq] at h
        exact h
      subst ho
      cases o₁ <;> rfl

theorem updateProfile_sel (s₁ s₂ : UserStore) (h : sameButPasswords s₁ s₂) (req : Req) :
    (updateProfile s₁ req).response = (updateProfile s₂ req).response := by
  unfold updateProfile
  by_cases hv : req.validationErrors = []
  · simp only [hv, ne_eq, not_true_eq_false, if_false]
    cases req.user with
    | none => rfl
    | some caller =>
      simp only []
      by_cases he : truthy (req.body "email") = true
      · simp only [he, if_true]
        rw [findOneOther_sel s₁ s₂ h]
        cases s₂.findOneOther (req.body "email") caller.id with
        | error e => rfl
        | ok o =>
          cases o with
          | some u => rfl
          | none =>
            exact updateProfile_finish_sel s₁ s₂ caller.id _ _ _ _
              (findByIdAndUpdate_sel s₁ s₂ h caller.id _)
      · simp only [he, if_false, Bool.false_eq_true]
        exact updateProfile_finish_sel s₁ s₂ caller.id _ _ _ _
          (findByIdAndUpdate_sel s₁ s₂ h caller.id _)
  · simp only [hv, ne_eq, not_false_eq_true, if_true]

theorem register_sel (env : Env) (newId : String) (now : Nat) (s₁ s₂ : UserStore)
    (h : sameButPasswords s₁ s₂) (req : Req) :
    (register env newId now s₁ req).response = (register env newId now s₂ req).response := by
  unfold register
  by_cases hv : req.validationErrors = []
  · simp only [hv, ne_eq, not_true_eq_false, if_false]
    rw [findOneByEmail_sel s₁ s₂ h]
    cases s₂.findOneByEmail (req.body "email") false with
    | error e => rfl
    | ok o =>
      cases o with
      | some u => rfl
      | none =>
        simp only []
        have hc := create_sel s₁ s₂ h env.hash newId now
          { name := req.body "name", email := req.body "email",
            password := req.body "password" }
        cases h₁ : s₁.create env.hash newId now
            { name := req.body "name", email := req.body "email",
              password := req.body "password" } with
        | error e₁ =>
          cases h₂ : s₂.create env.hash newId now
              { name := req.body "name", email := req.body "email",
                password := req.body "password" } with
          | error e₂ => rfl
          | ok p₂ => rw [h₁, h₂] at hc; cases hc
        | ok p₁ =>
          cases h₂ : s₂.create env.hash newId now
              { name := req.body "name", email := req.body "email",
                password := req.body "password" } with
          | error e₂ => rw [h₁, h₂] at hc; cases hc
          | ok p₂ =>
            rw [h₁, h₂] at hc
            obtain ⟨u₁, t₁⟩ := p₁
            obtain ⟨u₂, t₂⟩ := p₂
            have hu : u₁ = u₂ := by
              simp only [Except.map, Except.ok.injEq] at hc
              exact hc
            subst hu
            simp only []
            cases generateToken env now u₁._id <;> rfl
  · simp only [hv, ne_eq, not_false_eq_true, if_true]

/-- The responses of the login handler, one by one: a failed validation, one of two
fixed failures, or 200 with the identifier, name, email and creation time of a stored
record and the token issued for its identifier. -/
theorem login_cases (env : Env) (now : Nat) (store : UserStore) (req : Req) :
    (login env now store req).response = validationFailed req.validationErrors ∨
    (login env now store req).response = failure 500 "Server error during login" ∨
    (login env now store req).response = failure 401 "Invalid email or password" ∨
    ∃ u ∈ store.docs, (login env now store req).response =
      { status := 200,
        body := [("success", .bool true), ("message", .str "Login successful"),
                 ("data", .obj [("id", .str u._id), ("name", .str u.name),
                   ("email", .str u.email), ("createdAt", .num u.createdAt),
                   ("token", .str (issuedToken env now u._id))])] } := by
  unfold login
  by_cases hv : req.validationErrors = []
  · simp only [hv, ne_eq, not_true_eq_false, if_false]
    cases h1 : store.findOneByEmail (req.body "email") true with
    | error e => exact Or.inr (Or.inl rfl)
    | ok o =>
      cases o with
      | none => exact Or.inr (Or.inr (Or.inl rfl))
      | some user =>
        have hmem : user ∈ store.docs := by
          unfold UserStore.findOneByEmail at h1
          cases hf : store.faultOf .findOne with
          | some e => simp [hf] at h1
          | none =>
            cases hm : req.body "email" with
            | none => simp [hf, hm] at h1
            | some e =>
              simp only [hf, hm, if_true, Except.ok.injEq] at h1
              exact List.mem_of_find?_eq_some h1
        simp only []
        cases h2 : user.password with
        | none => exact Or.inr (Or.inl rfl)
        | some hashed =>
          simp only []
          cases h3 : env.compare (asString (req.body "password")) hashed with
          | false => exact Or.inr (Or.inr (Or.inl rfl))
          | true =>
            simp only [if_true, generateToken_eq]
            exact Or.inr (Or.inr (Or.inr ⟨user, hmem, rfl⟩))
  · left
    simp only [hv, ne_eq, not_false_eq_true, if_true]

/-- The responses of the register handler, one by one: a failed validation, one of two
fixed failures, or 201 with the new identifier, the name and email of the request, the
creation time and the token issued for the new identifier. -/
theorem register_cases (env : Env) (newId : String) (now : Nat) (store : UserStore)
    (req : Req) :
    (register env newId now store req).response = validationFailed req.validationErrors ∨
    (register env newId now store req).response =
      failure 500 "Server error during registration" ∨
    (register env newId now store req).response =
      failure 400 "User with this email already exists" ∨
    ∃ name email, req.body "name" = some name ∧ req.body "email" = some email ∧
      (register env newId now store req).response =
        { status := 201,
          body := [("success", .bool true), ("message", .str "User registered successfully"),
                   ("data", .obj [("id", .str newId), ("name", .str name),
                     ("email", .str email), ("createdAt", .num now),
                     ("token", .str (issuedToken env now newId))])] } := by
  unfold register
  by_cases hv : req.validationErrors = []
  · simp only [hv, ne_eq, not_true_eq_false, if_false]
    cases h1 : store.findOneByEmail (req.body "email") false with
    | error e => exact Or.inr (Or.inl rfl)
    | ok o =>
      cases o with
      | some u => exact Or.inr (Or.inr (Or.inl rfl))
      | none =>
        simp only []
        cases h2 : store.create env.hash newId now
            { name := req.body "name", email := req.body "email",
              password := req.body "password" } with
        | error e => exact Or.inr (Or.inl rfl)
        | ok r =>
          obtain ⟨user, store1⟩ := r
          simp only [generateToken_eq]
          unfold UserStore.create at h2
          cases hf : store.faultOf .create with
          | some e => simp [hf] at h2
          | none =>
            cases hn : req.body "name" with
            | none => simp [hf, hn] at h2
            | some name =>
              cases he : req.body "email" with
              | none => simp [hf, hn, he] at h2
              | some email =>
                cases hp : req.body "password" with
                | none => simp [hf, hn, he, hp] at h2
                | some password =>
                  simp only [hf, hn, he, hp] at h2
                  split at h2
                  · cases h2
                  · simp only [Except.ok.injEq, Prod.mk.injEq] at h2
                    obtain ⟨hu, -⟩ := h2
                    subst hu
                    exact Or.inr (Or.inr (Or.inr ⟨name, email, rfl, rfl, rfl⟩))
  · left
    simp only [hv, ne_eq, not_false_eq_true, if_true]

/-- The fields of the body after the validator chains of `POST /register`. -/
theorem registerChains_body (env : Env) (req : Req) :
    (runAuthChains env registerChains req).body "name" =
      some (jsTrim (asString (req.body "name"))) ∧
    (runAuthChains env registerChains req).body "email" =
      some (env.normalizeEmail (asString (req.body "email"))) := by
  obtain ⟨-, hb⟩ := runAuthChains_spec env registerChains (by decide) req
  have h1 := hb _ (List.mem_cons_self _ _)
  have h2 := hb _ (List.mem_cons_of_mem _ (List.mem_cons_self _ _))
  simp only [authChainValue, Bool.false_and, if_false, Bool.false_eq_true] at h1 h2
  rw [(nameChecks_run env _ _).1] at h1
  rw [(emailChecks_run env _ _).1] at h2
  exact ⟨h1, h2⟩

/-- The password the login handler compares is the password of the request. -/
theorem loginChains_password (env : Env) (req : Req) :
    (runAuthChains env loginChains req).body "password" = req.body "password" := by
  obtain ⟨-, hb⟩ := runAuthChains_spec env loginChains (by decide) req
  have h2 := hb _ (List.mem_cons_of_mem _ (List.mem_cons_self _ _))
  simp only [authChainValue, Bool.false_and, if_false, Bool.false_eq_true] at h2
  rw [(notEmpty_run env _ _ _).1] at h2
  exact h2

/-- Two stores that differ only in password hashes, on which the comparison gives the
same verdict for the password of the request, yield the same login response. -/
theorem login_sel (env : Env) (now : Nat) (s₁ s₂ : UserStore) (h : sameButPasswords s₁ s₂)
    (req : Req)
    (hverdict : ∀ u₁ ∈ s₁.docs, ∀ u₂ ∈ s₂.docs,
      u₁.selectWithoutPassword = u₂.selectWithoutPassword →
      u₁.password.map (env.compare (asString (req.body "password"))) =
        u₂.password.map (env.compare (asString (req.body "password")))) :
    (login env now s₁ req).response = (login env now s₂ req).response := by
  unfold login
  by_cases hv : req.validationErrors = []
  · simp only [hv, ne_eq, not_true_eq_false, if_false]
    unfold UserStore.findOneByEmail UserStore.faultOf
    rw [h.2]
    cases s₂.faults.lookup UserOp.findOne with
    | some e => rfl
    | none =>
      simp only []
      cases hm : req.body "email" with
      | none => rfl
      | some e =>
        simp only [if_true]
        have hfind := find?_sel_congr (fun u => decide (u.email = e)) (fun _ => rfl) _ _ h.1
        cases h₁ : s₁.docs.find? (fun u => decide (u.email = e)) with
        | none =>
          cases h₂ : s₂.docs.find? (fun u => decide (u.email = e)) with
          | none => rfl
          | some u₂ => rw [h₁, h₂] at hfind; cases hfind
        | some u₁ =>
          cases h₂ : s₂.docs.find? (fun u => decide (u.email = e)) with
          | none => rw [h₁, h₂] at hfind; cases hfind
          | some u₂ =>
            rw [h₁, h₂] at hfind
            have hsel : u₁.selectWithoutPassword = u₂.selectWithoutPassword := by
              simpa using hfind
            have hver := hverdict u₁ (List.mem_of_find?_eq_some h₁) u₂
              (List.mem_of_find?_eq_some h₂) hsel
            have hid : u₁._id = u₂._id := by
              have := congrArg User._id hsel
              exact this
            have hname : u₁.name = u₂.name := by
              have := congrArg User.name hsel
              exact this
            have hemail : u₁.email = u₂.email := by
              have := congrArg User.email hsel
              exact this
            have hcreated : u₁.createdAt = u₂.createdAt := by
              have := congrArg User.createdAt hsel
              exact this
            simp only []
            cases hp₁ : u₁.password with
            | none =>
              cases hp₂ : u₂.password with
              | none => rfl
              | some x₂ => rw [hp₁, hp₂] at hver; cases hver
            | some x₁ =>
              cases hp₂ : u₂.password with
              | none => rw [hp₁, hp₂] at hver; cases hver
              | some x₂ =>
                rw [hp₁, hp₂] at hver
                have hc : env.compare (asString (req.body "password")) x₁ =
                    env.compare (asString (req.body "password")) x₂ := by
                  simpa using hver
                simp only [hc, hid, hname, hemail, hcreated, sessionData, generateToken_eq]
                split <;> rfl
  · simp only [hv, ne_eq, not_false_eq_true, if_true]

/-- C17, as stated, fails: a registration whose password is too short is answered with
a body that carries, besides `success`, the field `errors`, which lists the failed check
together with the value submitted. -/
theorem register_response_has_errors_field :
    ¬ ((registerRoute sampleEnv "u7" 1000 sampleUsers
        (bodyOnly shortPasswordBody)).response.body.all
          (fun kv => kv.1 ∈ ["success", "message", "data"]) = true) ∧
    (registerRoute sampleEnv "u7" 1000 sampleUsers
        (bodyOnly shortPasswordBody)).response.field "errors" =
      some (.errors [{ path := "password", msg := "Password must be at least 6 characters",
                       value := some "abc" }]) := by
  decide

/-- C17, amended: for every request and store, the body of every response of register,
login, `GET /profile` and `PUT /profile` carries only the boolean `success`, the string
`message`, the `errors` list of a failed validation and the object `data`, and `data`
has no field other than id, name, email, createdAt and token - in particular none named
password. The stored hash appears in none of them. A register response is the list of
failed checks of the request, one of two fixed messages, or 201 with the new identifier,
the sanitized name and email of the request, the creation time and the token issued for
the new identifier. A login response is the list of failed checks of the request, one of
two fixed messages, or 200 with the identifier, name, email and creation time of a
stored record and the token issued for its identifier; and two stores that differ only
in password hashes, on which the comparison gives the same verdict for the password of
the request, yield the same login response. Two stores that differ only in password
hashes yield the same responses of `GET /profile`, `PUT /profile` and register. -/
theorem auth_responses_hide_password (env : Env) (newId : String) (now : Nat)
    (s₁ s₂ : UserStore) (req : Req) (hsame : sameButPasswords s₁ s₂) :
    (authShaped (registerRoute env newId now s₁ req).response = true ∧
      authShaped (loginRoute env now s₁ req).response = true ∧
      authShaped (getProfile s₁ req).response = true ∧
      authShaped (updateProfileRoute env s₁ req).response = true) ∧
    "password" ∉ dataFieldNames ∧
    ((registerRoute env newId now s₁ req).response =
        validationFailed (runAuthChains env registerChains req).validationErrors ∨
      (registerRoute env newId now s₁ req).response =
        failure 500 "Server error during registration" ∨
      (registerRoute env newId now s₁ req).response =
        failure 400 "User with this email already exists" ∨
      (registerRoute env newId now s₁ req).response =
        { status := 201,
          body := [("success", .bool true), ("message", .str "User registered successfully"),
                   ("data", .obj [("id", .str newId),
                     ("name", .str (jsTrim (asString (req.body "name")))),
                     ("email", .str (env.normalizeEmail (asString (req.body "email")))),
                     ("createdAt", .num now),
                     ("token", .str (env.encode
                       { claims := { id := some newId, iat := now,
                                     exp := some (now + 2592000) },
                         key := jwtSecret env }))])] }) ∧
    ((loginRoute env now s₁ req).response =
        validationFailed (runAuthChains env loginChains req).validationErrors ∨
      (loginRoute env now s₁ req).response = failure 500 "Server error during login" ∨
      (loginRoute env now s₁ req).response = failure 401 "Invalid email or password" ∨
      ∃ u ∈ s₁.docs, (loginRoute env now s₁ req).response =
        { status := 200,
          body := [("success", .bool true), ("message", .str "Login successful"),
                   ("data", .obj [("id", .str u._id), ("name", .str u.name),
                     ("email", .str u.email), ("createdAt", .num u.createdAt),
                     ("token", .str (env.encode
                       { claims := { id := some u._id, iat := now,
                                     exp := some (now + 2592000) },
                         key := jwtSecret env }))])] }) ∧
    ((∀ u₁ ∈ s₁.docs, ∀ u₂ ∈ s₂.docs,
        u₁.selectWithoutPassword = u₂.selectWithoutPassword →
        u₁.password.map (env.compare (asString (req.body "password"))) =
          u₂.password.map (env.compare (asString (req.body "password")))) →
      (loginRoute env now s₁ req).response = (loginRoute env now s₂ req).response) ∧
    (getProfile s₁ req).response = (getProfile s₂ req).response ∧
    (updateProfileRoute env s₁ req).response = (updateProfileRoute env s₂ req).response ∧
    (registerRoute env newId now s₁ req).response =
      (registerRoute env newId now s₂ req).response := by
  refine ⟨⟨register_shaped env newId now s₁ _, login_shaped env now s₁ _,
      getProfile_shaped s₁ req, updateProfile_shaped s₁ _⟩, by decide, ?_,
    login_cases env now s₁ _, ?_, getProfile_sel s₁ s₂ hsame req,
    updateProfile_sel s₁ s₂ hsame _, register_sel env newId now s₁ s₂ hsame _⟩
  · rcases register_cases env newId now s₁ (runAuthChains env registerChains req) with
      h | h | h | ⟨name, email, hn, he, h⟩
    · exact Or.inl h
    · exact Or.inr (Or.inl h)
    · exact Or.inr (Or.inr (Or.inl h))
    · obtain ⟨hbn, hbe⟩ := registerChains_body env req
      rw [hbn] at hn
      rw [hbe] at he
      cases hn
      cases he
      exact Or.inr (Or.inr (Or.inr h))
  · intro hverdict
    refine login_sel env now s₁ s₂ hsame _ ?_
    rw [loginChains_password]
    exact hverdict

theorem auth_responses_hide_password_witness :
    sameButPasswords twoUsers twoUsersRehashed ∧
    (getProfile twoUsers (aliceReq "" (fun _ => none) (fun _ => none) [])).response =
      (getProfile twoUsersRehashed (aliceReq "" (fun _ => none) (fun _ => none) [])).response ∧
    (getProfile twoUsers (aliceReq "" (fun _ => none) (fun _ => none) [])).response.status
      = 200 ∧
    (loginRoute sampleEnv 1000 twoUsers (bodyOnly wrongPasswordBody)).response =
      (loginRoute sampleEnv 1000 twoUsersRehashed (bodyOnly wrongPasswordBody)).response ∧
    (loginRoute sampleEnv 1000 twoUsers (bodyOnly wrongPasswordBody)).response =
      failure 401 "Invalid email or password" :=
  ⟨⟨by decide, rfl⟩,
   (auth_responses_hide_password sampleEnv "u7" 1000 twoUsers twoUsersRehashed
      (aliceReq "" (fun _ => none) (fun _ => none) []) ⟨by decide, rfl⟩).2.2.2.2.2.1,
   by decide,
   (auth_responses_hide_password sampleEnv "u7" 1000 twoUsers twoUsersRehashed
      (bodyOnly wrongPasswordBody) ⟨by decide, rfl⟩).2.2.2.2.1 (by decide),
   by decide⟩

/-! ## The field `success` -/

theorem register_hasSuccess (env : Env) (newId : String) (now : Nat) (store : UserStore)
    (req : Req) : hasSuccess (register env newId now store req).response = true := by
  unfold register
  by_cases hv : req.validationErrors = []
  · simp only [hv, ne_eq, not_true_eq_false, if_false]
    cases h1 : store.findOneByEmail (req.body "email") false with
    | error e => rfl
    | ok o =>
      cases o with
      | some u => rfl
      | none =>
        simp only []
        cases h2 : store.create env.hash newId now
            { name := req.body "name", email := req.body "email",
              password := req.body "password" } with
        | error e => rfl
        | ok p =>
          obtain ⟨user, store1⟩ := p
          simp only []
          cases h3 : generateToken env now user._id with
          | error e => rfl
          | ok token => rfl
  · simp only [hv, ne_eq, not_false_eq_true, if_true]
    rfl

theorem login_hasSuccess (env : Env) (now : Nat) (store : UserStore) (req : Req) :
    hasSuccess (login env now store req).response = true := by
  unfold login
  by_cases hv : req.validationErrors = []
  · simp only [hv, ne_eq, not_true_eq_false, if_false]
    cases h1 : store.findOneByEmail (req.body "email") true with
    | error e => rfl
    | ok o =>
      cases o with
      | none => rfl
      | some user =>
        simp only []
        cases h2 : user.password with
        | none => rfl
        | some hashed =>
          simp only []
          cases h3 : env.compare (asString (req.body "password")) hashed with
          | false => rfl
          | true =>
            simp only [if_true]
            cases h4 : generateToken env now user._id with
            | error e => rfl
            | ok token => rfl
  · simp only [hv, ne_eq, not_false_eq_true, if_true]
    rfl

theorem getProfile_hasSuccess (store : UserStore) (req : Req) :
    hasSuccess (getProfile store req).response = true := by
  unfold getProfile
  cases hu : req.user with
  | none => rfl
  | some caller =>
    simp only []
    cases h1 : store.findById (some caller.id) with
    | error e => rfl
    | ok o =>
      cases o with
      | none => rfl
      | some user => rfl

theorem updateProfile_finish_hasSuccess (store : UserStore) (id : String) (f : UpdateFields)
    (before : List AuthCall) :
    hasSuccess (match store.findByIdAndUpdate id f with
      | Except.error _ =>
        ({ response := failure 500 "Server error updating profile", store := store,
           calls := before ++ [AuthCall.findByIdAndUpdate id f] } : AuthResult)
      | Except.ok (none, store1) =>
        { response := failure 404 "User not found", store := store1,
          calls := before ++ [AuthCall.findByIdAndUpdate id f] }
      | Except.ok (some user, store1) =>
        { response :=
            { status := 200,
              body := [("success", .bool true),
                       ("message", .str "Profile updated successfully"),
                       ("data", .obj [("id", .str user._id), ("name", .str user.name),
                                      ("email", .str user.email)])] },
          store := store1,
          calls := before ++ [AuthCall.findByIdAndUpdate id f] }).response = true := by
  cases h : store.findByIdAndUpdate id f with
  | error e => rfl
  | ok res =>
    obtain ⟨o, s1⟩ := res
    cases o with
    | none => rfl
    | some u => rfl

theorem updateProfile_hasSuccess (store : UserStore) (req : Req) :
    hasSuccess (updateProfile store req).response = true := by
  unfold updateProfile
  by_cases hv : req.validationErrors = []
  · simp only [hv, ne_eq, not_true_eq_false, if_false]
    cases hu : req.user with
    | none => rfl
    | some caller =>
      simp only []
      by_cases he : truthy (req.body "email") = true
      · simp only [he, if_true]
        cases h1 : store.findOneOther (req.body "email") caller.id with
        | error e => rfl
        | ok o =>
          cases o with
          | some u => rfl
          | none => exact updateProfile_finish_hasSuccess store caller.id _ _
      · simp only [he, if_false, Bool.false_eq_true]
        exact updateProfile_finish_hasSuccess store caller.id _ _
  · simp only [hv, ne_eq, not_false_eq_true, if_true]
    rfl

theorem getTask_hasSuccess (rx : String → String → String → Bool) (store : TaskStore)
    (req : Req) : hasSuccess (getTask rx store req).response = true := by
  unfold getTask
  cases req.user with
  | none => rfl
  | some u =>
    simp only []
    cases store.findOne rx (ownedTaskFilter req.paramsId u) with
    | error e => rfl
    | ok o => cases o <;> rfl

theorem listTasks_hasSuccess (rx : String → String → String → Bool) (store : TaskStore)
    (req : Req) : hasSuccess (listTasks rx store req).response = true := by
  unfold listTasks
  cases listQuery req with
  | none => rfl
  | some p =>
    obtain ⟨q, so⟩ := p
    simp only []
    cases store.find rx q so none <;> rfl

theorem createTask_hasSuccess (newId : String) (now : Nat) (store : TaskStore) (req : Req) :
    hasSuccess (createTask newId now store req).response = true := by
  unfold createTask
  by_cases hv : req.validationErrors = []
  · simp only [hv, ne_eq, not_true_eq_false, if_false]
    cases req.user with
    | none => rfl
    | some u =>
      simp only []
      cases store.create newId now (createRecord req u) with
      | error e => rfl
      | ok p => rfl
  · simp only [hv, ne_eq, not_false_eq_true, if_true]
    rfl

theorem updateTask_hasSuccess (rx : String → String → String → Bool) (now : Nat)
    (store : TaskStore) (req : Req) :
    hasSuccess (updateTask rx now store req).response = true := by
  unfold updateTask
  by_cases hv : req.validationErrors = []
  · simp only [hv, ne_eq, not_true_eq_false, if_false]
    cases req.user with
    | none => rfl
    | some u =>
      simp only []
      cases store.findOne rx (ownedTaskFilter req.paramsId u) with
      | error e => rfl
      | ok o =>
        cases o with
        | none => rfl
        | some found =>
          simp only []
          cases store.save now (applyUpdate req found) with
          | error e => rfl
          | ok p => rfl
  · simp only [hv, ne_eq, not_false_eq_true, if_true]
    rfl

theorem deleteTask_hasSuccess (rx : String → String → String → Bool) (store : TaskStore)
    (req : Req) : hasSuccess (deleteTask rx store req).response = true := by
  unfold deleteTask
  cases req.user with
  | none => rfl
  | some u =>
    simp only []
    cases store.findOne rx (ownedTaskFilter req.paramsId u) with
    | error e => rfl
    | ok o =>
      cases o with
      | none => rfl
      | some found =>
        simp only []
        cases store.deleteOne rx
            { _id := .eq req.paramsId, userId := .any, status := none, priority := none,
              or := none } with
        | error e => rfl
        | ok s1 => rfl

/-- Every response of the gateway and of every handler other than the batch delete and
the stats handler carries a boolean `success`. -/
theorem success_present_elsewhere (env : Env) (rx : String → String → String → Bool)
    (newId : String) (now : Nat) (tasks : TaskStore) (users : UserStore) (req : Req) :
    (hasSuccess noTokenResponse = true ∧ hasSuccess forbiddenResponse = true ∧
      hasSuccess userNotFoundResponse = true) ∧
    (hasSuccess (listTasks rx tasks req).response = true ∧
      hasSuccess (getTask rx tasks req).response = true ∧
      hasSuccess (createTaskRoute newId now tasks req).response = true ∧
      hasSuccess (updateTaskRoute rx now tasks req).response = true ∧
      hasSuccess (deleteTask rx tasks req).response = true) ∧
    (hasSuccess (registerRoute env newId now users req).response = true ∧
      hasSuccess (loginRoute env now users req).response = true ∧
      hasSuccess (logout users req).response = true ∧
      hasSuccess (getProfile users req).response = true ∧
      hasSuccess (updateProfileRoute env users req).response = true) :=
  ⟨⟨rfl, rfl, rfl⟩,
   ⟨listTasks_hasSuccess rx tasks req, getTask_hasSuccess rx tasks req,
    createTask_hasSuccess newId now tasks _, updateTask_hasSuccess rx now tasks _,
    deleteTask_hasSuccess rx tasks req⟩,
   ⟨register_hasSuccess env newId now users _, login_hasSuccess env now users _, rfl,
    getProfile_hasSuccess users req, updateProfile_hasSuccess users _⟩⟩

/-- The batch-delete handler and the stats handler, run on their own, answer on every
path with a body that has no field `success`: `{ message }` or `{ error }` for the batch
delete and `{ error }` for the stats handler. No request is dispatched to them
(`dispatch_tasks_reachable`). -/
theorem shadowed_handlers_lack_success :
    (∀ (rx : String → String → String → Bool) (store : TaskStore) (req : Req),
      (batchDelete rx store req).response.field "success" = none ∧
      (stats rx store req).response.field "success" = none) ∧
    (batchDelete noMatch sampleStore (protect sampleVerify sampleFindById batchReq).1).response
      = { status := 200, body := [("message", .str "0 tasks deleted successfully")] } ∧
    hasSuccess (batchDelete noMatch sampleStore
      (protect sampleVerify sampleFindById batchReq).1).response = false := by
  refine ⟨?_, by decide, by decide⟩
  intro rx store req
  constructor
  · simp only [batchDelete]
    cases store.deleteMany rx (batchFilter req) with
    | error e => rfl
    | ok p => rfl
  · rw [stats_eq rx store req]
    rfl

/-! ## Failure paths -/

theorem batchDelete_on_fault (rx : String → String → String → Bool) (store : TaskStore)
    (req : Req) (e : String) (hfault : store.faultOf .deleteMany = some e) :
    (batchDelete rx store req).response = { status := 500, body := [("error", .str e)] } := by
  simp only [batchDelete, TaskStore.deleteMany, hfault]

/-- The batch-delete handler, run on its own while `Task.deleteMany` fails, answers 500
with the body `{ error: <message of the error> }`, and the stats handler answers with
the text of the error it caught. No request is dispatched to them
(`dispatch_tasks_reachable`). -/
theorem shadowed_handlers_echo_error_text :
    (batchDelete noMatch (failingDeleteMany "connect ECONNREFUSED 10.0.0.5:27017")
        (protect sampleVerify sampleFindById batchReq).1).response =
      { status := 500, body := [("error", .str "connect ECONNREFUSED 10.0.0.5:27017")] } ∧
    (batchDelete noMatch (failingDeleteMany "connect ECONNREFUSED 10.0.0.5:27017")
        (protect sampleVerify sampleFindById batchReq).1).response ≠
      (batchDelete noMatch (failingDeleteMany "pool destroyed")
        (protect sampleVerify sampleFindById batchReq).1).response ∧
    (stats noMatch sampleStore (protect sampleVerify sampleFindById batchReq).1).response =
      { status := 500, body := [("error", .str "mongoose is not defined")] } := by
  decide

theorem protect_store_fails (verify : Option String → Except JwtError Decoded)
    (findById : Option String → Except String (Option User)) (req : Req) (h : String)
    (d : Decoded) (e : String) (ha : req.authorization = some h)
    (hb : startsWith h "Bearer" = true) (hv : verify (bearerToken h) = .ok d)
    (hf : findById d.id = .error e) :
    protect verify findById req =
      (req, [.verify (bearerToken h), .findById d.id, .respond forbiddenResponse]) := by
  unfold protect
  simp [ha, hasBearer_of_startsWith h hb, hv, hf]

/-- C22: the code does not do what the claim says. When the token verifies and the
lookup `User.findById` itself fails, `protect` answers from the same `catch` as for a bad
token: 403 "Forbidden: Invalid or expired token", not a 5xx response. Here for the valid
token of `alice` and a store whose lookup loses its connection. -/
theorem protect_store_failure_reported_as_forbidden :
    sampleVerify (bearerToken "Bearer tok-alice") = .ok { id := some "u1" } ∧
    brokenFindById (some "u1") = .error "MongoNetworkError: connection lost" ∧
    (protect sampleVerify brokenFindById (headerOnly (some "Bearer tok-alice"))).2 =
      [.verify (some "tok-alice"), .findById (some "u1"), .respond forbiddenResponse] ∧
    forbiddenResponse.status = 403 ∧
    forbiddenResponse.field "message" = some (.str "Forbidden: Invalid or expired token") ∧
    ¬ (500 ≤ forbiddenResponse.status) := by
  decide

/-- C23: the code does not do what the claim says. For the header "Bearer" alone, or
"Bearer" followed only by spaces, the guard of `protect` passes, the token taken from the
header is `undefined` or the empty string, and `protect` hands it to the token library:
verification is attempted, and when it rejects the token the response is 403 "Forbidden:
Invalid or expired token", not 401 "Not authorized, no token". -/
theorem protect_bearer_without_token_is_forbidden :
    (protect sampleVerify sampleFindById (headerOnly (some "Bearer"))).2 =
      [.verify none, .respond forbiddenResponse] ∧
    (protect sampleVerify sampleFindById (headerOnly (some "Bearer "))).2 =
      [.verify (some ""), .respond forbiddenResponse] ∧
    (protect sampleVerify sampleFindById (headerOnly (some "Bearer   "))).2 =
      [.verify (some ""), .respond forbiddenResponse] ∧
    verifyCalled (protect sampleVerify sampleFindById (headerOnly (some "Bearer"))).2 = true ∧
    forbiddenResponse ≠ noTokenResponse := by
  decide

theorem protect_outcomes (verify : Option String → Except JwtError Decoded)
    (findById : Option String → Except String (Option User)) (req : Req)
    (hfalsy : ∀ t, truthy t = false → ∃ e, verify t = .error e) :
    (∃ r, responses (protect verify findById req).2 = [r] ∧
      nextCalls (protect verify findById req).2 = 0) ∨
    (responses (protect verify findById req).2 = [] ∧
      nextCalls (protect verify findById req).2 = 1) := by
  cases ha : req.authorization with
  | none =>
    rw [protect_without_bearer verify findById req (by rw [ha]; rfl)]
    exact Or.inl ⟨_, rfl, rfl⟩
  | some h =>
    by_cases hb : startsWith h "Bearer" = true
    · cases hvr : verify (bearerToken h) with
      | error e =>
        rw [protect_verify_fails verify findById req h e ha hb hvr]
        exact Or.inl ⟨_, rfl, rfl⟩
      | ok d =>
        cases hf : findById d.id with
        | error e =>
          rw [protect_store_fails verify findById req h d e ha hb hvr hf]
          exact Or.inl ⟨_, rfl, rfl⟩
        | ok found =>
          cases found with
          | none =>
            have hp : (protect verify findById req).2 =
                [.verify (bearerToken h), .findById d.id,
                  .respond userNotFoundResponse] := by
              unfold protect
              simp [ha, hasBearer_of_startsWith h hb, hvr, hf]
            rw [hp]
            exact Or.inl ⟨_, rfl, rfl⟩
          | some u =>
            have ht : truthy (bearerToken h) = true := by
              cases htt : truthy (bearerToken h) with
              | true => rfl
              | false =>
                obtain ⟨e, he⟩ := hfalsy _ htt
                rw [hvr] at he
                cases he
            rw [protect_accepts verify findById req h d u ha hb hvr hf ht]
            exact Or.inr ⟨rfl, rfl⟩
    · have hg : hasBearer req.authorization = false := by
        rw [ha]
        simp [hasBearer, hb]
      rw [protect_without_bearer verify findById req hg]
      exact Or.inl ⟨_, rfl, rfl⟩

/-- C26: for every request, given that the token library rejects an absent or empty
token (and `next()` does not throw, as the model has it), `protect` either writes
exactly one response and does not call `next()`, or calls `next()` exactly once and
writes no response. -/
theorem protect_exactly_one_outcome (verify : Option String → Except JwtError Decoded)
    (findById : Option String → Except String (Option User)) (req : Req)
    (hfalsy : ∀ t, truthy t = false → ∃ e, verify t = .error e) :
    ((responses (protect verify findById req).2).length = 1 ∧
      nextCalls (protect verify findById req).2 = 0) ∨
    ((responses (protect verify findById req).2).length = 0 ∧
      nextCalls (protect verify findById req).2 = 1) := by
  rcases protect_outcomes verify findById req hfalsy with ⟨r, hr, hn⟩ | ⟨hr, hn⟩
  · exact Or.inl ⟨by rw [hr]; rfl, hn⟩
  · exact Or.inr ⟨by rw [hr]; rfl, hn⟩

theorem protect_exactly_one_outcome_witness :
    (∀ t, truthy t = false → ∃ e, sampleVerify t = .error e) ∧
    (((responses (protect sampleVerify sampleFindById
          (headerOnly (some "Bearer tok-ghost"))).2).length = 1 ∧
        nextCalls (protect sampleVerify sampleFindById
          (headerOnly (some "Bearer tok-ghost"))).2 = 0) ∨
      ((responses (protect sampleVerify sampleFindById
          (headerOnly (some "Bearer tok-ghost"))).2).length = 0 ∧
        nextCalls (protect sampleVerify sampleFindById
          (headerOnly (some "Bearer tok-ghost"))).2 = 1)) :=
  ⟨sampleVerify_rejects_falsy,
   protect_exactly_one_outcome sampleVerify sampleFindById
     (headerOnly (some "Bearer tok-ghost")) sampleVerify_rejects_falsy⟩

/-! ## Login does not reveal registration -/

theorem login_unknown_email (env : Env) (now : Nat) (s : UserStore) (req : Req)
    (hempty : req.validationErrors = [])
    (hvalid : (runAuthChains env loginChains req).validationErrors = [])
    (hff : s.faultOf .findOne = none)
    (hnone : ∀ v ∈ s.docs, v.email ≠ env.normalizeEmail (asString (req.body "email"))) :
    loginRoute env now s req =
      { response := failure 401 "Invalid email or password", store := s,
        calls := [.findOneByEmail (some (env.normalizeEmail (asString (req.body "email"))))
                    true] } := by
  obtain ⟨hbe, -, -⟩ := loginChains_spec env req hempty
  have hfind : s.docs.find?
      (fun v => decide (v.email = env.normalizeEmail (asString (req.body "email")))) = none := by
    rw [List.find?_eq_none]
    intro v hv
    simpa using hnone v hv
  unfold loginRoute login
  simp [hvalid, hbe, UserStore.findOneByEmail, hff, hfind]

theorem login_wrong_password (env : Env) (now : Nat) (s : UserStore) (req : Req)
    (hempty : req.validationErrors = [])
    (hvalid : (runAuthChains env loginChains req).validationErrors = [])
    (hff : s.faultOf .findOne = none)
    (hexists : ∃ v ∈ s.docs, v.email = env.normalizeEmail (asString (req.body "email")))
    (hmismatch : ∀ v ∈ s.docs, v.email = env.normalizeEmail (asString (req.body "email")) →
      ∃ hashed, v.password = some hashed ∧
        env.compare (asString (req.body "password")) hashed = false) :
    loginRoute env now s req =
      { response := failure 401 "Invalid email or password", store := s,
        calls := [.findOneByEmail (some (env.normalizeEmail (asString (req.body "email"))))
                    true,
                  .comparePassword (asString (req.body "password"))] } := by
  obtain ⟨hbe, hbp, -⟩ := loginChains_spec env req hempty
  obtain ⟨v, hv, hve⟩ := hexists
  obtain ⟨u, hfind, hpu, hmem⟩ := find?_some_of_mem
    (fun v : User => decide (v.email = env.normalizeEmail (asString (req.body "email"))))
    s.docs v hv (by simp [hve])
  obtain ⟨hashed, hpw, hcmp⟩ := hmismatch u hmem (by simpa using hpu)
  unfold loginRoute login
  simp [hvalid, hbe, hbp, UserStore.findOneByEmail, hff, hfind, hpw, hcmp]

/-- C27: for every well-formed login request (and stores whose lookup does not fail),
the response when no user has the given email equals the response when a user has it
but the password does not match: 401 `{success: false, message: "Invalid email or
password"}`. In neither case is `generateToken` called, the body carries no `data`, and
the stores are unchanged. -/
theorem login_hides_registration (env : Env) (now : Nat) (s₁ s₂ : UserStore) (req : Req)
    (hempty : req.validationErrors = [])
    (hvalid : (runAuthChains env loginChains req).validationErrors = [])
    (hff₁ : s₁.faultOf .findOne = none) (hff₂ : s₂.faultOf .findOne = none)
    (hnone : ∀ v ∈ s₁.docs, v.email ≠ env.normalizeEmail (asString (req.body "email")))
    (hexists : ∃ v ∈ s₂.docs, v.email = env.normalizeEmail (asString (req.body "email")))
    (hmismatch : ∀ v ∈ s₂.docs, v.email = env.normalizeEmail (asString (req.body "email")) →
      ∃ hashed, v.password = some hashed ∧
        env.compare (asString (req.body "password")) hashed = false) :
    (loginRoute env now s₁ req).response = (loginRoute env now s₂ req).response ∧
    (loginRoute env now s₁ req).response = failure 401 "Invalid email or password" ∧
    (failure 401 "Invalid email or password").status = 401 ∧
    (failure 401 "Invalid email or password").body =
      [("success", .bool false), ("message", .str "Invalid email or password")] ∧
    (∀ id, AuthCall.generateToken id ∉ (loginRoute env now s₁ req).calls ∧
      AuthCall.generateToken id ∉ (loginRoute env now s₂ req).calls) ∧
    (loginRoute env now s₁ req).store = s₁ ∧ (loginRoute env now s₂ req).store = s₂ := by
  rw [login_unknown_email env now s₁ req hempty hvalid hff₁ hnone,
    login_wrong_password env now s₂ req hempty hvalid hff₂ hexists hmismatch]
  refine ⟨rfl, rfl, rfl, rfl, ?_, rfl, rfl⟩
  intro id
  constructor <;> simp

theorem login_hides_registration_witness :
    (runAuthChains sampleEnv loginChains (bodyOnly wrongPasswordBody)).validationErrors = [] ∧
    (loginRoute sampleEnv 2000 noUsers (bodyOnly wrongPasswordBody)).response =
      (loginRoute sampleEnv 2000 sampleUsers (bodyOnly wrongPasswordBody)).response ∧
    (loginRoute sampleEnv 2000 sampleUsers (bodyOnly wrongPasswordBody)).response.status
      = 401 :=
  have hw := login_hides_registration sampleEnv 2000 noUsers sampleUsers
    (bodyOnly wrongPasswordBody) rfl (by decide) rfl rfl (by decide)
    ⟨alice, by decide, by decide⟩
    (by
      intro v hv hve
      have hva : v = alice := by simpa [sampleUsers] using hv
      subst hva
      exact ⟨"$2a$hash", rfl, by decide⟩)
  ⟨by decide, hw.1, by decide⟩

/-! ## Frame of `PUT /api/tasks/:id` -/

/-- The fields of the body after the validator chains of `PUT /:id`. -/
theorem updateTaskChains_body (req : Req) :
    (runChains updateTaskChains req).body "title" = (req.body "title").map jsTrim ∧
    (runChains updateTaskChains req).body "description" =
      (req.body "description").map jsTrim ∧
    (runChains updateTaskChains req).body "status" = req.body "status" ∧
    (runChains updateTaskChains req).body "priority" = req.body "priority" := by
  have hv : ∀ (f : String) (a : List String) (m : String) (v : Option String),
      (runChecks f [.isIn a m] v).1 = v :=
    fun f a m v => runChecks_value f _ v (by simp)
  have ht : ∀ (f : String) (m1 m2 : String) (n : Nat) (v : Option String),
      (runChecks f [.trim, .notEmpty m1, .isLengthMax n m2] v).1 =
        some (jsTrim (asString v)) :=
    fun f m1 m2 n v => runChecks_value f [.notEmpty m1, .isLengthMax n m2] _ (by simp)
  have hd : ∀ (f : String) (m : String) (n : Nat) (v : Option String),
      (runChecks f [.trim, .isLengthMax n m] v).1 = some (jsTrim (asString v)) :=
    fun f m n v => runChecks_value f [.isLengthMax n m] _ (by simp)
  simp only [runChains, updateTaskChains, commonTaskChains, List.foldl, Chain.run_body,
    hv, ht, hd]
  refine ⟨?_, ?_, ?_, ?_⟩
  · cases h : req.body "title" <;> simp [asString]
  · cases h : req.body "description" <;> simp [asString]
  · cases h : req.body "status" <;> simp
  · cases h : req.body "priority" <;> simp

/-- What an update that answers 200 has done. -/
theorem updateTask_success_inv (rx : String → String → String → Bool) (now : Nat)
    (store : TaskStore) (req : Req) (caller : User) (hu : req.user = some caller)
    (hsucc : (updateTaskRoute rx now store req).response.status = 200) :
    ∃ found, store.docs.find? ((ownedTaskFilter req.paramsId caller).holds rx) = some found ∧
      (updateTaskRoute rx now store req).response.field "data" =
        some (.task { applyUpdate (runChains updateTaskChains req) found with
                      updatedAt := now }) ∧
      (updateTaskRoute rx now store req).store.docs =
        store.docs.map (fun d =>
          if d._id = (applyUpdate (runChains updateTaskChains req) found)._id then
            { applyUpdate (runChains updateTaskChains req) found with updatedAt := now }
          else d) := by
  have hu2 : (runChains updateTaskChains req).user = some caller := by
    rw [runChains_user, hu]
  have hp2 : (runChains updateTaskChains req).paramsId = req.paramsId :=
    runChains_paramsId _ _
  by_cases hv : (runChains updateTaskChains req).validationErrors = []
  · cases hff : store.faultOf .findOne with
    | some e =>
      simp [updateTaskRoute, updateTask, hv, hu2, hp2, TaskStore.findOne, hff, failure]
        at hsucc
    | none =>
      cases hfind : store.docs.find? ((ownedTaskFilter req.paramsId caller).holds rx) with
      | none =>
        simp [updateTaskRoute, updateTask, hv, hu2, hp2, TaskStore.findOne, hff, hfind,
          taskNotFound, failure] at hsucc
      | some found =>
        cases hfs : store.faultOf .save with
        | some e =>
          simp [updateTaskRoute, updateTask, hv, hu2, hp2, TaskStore.findOne, hff, hfind,
            TaskStore.save, hfs, failure] at hsucc
        | none =>
          refine ⟨found, rfl, ?_, ?_⟩
          · simp [updateTaskRoute, updateTask, hv, hu2, hp2, TaskStore.findOne, hff, hfind,
              TaskStore.save, hfs, Response.field, List.lookup]
          · simp [updateTaskRoute, updateTask, hv, hu2, hp2, TaskStore.findOne, hff, hfind,
              TaskStore.save, hfs]
  · simp [updateTaskRoute, updateTask, hv, validationFailed] at hsucc

theorem applyUpdate_fields (req : Req) (t : Task) :
    (applyUpdate req t)._id = t._id ∧ (applyUpdate req t).userId = t.userId ∧
    (applyUpdate req t).createdAt = t.createdAt ∧
    (applyUpdate req t).title = (req.body "title").getD t.title ∧
    (applyUpdate req t).description =
      (match req.body "description" with
       | some v => some v
       | none => t.description) ∧
    (applyUpdate req t).status = (req.body "status").getD t.status ∧
    (applyUpdate req t).priority = (req.body "priority").getD t.priority := by
  unfold applyUpdate
  cases req.body "title" <;> cases req.body "description" <;> cases req.body "status" <;>
    cases req.body "priority" <;> simp

/-- C28: for every successful `PUT /api/tasks/:id` (the route answers 200), the task
saved and returned is the caller's stored task with that id in which each of title,
description, status and priority that the body lacks keeps its previous value and each
one the body has is set to the sanitized body value (title and description trimmed); its
id, owner and creation time are those of the stored task, whatever else the body
contains; and the store differs from the old one only in that task. -/
theorem updateTask_frame (rx : String → String → String → Bool) (now : Nat)
    (store : TaskStore) (req : Req) (caller : User) (hu : req.user = some caller)
    (hsucc : (updateTaskRoute rx now store req).response.status = 200) :
    ∃ found saved, found ∈ store.docs ∧ found._id = req.paramsId ∧
      found.userId = caller.id ∧
      (updateTaskRoute rx now store req).response.field "data" = some (.task saved) ∧
      (updateTaskRoute rx now store req).store.docs =
        store.docs.map (fun d => if d._id = found._id then saved else d) ∧
      saved._id = found._id ∧ saved.userId = found.userId ∧
      saved.createdAt = found.createdAt ∧
      (req.body "title" = none → saved.title = found.title) ∧
      (∀ v, req.body "title" = some v → saved.title = jsTrim v) ∧
      (req.body "description" = none → saved.description = found.description) ∧
      (∀ v, req.body "description" = some v → saved.description = some (jsTrim v)) ∧
      (req.body "status" = none → saved.status = found.status) ∧
      (∀ v, req.body "status" = some v → saved.status = v) ∧
      (req.body "priority" = none → saved.priority = found.priority) ∧
      (∀ v, req.body "priority" = some v → saved.priority = v) := by
  obtain ⟨found, hfind, hdata, hdocs⟩ := updateTask_success_inv rx now store req caller hu hsucc
  obtain ⟨hbt, hbd, hbs, hbp⟩ := updateTaskChains_body req
  obtain ⟨hid, hown, hcr, htitle, hdesc, hstatus, hprio⟩ :=
    applyUpdate_fields (runChains updateTaskChains req) found
  have hholds := List.find?_some hfind
  rw [ownedTaskFilter_holds] at hholds
  simp only [Bool.and_eq_true, decide_eq_true_eq] at hholds
  rw [hid] at hdocs
  refine ⟨found, _, List.mem_of_find?_eq_some hfind, hholds.1, hholds.2, hdata, hdocs, hid,
    hown, hcr, ?_, ?_, ?_, ?_, ?_, ?_, ?_, ?_⟩
  · intro h
    show (applyUpdate (runChains updateTaskChains req) found).title = _
    rw [htitle, hbt, h]
    rfl
  · intro v h
    show (applyUpdate (runChains updateTaskChains req) found).title = _
    rw [htitle, hbt, h]
    rfl
  · intro h
    show (applyUpdate (runChains updateTaskChains req) found).description = _
    rw [hdesc, hbd, h]
    rfl
  · intro v h
    show (applyUpdate (runChains updateTaskChains req) found).description = _
    rw [hdesc, hbd, h]
    rfl
  · intro h
    show (applyUpdate (runChains updateTaskChains req) found).status = _
    rw [hstatus, hbs, h]
    rfl
  · intro v h
    show (applyUpdate (runChains updateTaskChains req) found).status = _
    rw [hstatus, hbs, h]
    rfl
  · intro h
    show (applyUpdate (runChains updateTaskChains req) found).priority = _
    rw [hprio, hbp, h]
    rfl
  · intro v h
    show (applyUpdate (runChains updateTaskChains req) found).priority = _
    rw [hprio, hbp, h]
    rfl

theorem updateTask_frame_witness :
    (updateTaskRoute noMatch 50 sampleStore
      (aliceReq "t1" (fun _ => none) statusOnlyBody [])).response.status = 200 ∧
    (updateTaskRoute noMatch 50 sampleStore
      (aliceReq "t1" (fun _ => none) statusOnlyBody [])).response.field "data" =
      some (.task { aliceTask with status := "completed", updatedAt := 50 }) ∧
    ∃ found saved, found ∈ sampleStore.docs ∧ found._id = "t1" ∧
      (updateTaskRoute noMatch 50 sampleStore
        (aliceReq "t1" (fun _ => none) statusOnlyBody [])).response.field "data" =
        some (.task saved) ∧ saved.userId = found.userId :=
  ⟨by decide, by decide,
   match updateTask_frame noMatch 50 sampleStore
      (aliceReq "t1" (fun _ => none) statusOnlyBody []) alice.selectWithoutPassword rfl
      (by decide) with
   | ⟨found, saved, hm, hid, _, hdata, _, _, hown, _⟩ => ⟨found, saved, hm, hid, hdata, hown⟩⟩

/-! ## The client -/

theorem lookup_filter_ne (k : String) (l : List (String × String)) (p : String × String → Bool)
    (hp : ∀ kv, p kv = true → kv.1 ≠ k) : (l.filter p).lookup k = none := by
  induction l with
  | nil => rfl
  | cons kv l ih =>
    obtain ⟨k1, v1⟩ := kv
    by_cases h : p (k1, v1) = true
    · have hne : k1 ≠ k := hp (k1, v1) h
      have hbeq : (k == k1) = false := by
        simp only [beq_eq_false_iff_ne, ne_eq]
        exact fun heq => hne heq.symm
      simp only [List.filter_cons, h, if_true, List.lookup, hbeq]
      exact ih
    · simp only [List.filter_cons, h, if_false, Bool.false_eq_true]
      exact ih

theorem removeItem_getItem_self (b : Browser) (k : String) :
    (b.removeItem k).getItem k = none := by
  unfold Browser.removeItem Browser.getItem
  exact lookup_filter_ne k _ _ (fun kv h => by simpa using h)

theorem removeItem_getItem_twice (b : Browser) (k k2 : String) :
    ((b.removeItem k).removeItem k2).getItem k = none := by
  unfold Browser.removeItem Browser.getItem
  simp only [List.filter_filter]
  exact lookup_filter_ne k _ _ (fun kv h => by
    simp only [Bool.and_eq_true, decide_eq_true_eq] at h
    exact h.2)

/-- C24: for every failed HTTP response seen by the response interceptor of the client:
when the status is 401 and local storage holds a token (a non-empty entry `token`), the
entries `token` and `user` are removed and the browser goes to `/login`; for every other
status - 403 included - or when no token is stored, or when no response arrived, the
browser state is left unchanged; and in every case the interceptor rejects with the same
error. -/
theorem interceptor_clears_session_iff (b : Browser) (error : ApiError) :
    ((error.response.map (fun r => r.status) = some 401 ∧ truthy (b.getItem "token") = true) →
      (onResponseError b error).1 =
        { (b.removeItem "token").removeItem "user" with location := "/login" } ∧
      (onResponseError b error).1.getItem "token" = none ∧
      (onResponseError b error).1.getItem "user" = none ∧
      (onResponseError b error).1.location = "/login") ∧
    (¬ (error.response.map (fun r => r.status) = some 401 ∧
        truthy (b.getItem "token") = true) → (onResponseError b error).1 = b) ∧
    (error.response.map (fun r => r.status) = some 403 → (onResponseError b error).1 = b) ∧
    (onResponseError b error).2 = .error error := by
  refine ⟨?_, ?_, ?_, rfl⟩
  · rintro ⟨h401, htok⟩
    have hb : (onResponseError b error).1 =
        { (b.removeItem "token").removeItem "user" with location := "/login" } := by
      simp only [onResponseError, h401, htok, if_true]
    rw [hb]
    exact ⟨rfl, removeItem_getItem_twice b "token" "user",
      removeItem_getItem_self (b.removeItem "token") "user", rfl⟩
  · intro hnot
    by_cases h401 : error.response.map (fun r => r.status) = some 401
    · have htok : truthy (b.getItem "token") = false := by
        cases ht : truthy (b.getItem "token") with
        | false => rfl
        | true => exact absurd ⟨h401, ht⟩ hnot
      simp only [onResponseError, h401, htok, if_true, Bool.false_eq_true, if_false]
    · simp only [onResponseError, h401, if_false]
  · intro h403
    have h401 : ¬ error.response.map (fun r => r.status) = some 401 := by
      rw [h403]
      decide
    simp only [onResponseError, h401, if_false]

/-- C25: the code does not do what the claim says. The default value of the context is
the empty object `{}`, which is truthy: called without an enclosing `AuthProvider`,
`useAuth` reads that default, its guard `!context` is false and it returns `{}` instead
of throwing "useAuth must be used within AuthProvider". -/
theorem useAuth_outside_provider_does_not_throw :
    useAuthContext none = authContextDefault ∧
    authContextDefault = .object [] ∧
    authContextDefault.truthy = true ∧
    useAuth none = .ok (.object []) ∧
    useAuth none ≠ .error "useAuth must be used within AuthProvider" := by
  decide

theorem handleSubmit_always_saves (b : Browser) (task : Option Task) (formData : FormData)
    (outcome : Except ApiError ApiResponse) (hchecks : passesClientChecks formData = true) :
    (handleSubmit b task formData outcome).onSaveCalls = 1 ∧
    (handleSubmit b task formData outcome).state.error = "" := by
  simp only [passesClientChecks, Bool.and_eq_true, Bool.or_eq_true, decide_eq_true_eq] at hchecks
  obtain ⟨⟨ht, hl⟩, hd⟩ := hchecks
  have h1 : ¬ (jsTrim formData.title = "") := by simpa using ht
  have h2 : ¬ (100 < utf16Length formData.title) := Nat.not_lt.mpr hl
  have h3 : ¬ (formData.description ≠ "" ∧ 500 < utf16Length formData.description) := by
    rintro ⟨hne, hlt⟩
    rcases hd with hd | hd
    · exact hne hd
    · exact absurd hlt (Nat.not_lt.mpr hd)
  unfold handleSubmit
  simp only [h1, h2, h3, if_false]
  cases task <;> cases outcome <;>
    simp [createTaskApi, updateTaskApi, apiRequest, onResponseError]

/-- C29: the code does not do what the claim says. `tasksAPI.createTask` and
`tasksAPI.updateTask` catch every failure of the request and return `{ success: false,
message }`, so the `await` in `handleSubmit` never rejects: for a form that passes the
client-side checks and a server that answers 500, `handleSubmit` calls `onSave` once and
leaves the error message of the modal empty. -/
theorem handleSubmit_saves_on_server_failure :
    passesClientChecks validForm = true ∧
    createTaskApi loggedInBrowser (.error (httpError 500 "Server error creating task")) =
      (loggedInBrowser,
        .ok { success := some false, message := some "Server error creating task" }) ∧
    (handleSubmit loggedInBrowser none validForm
      (.error (httpError 500 "Server error creating task"))).onSaveCalls = 1 ∧
    (handleSubmit loggedInBrowser none validForm
      (.error (httpError 500 "Server error creating task"))).state.error = "" ∧
    (handleSubmit loggedInBrowser (some aliceTask) validForm
      (.error { response := none })).onSaveCalls = 1 := by
  decide

/-! ## Filtering and sorting on the tasks page -/

theorem includesChars_iff (part l : List Char) :
    includesChars part l = true ↔ part <:+: l := by
  induction l with
  | nil => simp [includesChars, List.isEmpty_iff]
  | cons c cs ih =>
    simp only [includesChars, Bool.or_eq_true, ih, List.infix_cons_iff,
      List.isPrefixOf_iff_prefix]

theorem includes_iff (js : JsStrings) (text query : String) :
    includes (js.toLowerCase text) (js.toLowerCase query) = true ↔
      ContainsIgnoringCase js text query := by
  unfold includes ContainsIgnoringCase
  rw [includesChars_iff]
  constructor
  · rintro ⟨before, after, h⟩
    exact ⟨before, after, h.symm⟩
  · rintro ⟨before, after, h⟩
    exact ⟨before, after, h.symm⟩

/-- The tests the code applies select exactly the tasks that satisfy the active filters
as the specification words them. -/
theorem passesFilters_iff (js : JsStrings) (st : PageState) (t : Task) :
    passesFilters js st t = true ↔ SatisfiesFilters js st t := by
  have hsearch : searchHit js st.searchQuery t = true ↔
      (ContainsIgnoringCase js t.title st.searchQuery ∨
        ∃ d, t.description = some d ∧ ContainsIgnoringCase js d st.searchQuery) := by
    unfold searchHit
    cases hd : t.description with
    | none => simp [includes_iff]
    | some d => simp [includes_iff]
  simp only [passesFilters, SatisfiesFilters, Bool.and_eq_true, Bool.or_eq_true,
    decide_eq_true_eq, hsearch]
  tauto

theorem filter_steps (js : JsStrings) (st : PageState) :
    (filterAndSortTasks js st).filteredTasks =
      jsSort (sortComparator js st.sortBy) (st.tasks.filter (passesFilters js st)) := by
  have hf : ∀ (p q r : Task → Bool) (l : List Task),
      (((l.filter p).filter q).filter r) = l.filter (fun t => p t && q t && r t) := by
    intro p q r l
    rw [List.filter_filter, List.filter_filter]
    apply List.filter_congr
    intro t _
    cases p t <;> cases q t <;> cases r t <;> rfl
  have htrue : ∀ l : List Task, l = l.filter (fun _ => true) := by
    intro l
    simp
  unfold filterAndSortTasks
  simp only []
  congr 1
  by_cases h1 : st.searchQuery = "" <;> by_cases h2 : st.statusFilter = "all" <;>
    by_cases h3 : st.priorityFilter = "all" <;>
    simp only [h1, h2, h3, ne_eq, not_true_eq_false, not_false_eq_true, if_true, if_false,
      List.filter_filter] <;>
    first
      | (apply List.filter_congr
         intro t _
         simp [passesFilters, h1, h2, h3, Bool.and_comm])
      | (conv_lhs => rw [htrue st.tasks]
         apply List.filter_congr
         intro t _
         simp [passesFilters, h1, h2, h3])

theorem orderedInsert_congr {α : Type} (r s : α → α → Prop) [DecidableRel r] [DecidableRel s]
    (a : α) (l : List α) (h : ∀ b ∈ l, (r a b ↔ s a b)) :
    l.orderedInsert r a = l.orderedInsert s a := by
  induction l with
  | nil => rfl
  | cons b l ih =>
    have hb := h b (List.mem_cons_self _ _)
    have ih1 := ih (fun c hc => h c (List.mem_cons_of_mem _ hc))
    simp only [List.orderedInsert]
    by_cases hr : r a b
    · rw [if_pos hr, if_pos (hb.mp hr)]
    · rw [if_neg hr, if_neg (fun hs => hr (hb.mpr hs)), ih1]

/-- Two orders that agree on the elements of a list sort it alike. -/
theorem insertionSort_congr {α : Type} (r s : α → α → Prop) [DecidableRel r] [DecidableRel s]
    (l : List α) (h : ∀ a ∈ l, ∀ b ∈ l, (r a b ↔ s a b)) :
    l.insertionSort r = l.insertionSort s := by
  induction l with
  | nil => rfl
  | cons a l ih =>
    have ih1 := ih (fun x hx y hy => h x (List.mem_cons_of_mem _ hx) y (List.mem_cons_of_mem _ hy))
    simp only [List.insertionSort]
    rw [ih1]
    apply orderedInsert_congr
    intro b hb
    have hbl : b ∈ l := (List.perm_insertionSort s l).mem_iff.mp hb
    exact h a (List.mem_cons_self _ _) b (List.mem_cons_of_mem _ hbl)

/-- The rank of a priority that is no inherited name: 3, 2, 1 for high, medium, low and
0 for every other one. -/
theorem priorityRank_cases (p : String) (hp : p ∉ objectPrototypeNames) :
    ∃ n : Int, priorityRank p = some n ∧ 0 ≤ n ∧ n ≤ 3 ∧
      (p = "high" → n = 3) ∧ (p = "medium" → n = 2) ∧ (p = "low" → n = 1) := by
  unfold priorityRank
  by_cases h1 : p = "high"
  · subst h1
    exact ⟨3, by simp, by decide, by decide, fun _ => rfl, by decide, by decide⟩
  · by_cases h2 : p = "medium"
    · subst h2
      exact ⟨2, by simp, by decide, by decide, by decide, fun _ => rfl, by decide⟩
    · by_cases h3 : p = "low"
      · subst h3
        exact ⟨1, by simp, by decide, by decide, by decide, by decide, fun _ => rfl⟩
      · exact ⟨0, by simp [h1, h2, h3, hp], by decide, by decide,
          fun h => absurd h h1, fun h => absurd h h2, fun h => absurd h h3⟩

/-- C30, the claim as stated fails: `priorityOrder[p]` also finds the names an object
inherits, so for a task whose priority is "constructor" the comparator returns NaN, which
`sort` reads as "keep the order". Of three tasks with the priorities low, constructor and
high, in this order, the list sorted by priority is unchanged: the low task stands before
the high one. -/
theorem filterAndSortTasks_low_before_high :
    inheritedNamePage.sortBy = "priority" ∧
    inheritedNamePage.tasks.map (fun t => t.priority) = ["low", "constructor", "high"] ∧
    (filterAndSortTasks plainStrings inheritedNamePage).filteredTasks.map
      (fun t => t.priority) = ["low", "constructor", "high"] ∧
    ¬ (filterAndSortTasks plainStrings inheritedNamePage).filteredTasks.Pairwise (fun a b =>
      (b.priority = "high" → a.priority ≠ "medium" ∧ a.priority ≠ "low") ∧
      (b.priority = "medium" → a.priority ≠ "low")) := by
  decide

/-- C30, amended: for every task list and every setting of the search query, the two
filters and the sort key, the list `filterAndSortTasks` stores is a permutation of
exactly the tasks that satisfy all active filters as the specification words them
(`SatisfiesFilters`); with the sort key 'priority', and when no task has as priority a
name that objects inherit (`objectPrototypeNames`; the priorities low, medium and high
are none of them), no medium or low task stands before a high one and no low task before
a medium one; and the list `tasks` and the settings are left as they were. -/
theorem filterAndSortTasks_spec (js : JsStrings) (st : PageState) :
    (∃ keep : Task → Bool, (∀ t, keep t = true ↔ SatisfiesFilters js st t) ∧
      (filterAndSortTasks js st).filteredTasks.Perm (st.tasks.filter keep)) ∧
    (st.sortBy = "priority" → (∀ t ∈ st.tasks, t.priority ∉ objectPrototypeNames) →
      (filterAndSortTasks js st).filteredTasks.Pairwise (fun a b =>
        (b.priority = "high" → a.priority ≠ "medium" ∧ a.priority ≠ "low") ∧
        (b.priority = "medium" → a.priority ≠ "low"))) ∧
    (filterAndSortTasks js st).tasks = st.tasks ∧
    (filterAndSortTasks js st).searchQuery = st.searchQuery ∧
    (filterAndSortTasks js st).statusFilter = st.statusFilter ∧
    (filterAndSortTasks js st).priorityFilter = st.priorityFilter ∧
    (filterAndSortTasks js st).sortBy = st.sortBy := by
  refine ⟨⟨passesFilters js st, passesFilters_iff js st, ?_⟩, ?_, rfl, rfl, rfl, rfl, rfl⟩
  · rw [filter_steps]
    exact List.perm_insertionSort _ _
  · intro hsort hnames
    rw [filter_steps, hsort]
    have hmem : ∀ t ∈ st.tasks.filter (passesFilters js st),
        t.priority ∉ objectPrototypeNames :=
      fun t ht => hnames t (List.mem_of_mem_filter ht)
    have hagree : ∀ a ∈ st.tasks.filter (passesFilters js st),
        ∀ b ∈ st.tasks.filter (passesFilters js st),
        ((sortComparator js "priority" a b).getD 0 ≤ 0 ↔
          (priorityRank b.priority).getD 0 ≤ (priorityRank a.priority).getD 0) := by
      intro a ha b hb
      obtain ⟨na, hna, -⟩ := priorityRank_cases a.priority (hmem a ha)
      obtain ⟨nb, hnb, -⟩ := priorityRank_cases b.priority (hmem b hb)
      have hc : sortComparator js "priority" a b = some (nb - na) := by
        unfold sortComparator
        rw [if_neg (by decide), if_neg (by decide), if_neg (by decide), if_pos rfl, hna, hnb]
      rw [hc, hna, hnb]
      simp only [Option.getD_some]
      omega
    unfold jsSort
    rw [insertionSort_congr _
      (fun a b : Task => (priorityRank b.priority).getD 0 ≤ (priorityRank a.priority).getD 0)
      _ hagree]
    haveI : IsTotal Task
        (fun a b => (priorityRank b.priority).getD 0 ≤ (priorityRank a.priority).getD 0) :=
      ⟨fun a b => by omega⟩
    haveI : IsTrans Task
        (fun a b => (priorityRank b.priority).getD 0 ≤ (priorityRank a.priority).getD 0) :=
      ⟨fun a b c hab hbc => by omega⟩
    have hsorted := List.sorted_insertionSort
      (fun a b : Task => (priorityRank b.priority).getD 0 ≤ (priorityRank a.priority).getD 0)
      (st.tasks.filter (passesFilters js st))
    have hperm := List.perm_insertionSort
      (fun a b : Task => (priorityRank b.priority).getD 0 ≤ (priorityRank a.priority).getD 0)
      (st.tasks.filter (passesFilters js st))
    have hall : ∀ t ∈ (st.tasks.filter (passesFilters js st)).insertionSort
        (fun a b : Task =>
          (priorityRank b.priority).getD 0 ≤ (priorityRank a.priority).getD 0),
        t.priority ∉ objectPrototypeNames :=
      fun t ht => hmem t (hperm.mem_iff.mp ht)
    refine List.Pairwise.imp_of_mem ?_ hsorted
    intro a b ha hb hab
    obtain ⟨na, hna, -, hna3, -, ha2, ha1⟩ := priorityRank_cases a.priority (hall a ha)
    obtain ⟨nb, hnb, -, -, hb3, hb2, -⟩ := priorityRank_cases b.priority (hall b hb)
    rw [hna, hnb] at hab
    simp only [Option.getD_some] at hab
    refine ⟨fun hbh => ⟨fun ham => ?_, fun hal => ?_⟩, fun hbm hal => ?_⟩
    · have := hb3 hbh
      have := ha2 ham
      omega
    · have := hb3 hbh
      have := ha1 hal
      omega
    · have := hb2 hbm
      have := ha1 hal
      omega

theorem filterAndSortTasks_sample :
    (filterAndSortTasks plainStrings priorityPage).filteredTasks.map (fun t => t.priority) =
      ["high", "medium", "low"] ∧
    (filterAndSortTasks plainStrings priorityPage).tasks = priorityStore.docs := by
  decide

/-- The search filter on the sample tasks: the query "RENT" keeps the task titled
"Pay rent", the query "friday" keeps it for its description "before Friday", and the
query "zebra" keeps nothing. -/
theorem filterAndSortTasks_search_sample :
    (filterAndSortTasks asciiStrings (searchPage "RENT")).filteredTasks = [bobTask] ∧
    (filterAndSortTasks asciiStrings (searchPage "friday")).filteredTasks = [bobTask] ∧
    (filterAndSortTasks asciiStrings (searchPage "zebra")).filteredTasks = [] ∧
    (filterAndSortTasks asciiStrings (searchPage "")).filteredTasks = [bobTask, aliceTask] := by
  decide

theorem interceptor_clears_session_iff_witness :
    ((httpError 401 "Not authorized, no token").response.map (fun r => r.status) = some 401 ∧
      truthy (loggedInBrowser.getItem "token") = true) ∧
    (onResponseError loggedInBrowser (httpError 401 "Not authorized, no token")).1 =
      { storage := [("theme", "dark")], location := "/login" } ∧
    (onResponseError loggedInBrowser
      (httpError 403 "Forbidden: Invalid or expired token")).1 = loggedInBrowser :=
  ⟨⟨by decide, by decide⟩,
   ((interceptor_clears_session_iff loggedInBrowser
      (httpError 401 "Not authorized, no token")).1 ⟨by decide, by decide⟩).1.trans
      (by decide),
   (interceptor_clears_session_iff loggedInBrowser
      (httpError 403 "Forbidden: Invalid or expired token")).2.2.1 (by decide)⟩

theorem filterAndSortTasks_spec_witness :
    priorityPage.sortBy = "priority" ∧
    (∀ t ∈ priorityPage.tasks, t.priority ∉ objectPrototypeNames) ∧
    (filterAndSortTasks plainStrings priorityPage).filteredTasks.Pairwise (fun a b =>
      (b.priority = "high" → a.priority ≠ "medium" ∧ a.priority ≠ "low") ∧
      (b.priority = "medium" → a.priority ≠ "low")) ∧
    (∃ keep : Task → Bool,
      (∀ t, keep t = true ↔ SatisfiesFilters asciiStrings (searchPage "RENT") t) ∧
      (filterAndSortTasks asciiStrings (searchPage "RENT")).filteredTasks.Perm
        ((searchPage "RENT").tasks.filter keep)) ∧
    (filterAndSortTasks asciiStrings (searchPage "RENT")).filteredTasks = [bobTask] :=
  ⟨rfl, by decide,
   (filterAndSortTasks_spec plainStrings priorityPage).2.1 rfl (by decide),
   (filterAndSortTasks_spec asciiStrings (searchPage "RENT")).1, by decide⟩

/-! ## Requests served through the routers -/

theorem segsMatch_param (ps us : List String) (hp : ps.length = 1)
    (h : segsMatch ps us = true) : segsMatch [":id"] us = true := by
  have hcolon : startsWith ":id" ":" = true := by decide
  cases ps with
  | nil => simp at hp
  | cons p ps1 =>
    cases ps1 with
    | cons q ps2 => simp at hp
    | nil =>
      cases us with
      | nil => simp [segsMatch] at h
      | cons u rest =>
        cases rest with
        | nil => simp [segsMatch, segMatches, hcolon]
        | cons v rest2 => simp [segsMatch] at h

/-- A route `/:id` serves every request that a route with a one-segment path and the
same method serves. -/
theorem serves_param (r0 r1 : Route) (hm : r0.method = r1.method)
    (h0 : segments r0.path = [":id"]) (h1 : (segments r1.path).length = 1) (m : Method)
    (url : String) (h : r1.serves m url = true) : r0.serves m url = true := by
  simp only [Route.serves, Bool.and_eq_true, decide_eq_true_eq] at h ⊢
  refine ⟨hm.trans h.1, ?_⟩
  rw [h0]
  exact segsMatch_param _ _ h1 h.2

/-- Each of the last two routes of the tasks router stands behind a route `/:id` with
the same method. -/
theorem tasksRouter_shadowed : ∀ r1 ∈ tasksRouter.drop 5, ∃ r0 ∈ tasksRouter.take 5,
    r0.method = r1.method ∧ segments r0.path = [":id"] ∧ (segments r1.path).length = 1 := by
  decide

/-- The tasks router never dispatches to its last two routes: `/:id` is registered
before them and serves every request they would serve. -/
theorem dispatch_tasks_reachable (m : Method) (url : String) (r : Route)
    (h : dispatch tasksRouter m url = some r) : r ∈ tasksRouter.take 5 := by
  have hsplit : tasksRouter = tasksRouter.take 5 ++ tasksRouter.drop 5 :=
    (List.take_append_drop 5 tasksRouter).symm
  unfold dispatch at h
  rw [hsplit, List.find?_append] at h
  cases h1 : (tasksRouter.take 5).find? (fun r => r.serves m url) with
  | some r1 =>
    rw [h1] at h
    have hr : r1 = r := by simpa using h
    subst hr
    exact List.mem_of_find?_eq_some h1
  | none =>
    rw [h1] at h
    have h2 : (tasksRouter.drop 5).find? (fun r => r.serves m url) = some r := by
      simpa using h
    have hnone := List.find?_eq_none.mp h1
    have hserves := List.find?_some h2
    have hmem := List.mem_of_find?_eq_some h2
    obtain ⟨r0, hr0, hm, h0, hl⟩ := tasksRouter_shadowed r hmem
    exact absurd (serves_param r0 r hm h0 hl m url hserves) (hnone r0 hr0)

theorem appDispatch_mem (mounts : List (String × List Route)) (m : Method) (url : String)
    (r : Route) (h : appDispatch mounts m url = some r) :
    ∃ mount routes sub, (mount, routes) ∈ mounts ∧ dispatch routes m sub = some r := by
  induction mounts with
  | nil => simp [appDispatch] at h
  | cons p rest ih =>
    obtain ⟨mount, routes⟩ := p
    simp only [appDispatch] at h
    cases hb : belowMount mount url with
    | none =>
      rw [hb] at h
      obtain ⟨mt, rs, sub, hm, hd⟩ := ih h
      exact ⟨mt, rs, sub, List.mem_cons_of_mem _ hm, hd⟩
    | some sub =>
      rw [hb] at h
      simp only [] at h
      cases hd : dispatch routes m sub with
      | some r1 =>
        rw [hd] at h
        simp only [Option.some.injEq] at h
        subst h
        exact ⟨mount, routes, sub, List.mem_cons_self _ _, hd⟩
      | none =>
        rw [hd] at h
        obtain ⟨mt, rs, sub2, hm, hd2⟩ := ih h
        exact ⟨mt, rs, sub2, List.mem_cons_of_mem _ hm, hd2⟩

/-- Every route the application dispatches to is one of the reachable routes. -/
theorem appDispatch_reachable (m : Method) (url : String) (r : Route)
    (h : appDispatch appMounts m url = some r) : r ∈ reachableRoutes := by
  obtain ⟨mount, routes, sub, hm, hd⟩ := appDispatch_mem appMounts m url r h
  simp only [appMounts, List.mem_cons, Prod.mk.injEq, List.mem_singleton, List.not_mem_nil,
    or_false] at hm
  unfold reachableRoutes
  rcases hm with ⟨-, hr⟩ | ⟨-, hr⟩ | ⟨-, hr⟩
  · subst hr
    exact List.mem_append_left _ (List.mem_append_left _ (List.mem_of_find?_eq_some hd))
  · subst hr
    exact List.mem_append_left _ (List.mem_append_right _ (List.mem_of_find?_eq_some hd))
  · subst hr
    exact List.mem_append_right _ (dispatch_tasks_reachable m sub r hd)

theorem reachable_handlers : ∀ r ∈ reachableRoutes,
    Middleware.handler .batchDelete ∉ r.chain ∧ Middleware.handler .stats ∉ r.chain := by
  decide

theorem protect_responses_mem (verify : Option String → Except JwtError Decoded)
    (findById : Option String → Except String (Option User)) (req : Req) :
    ∀ r ∈ responses (protect verify findById req).2,
      r = noTokenResponse ∨ r = forbiddenResponse ∨ r = userNotFoundResponse := by
  intro r hr
  unfold protect at hr
  cases ha : req.authorization with
  | none =>
    simp only [ha, responses, List.mem_singleton] at hr
    exact Or.inl hr
  | some h =>
    simp only [ha] at hr
    by_cases hb : hasBearer (some h) = true
    · simp only [hb, if_true] at hr
      cases hv : verify (bearerToken h) with
      | error e =>
        simp only [hv, responses, List.mem_singleton] at hr
        exact Or.inr (Or.inl hr)
      | ok d =>
        simp only [hv] at hr
        cases hf : findById d.id with
        | error e =>
          simp only [hf, responses, List.mem_singleton] at hr
          exact Or.inr (Or.inl hr)
        | ok found =>
          simp only [hf] at hr
          cases found with
          | none =>
            simp only [Option.map_none', responses, List.mem_singleton] at hr
            exact Or.inr (Or.inr hr)
          | some u =>
            simp only [Option.map_some'] at hr
            by_cases ht : truthy (bearerToken h) = true
            · simp [ht, responses] at hr
            · simp only [ht, if_false, Bool.false_eq_true, responses,
                List.mem_singleton] at hr
              exact Or.inl hr
    · simp only [hb, if_false, Bool.false_eq_true, responses, List.mem_singleton] at hr
      exact Or.inl hr

theorem runHandler_hasSuccess (env : Env) (rx : String → String → String → Bool)
    (newId : String) (now : Nat) (h : Handler) (w : World) (req : Req)
    (hb : h ≠ .batchDelete) (hs : h ≠ .stats) :
    hasSuccess (runHandler env rx newId now h w req).response = true := by
  cases h with
  | register => exact register_hasSuccess env newId now w.users req
  | login => exact login_hasSuccess env now w.users req
  | logout => rfl
  | getProfile => exact getProfile_hasSuccess w.users req
  | updateProfile => exact updateProfile_hasSuccess w.users req
  | listTasks => exact listTasks_hasSuccess rx w.tasks req
  | getTask => exact getTask_hasSuccess rx w.tasks req
  | createTask => exact createTask_hasSuccess newId now w.tasks req
  | updateTask => exact updateTask_hasSuccess rx now w.tasks req
  | deleteTask => exact deleteTask_hasSuccess rx w.tasks req
  | batchDelete => exact absurd rfl hb
  | stats => exact absurd rfl hs

/-- What a chain without the two shadowed handlers answers: a response of the gateway,
or the result of a handler other than those two. -/
theorem serveChain_cases (env : Env) (rx : String → String → String → Bool)
    (newId : String) (now : Nat) (final : Handler) (chain : List Middleware)
    (hno : Middleware.handler .batchDelete ∉ chain ∧ Middleware.handler .stats ∉ chain)
    (w : World) (req : Req) (s : Served)
    (h : serveChain env rx newId now final chain w req = some s) :
    ((s.response = noTokenResponse ∨ s.response = forbiddenResponse ∨
        s.response = userNotFoundResponse) ∧ s.ops = []) ∨
    ∃ hd req1, hd ≠ .batchDelete ∧ hd ≠ .stats ∧ s = runHandler env rx newId now hd w req1 := by
  induction chain generalizing req with
  | nil => simp [serveChain] at h
  | cons mw rest ih =>
    have hrest : Middleware.handler .batchDelete ∉ rest ∧ Middleware.handler .stats ∉ rest :=
      ⟨fun hm => hno.1 (List.mem_cons_of_mem _ hm), fun hm => hno.2 (List.mem_cons_of_mem _ hm)⟩
    cases mw with
    | protect =>
      simp only [serveChain] at h
      cases hr : responses (protect (protectVerify env now) w.users.findById req).2 with
      | nil =>
        rw [hr] at h
        simp only [] at h
        split at h
        · cases h
        · exact ih hrest _ h
      | cons r tl =>
        rw [hr] at h
        simp only [Option.some.injEq] at h
        subst h
        have hmem : r ∈ responses (protect (protectVerify env now) w.users.findById req).2 := by
          rw [hr]
          exact List.mem_cons_self _ _
        exact Or.inl ⟨protect_responses_mem _ _ req r hmem, rfl⟩
    | validator field =>
      simp only [serveChain] at h
      exact ih hrest _ h
    | handler hd =>
      simp only [serveChain, Option.some.injEq] at h
      subst h
      refine Or.inr ⟨hd, req, ?_, ?_, rfl⟩
      · intro heq
        subst heq
        exact hno.1 (List.mem_cons_self _ _)
      · intro heq
        subst heq
        exact hno.2 (List.mem_cons_self _ _)

/-- What the application answers: a response of the gateway, or the result of a handler
other than the batch delete and the stats handler. -/
theorem serve_cases (env : Env) (rx : String → String → String → Bool) (newId : String)
    (now : Nat) (m : Method) (url : String) (w : World) (req : Req) (s : Served)
    (h : serve env rx newId now m url w req = some s) :
    ((s.response = noTokenResponse ∨ s.response = forbiddenResponse ∨
        s.response = userNotFoundResponse) ∧ s.ops = []) ∨
    ∃ hd req1, hd ≠ .batchDelete ∧ hd ≠ .stats ∧ s = runHandler env rx newId now hd w req1 := by
  unfold serve at h
  cases hd : appDispatch appMounts m url with
  | none => simp [hd] at h
  | some route =>
    rw [hd] at h
    simp only [] at h
    cases hf : finalHandler route.chain with
    | none => simp [hf] at h
    | some final =>
      rw [hf] at h
      simp only [] at h
      exact serveChain_cases env rx newId now final route.chain
        (reachable_handlers route (appDispatch_reachable m url route hd)) w _ s h

/-- C20: every response the application writes for a request to the auth, user and
tasks routers - by the gateway or by the handler the request is dispatched to, on success
and on every failure path - has a boolean field `success`. The batch-delete and stats
handlers, whose bodies have no such field, are registered behind `/:id` and answer no
request. -/
theorem served_responses_carry_success (env : Env) (rx : String → String → String → Bool)
    (newId : String) (now : Nat) (m : Method) (url : String) (w : World) (req : Req)
    (s : Served) (h : serve env rx newId now m url w req = some s) :
    hasSuccess s.response = true ∧
    ∃ b, s.response.field "success" = some (.bool b) := by
  have hs : hasSuccess s.response = true := by
    rcases serve_cases env rx newId now m url w req s h with ⟨hr, -⟩ | ⟨hd, req1, hb, hst, hr⟩
    · rcases hr with hr | hr | hr <;> rw [hr] <;> rfl
    · rw [hr]
      exact runHandler_hasSuccess env rx newId now hd w req1 hb hst
  refine ⟨hs, ?_⟩
  unfold hasSuccess at hs
  cases hf : s.response.field "success" with
  | none => simp [hf] at hs
  | some v =>
    cases v with
    | bool b => exact ⟨b, rfl⟩
    | num n => simp [hf] at hs
    | str x => simp [hf] at hs
    | task t => simp [hf] at hs
    | tasks ts => simp [hf] at hs
    | errors es => simp [hf] at hs
    | groups gs => simp [hf] at hs
    | obj fs => simp [hf] at hs

theorem served_responses_carry_success_witness :
    serve sampleEnv noMatch "t9" 3000 .DELETE "/api/tasks/batch" (sampleWorld [])
        (headerOnly none) =
      some { response := noTokenResponse, world := sampleWorld [], ops := [] } ∧
    hasSuccess noTokenResponse = true ∧
    (serve sampleEnv noMatch "t9" 3000 .GET "/api/tasks" (sampleWorld []) janeRequest).map
        (fun s => s.response) =
      some { status := 200,
             body := [("success", .bool true), ("count", .num 1),
                      ("data", .tasks [janeTask])] } ∧
    (serve sampleEnv noMatch "t9" 3000 .GET "/api/Tasks/" (sampleWorld []) janeRequest).map
        (fun s => hasSuccess s.response) = some true :=
  ⟨by decide,
   (served_responses_carry_success sampleEnv noMatch "t9" 3000 .DELETE "/api/tasks/batch"
      (sampleWorld []) (headerOnly none)
      { response := noTokenResponse, world := sampleWorld [], ops := [] } (by decide)).1,
   by decide, by decide⟩


/-! ## Failures of the stores, seen through the routers -/

theorem lookup_isSome_congr {α β γ : Type} [BEq α] (k : α) (l₁ : List (α × β))
    (l₂ : List (α × γ)) (h : l₁.map Prod.fst = l₂.map Prod.fst) :
    (l₁.lookup k).isSome = (l₂.lookup k).isSome := by
  induction l₁ generalizing l₂ with
  | nil =>
    cases l₂ with
    | nil => rfl
    | cons b l₂ => simp at h
  | cons a l₁ ih =>
    cases l₂ with
    | nil => simp at h
    | cons b l₂ =>
      obtain ⟨a1, a2⟩ := a
      obtain ⟨b1, b2⟩ := b
      simp only [List.map_cons, List.cons.injEq] at h
      obtain ⟨hk, hrest⟩ := h
      subst hk
      simp only [List.lookup]
      cases k == a1 with
      | true => rfl
      | false => exact ih l₂ hrest

/-- In two task stores in which the same operations reject, an operation rejects in
both or in none. -/
theorem taskFault_cases (s₁ s₂ : TaskStore)
    (hk : s₁.faults.map Prod.fst = s₂.faults.map Prod.fst) (k : OpKind) :
    (s₁.faultOf k = none ∧ s₂.faultOf k = none) ∨
    ∃ e₁ e₂, s₁.faultOf k = some e₁ ∧ s₂.faultOf k = some e₂ := by
  have h := lookup_isSome_congr k s₁.faults s₂.faults hk
  unfold TaskStore.faultOf
  cases h₁ : s₁.faults.lookup k with
  | none =>
    cases h₂ : s₂.faults.lookup k with
    | none => exact Or.inl ⟨rfl, rfl⟩
    | some e₂ => simp [h₁, h₂] at h
  | some e₁ =>
    cases h₂ : s₂.faults.lookup k with
    | none => simp [h₁, h₂] at h
    | some e₂ => exact Or.inr ⟨e₁, e₂, rfl, rfl⟩

/-- In two credential stores in which the same operations reject, an operation rejects
in both or in none. -/
theorem userFault_cases (s₁ s₂ : UserStore)
    (hk : s₁.faults.map Prod.fst = s₂.faults.map Prod.fst) (k : UserOp) :
    (s₁.faultOf k = none ∧ s₂.faultOf k = none) ∨
    ∃ e₁ e₂, s₁.faultOf k = some e₁ ∧ s₂.faultOf k = some e₂ := by
  have h := lookup_isSome_congr k s₁.faults s₂.faults hk
  unfold UserStore.faultOf
  cases h₁ : s₁.faults.lookup k with
  | none =>
    cases h₂ : s₂.faults.lookup k with
    | none => exact Or.inl ⟨rfl, rfl⟩
    | some e₂ => simp [h₁, h₂] at h
  | some e₁ =>
    cases h₂ : s₂.faults.lookup k with
    | none => simp [h₁, h₂] at h
    | some e₂ => exact Or.inr ⟨e₁, e₂, rfl, rfl⟩

theorem taskFind_rel (rx : String → String → String → Bool) (s₁ s₂ : TaskStore)
    (hd : s₁.docs = s₂.docs) (hk : s₁.faults.map Prod.fst = s₂.faults.map Prod.fst)
    (f : TaskFilter) (sort : List (String × Int)) (limit : Option Nat) :
    (∃ e₁ e₂, s₁.find rx f sort limit = .error e₁ ∧ s₂.find rx f sort limit = .error e₂) ∨
    ∃ x, s₁.find rx f sort limit = .ok x ∧ s₂.find rx f sort limit = .ok x := by
  unfold TaskStore.find
  rcases taskFault_cases s₁ s₂ hk .find with ⟨h₁, h₂⟩ | ⟨e₁, e₂, h₁, h₂⟩
  · rw [h₁, h₂, hd]
    simp only []
    by_cases hr : f.readable = true
    · simp only [hr, if_true]
      cases limit with
      | none => exact Or.inr ⟨_, rfl, rfl⟩
      | some n => exact Or.inr ⟨_, rfl, rfl⟩
    · simp only [hr, if_false, Bool.false_eq_true]
      exact Or.inl ⟨_, _, rfl, rfl⟩
  · rw [h₁, h₂]
    exact Or.inl ⟨e₁, e₂, rfl, rfl⟩

theorem taskFindOne_rel (rx : String → String → String → Bool) (s₁ s₂ : TaskStore)
    (hd : s₁.docs = s₂.docs) (hk : s₁.faults.map Prod.fst = s₂.faults.map Prod.fst)
    (f : TaskFilter) :
    (∃ e₁ e₂, s₁.findOne rx f = .error e₁ ∧ s₂.findOne rx f = .error e₂) ∨
    ∃ x, s₁.findOne rx f = .ok x ∧ s₂.findOne rx f = .ok x := by
  unfold TaskStore.findOne
  rcases taskFault_cases s₁ s₂ hk .findOne with ⟨h₁, h₂⟩ | ⟨e₁, e₂, h₁, h₂⟩
  · rw [h₁, h₂, hd]
    exact Or.inr ⟨_, rfl, rfl⟩
  · rw [h₁, h₂]
    exact Or.inl ⟨e₁, e₂, rfl, rfl⟩

theorem taskCreate_rel (s₁ s₂ : TaskStore)
    (hk : s₁.faults.map Prod.fst = s₂.faults.map Prod.fst) (newId : String) (now : Nat)
    (r : NewTask) :
    (∃ e₁ e₂, s₁.create newId now r = .error e₁ ∧ s₂.create newId now r = .error e₂) ∨
    ∃ t st₁ st₂, s₁.create newId now r = .ok (t, st₁) ∧
      s₂.create newId now r = .ok (t, st₂) := by
  unfold TaskStore.create
  rcases taskFault_cases s₁ s₂ hk .create with ⟨h₁, h₂⟩ | ⟨e₁, e₂, h₁, h₂⟩
  · rw [h₁, h₂]
    simp only []
    cases r.title with
    | none => exact Or.inl ⟨_, _, rfl, rfl⟩
    | some title =>
      cases r.userId with
      | none => exact Or.inl ⟨_, _, rfl, rfl⟩
      | some owner => exact Or.inr ⟨_, _, _, rfl, rfl⟩
  · rw [h₁, h₂]
    exact Or.inl ⟨e₁, e₂, rfl, rfl⟩

theorem taskSave_rel (s₁ s₂ : TaskStore)
    (hk : s₁.faults.map Prod.fst = s₂.faults.map Prod.fst) (now : Nat) (t : Task) :
    (∃ e₁ e₂, s₁.save now t = .error e₁ ∧ s₂.save now t = .error e₂) ∨
    ∃ x st₁ st₂, s₁.save now t = .ok (x, st₁) ∧ s₂.save now t = .ok (x, st₂) := by
  unfold TaskStore.save
  rcases taskFault_cases s₁ s₂ hk .save with ⟨h₁, h₂⟩ | ⟨e₁, e₂, h₁, h₂⟩
  · rw [h₁, h₂]
    exact Or.inr ⟨_, _, _, rfl, rfl⟩
  · rw [h₁, h₂]
    exact Or.inl ⟨e₁, e₂, rfl, rfl⟩

theorem taskDeleteOne_rel (rx : String → String → String → Bool) (s₁ s₂ : TaskStore)
    (hk : s₁.faults.map Prod.fst = s₂.faults.map Prod.fst) (f : TaskFilter) :
    (∃ e₁ e₂, s₁.deleteOne rx f = .error e₁ ∧ s₂.deleteOne rx f = .error e₂) ∨
    ∃ st₁ st₂, s₁.deleteOne rx f = .ok st₁ ∧ s₂.deleteOne rx f = .ok st₂ := by
  unfold TaskStore.deleteOne
  rcases taskFault_cases s₁ s₂ hk .deleteOne with ⟨h₁, h₂⟩ | ⟨e₁, e₂, h₁, h₂⟩
  · rw [h₁, h₂]
    simp only []
    cases s₁.docs.find? (f.holds rx) <;> cases s₂.docs.find? (f.holds rx) <;>
      exact Or.inr ⟨_, _, rfl, rfl⟩
  · rw [h₁, h₂]
    exact Or.inl ⟨e₁, e₂, rfl, rfl⟩

theorem listTasks_rel (rx : String → String → String → Bool) (s₁ s₂ : TaskStore)
    (hd : s₁.docs = s₂.docs) (hk : s₁.faults.map Prod.fst = s₂.faults.map Prod.fst)
    (req : Req) : (listTasks rx s₁ req).response = (listTasks rx s₂ req).response := by
  unfold listTasks
  cases listQuery req with
  | none => rfl
  | some p =>
    obtain ⟨q, so⟩ := p
    simp only []
    rcases taskFind_rel rx s₁ s₂ hd hk q so none with ⟨e₁, e₂, h₁, h₂⟩ | ⟨x, h₁, h₂⟩ <;>
      rw [h₁, h₂]

theorem getTask_rel (rx : String → String → String → Bool) (s₁ s₂ : TaskStore)
    (hd : s₁.docs = s₂.docs) (hk : s₁.faults.map Prod.fst = s₂.faults.map Prod.fst)
    (req : Req) : (getTask rx s₁ req).response = (getTask rx s₂ req).response := by
  unfold getTask
  cases req.user with
  | none => rfl
  | some u =>
    simp only []
    rcases taskFindOne_rel rx s₁ s₂ hd hk (ownedTaskFilter req.paramsId u) with
      ⟨e₁, e₂, h₁, h₂⟩ | ⟨x, h₁, h₂⟩
    · rw [h₁, h₂]
    · rw [h₁, h₂]
      cases x <;> rfl

theorem createTask_rel (newId : String) (now : Nat) (s₁ s₂ : TaskStore)
    (hk : s₁.faults.map Prod.fst = s₂.faults.map Prod.fst) (req : Req) :
    (createTask newId now s₁ req).response = (createTask newId now s₂ req).response := by
  unfold createTask
  by_cases hv : req.validationErrors = []
  · simp only [hv, ne_eq, not_true_eq_false, if_false]
    cases req.user with
    | none => rfl
    | some u =>
      simp only []
      rcases taskCreate_rel s₁ s₂ hk newId now (createRecord req u) with
        ⟨e₁, e₂, h₁, h₂⟩ | ⟨t, st₁, st₂, h₁, h₂⟩ <;> rw [h₁, h₂]
  · simp only [hv, ne_eq, not_false_eq_true, if_true]

theorem updateTask_rel (rx : String → String → String → Bool) (now : Nat)
    (s₁ s₂ : TaskStore) (hd : s₁.docs = s₂.docs)
    (hk : s₁.faults.map Prod.fst = s₂.faults.map Prod.fst) (req : Req) :
    (updateTask rx now s₁ req).response = (updateTask rx now s₂ req).response := by
  unfold updateTask
  by_cases hv : req.validationErrors = []
  · simp only [hv, ne_eq, not_true_eq_false, if_false]
    cases req.user with
    | none => rfl
    | some u =>
      simp only []
      rcases taskFindOne_rel rx s₁ s₂ hd hk (ownedTaskFilter req.paramsId u) with
        ⟨e₁, e₂, h₁, h₂⟩ | ⟨x, h₁, h₂⟩
      · rw [h₁, h₂]
      · rw [h₁, h₂]
        cases x with
        | none => rfl
        | some found =>
          simp only []
          rcases taskSave_rel s₁ s₂ hk now (applyUpdate req found) with
            ⟨e₁, e₂, h₃, h₄⟩ | ⟨t, st₁, st₂, h₃, h₄⟩ <;> rw [h₃, h₄]
  · simp only [hv, ne_eq, not_false_eq_true, if_true]

theorem deleteTask_rel (rx : String → String → String → Bool) (s₁ s₂ : TaskStore)
    (hd : s₁.docs = s₂.docs) (hk : s₁.faults.map Prod.fst = s₂.faults.map Prod.fst)
    (req : Req) : (deleteTask rx s₁ req).response = (deleteTask rx s₂ req).response := by
  unfold deleteTask
  cases req.user with
  | none => rfl
  | some u =>
    simp only []
    rcases taskFindOne_rel rx s₁ s₂ hd hk (ownedTaskFilter req.paramsId u) with
      ⟨e₁, e₂, h₁, h₂⟩ | ⟨x, h₁, h₂⟩
    · rw [h₁, h₂]
    · rw [h₁, h₂]
      cases x with
      | none => rfl
      | some found =>
        simp only []
        rcases taskDeleteOne_rel rx s₁ s₂ hk
            { _id := .eq req.paramsId, userId := .any, status := none, priority := none,
              or := none } with
          ⟨e₁, e₂, h₃, h₄⟩ | ⟨st₁, st₂, h₃, h₄⟩ <;> rw [h₃, h₄]


theorem userFindOneByEmail_rel (s₁ s₂ : UserStore) (hd : s₁.docs = s₂.docs)
    (hk : s₁.faults.map Prod.fst = s₂.faults.map Prod.fst) (email : Option String)
    (withPassword : Bool) :
    (∃ e₁ e₂, s₁.findOneByEmail email withPassword = .error e₁ ∧
      s₂.findOneByEmail email withPassword = .error e₂) ∨
    ∃ x, s₁.findOneByEmail email withPassword = .ok x ∧
      s₂.findOneByEmail email withPassword = .ok x := by
  unfold UserStore.findOneByEmail
  rcases userFault_cases s₁ s₂ hk .findOne with ⟨h₁, h₂⟩ | ⟨e₁, e₂, h₁, h₂⟩
  · rw [h₁, h₂, hd]
    simp only []
    cases email with
    | none => exact Or.inr ⟨_, rfl, rfl⟩
    | some e => exact Or.inr ⟨_, rfl, rfl⟩
  · rw [h₁, h₂]
    exact Or.inl ⟨e₁, e₂, rfl, rfl⟩

theorem userFindOneOther_rel (s₁ s₂ : UserStore) (hd : s₁.docs = s₂.docs)
    (hk : s₁.faults.map Prod.fst = s₂.faults.map Prod.fst) (email : Option String)
    (id : String) :
    (∃ e₁ e₂, s₁.findOneOther email id = .error e₁ ∧ s₂.findOneOther email id = .error e₂) ∨
    ∃ x, s₁.findOneOther email id = .ok x ∧ s₂.findOneOther email id = .ok x := by
  unfold UserStore.findOneOther
  rcases userFault_cases s₁ s₂ hk .findOne with ⟨h₁, h₂⟩ | ⟨e₁, e₂, h₁, h₂⟩
  · rw [h₁, h₂, hd]
    simp only []
    cases email with
    | none => exact Or.inr ⟨_, rfl, rfl⟩
    | some e => exact Or.inr ⟨_, rfl, rfl⟩
  · rw [h₁, h₂]
    exact Or.inl ⟨e₁, e₂, rfl, rfl⟩

theorem userFindById_rel (s₁ s₂ : UserStore) (hd : s₁.docs = s₂.docs)
    (hk : s₁.faults.map Prod.fst = s₂.faults.map Prod.fst) (id : Option String) :
    (∃ e₁ e₂, s₁.findById id = .error e₁ ∧ s₂.findById id = .error e₂) ∨
    ∃ x, s₁.findById id = .ok x ∧ s₂.findById id = .ok x := by
  unfold UserStore.findById
  rcases userFault_cases s₁ s₂ hk .findById with ⟨h₁, h₂⟩ | ⟨e₁, e₂, h₁, h₂⟩
  · rw [h₁, h₂, hd]
    simp only []
    cases id with
    | none => exact Or.inr ⟨_, rfl, rfl⟩
    | some i => exact Or.inr ⟨_, rfl, rfl⟩
  · rw [h₁, h₂]
    exact Or.inl ⟨e₁, e₂, rfl, rfl⟩

theorem userCreate_rel (s₁ s₂ : UserStore) (hd : s₁.docs = s₂.docs)
    (hk : s₁.faults.map Prod.fst = s₂.faults.map Prod.fst) (hash : String → String)
    (newId : String) (now : Nat) (r : NewUser) :
    (∃ e₁ e₂, s₁.create hash newId now r = .error e₁ ∧
      s₂.create hash newId now r = .error e₂) ∨
    ∃ u st₁ st₂, s₁.create hash newId now r = .ok (u, st₁) ∧
      s₂.create hash newId now r = .ok (u, st₂) := by
  unfold UserStore.create
  rcases userFault_cases s₁ s₂ hk .create with ⟨h₁, h₂⟩ | ⟨e₁, e₂, h₁, h₂⟩
  · rw [h₁, h₂, hd]
    simp only []
    cases r.name with
    | none => exact Or.inl ⟨_, _, rfl, rfl⟩
    | some name =>
      cases r.email with
      | none => exact Or.inl ⟨_, _, rfl, rfl⟩
      | some email =>
        cases r.password with
        | none => exact Or.inl ⟨_, _, rfl, rfl⟩
        | some password =>
          simp only []
          split
          · exact Or.inl ⟨_, _, rfl, rfl⟩
          · exact Or.inr ⟨_, _, _, rfl, rfl⟩
  · rw [h₁, h₂]
    exact Or.inl ⟨e₁, e₂, rfl, rfl⟩

theorem userFindByIdAndUpdate_rel (s₁ s₂ : UserStore) (hd : s₁.docs = s₂.docs)
    (hk : s₁.faults.map Prod.fst = s₂.faults.map Prod.fst) (id : String)
    (f : UpdateFields) :
    (∃ e₁ e₂, s₁.findByIdAndUpdate id f = .error e₁ ∧
      s₂.findByIdAndUpdate id f = .error e₂) ∨
    ∃ x st₁ st₂, s₁.findByIdAndUpdate id f = .ok (x, st₁) ∧
      s₂.findByIdAndUpdate id f = .ok (x, st₂) := by
  unfold UserStore.findByIdAndUpdate
  rcases userFault_cases s₁ s₂ hk .findByIdAndUpdate with ⟨h₁, h₂⟩ | ⟨e₁, e₂, h₁, h₂⟩
  · rw [h₁, h₂, hd]
    simp only []
    cases s₂.docs.find? (fun u => decide (u._id = id)) with
    | none => exact Or.inr ⟨_, _, _, rfl, rfl⟩
    | some u =>
      simp only []
      split
      · exact Or.inl ⟨_, _, rfl, rfl⟩
      · exact Or.inr ⟨_, _, _, rfl, rfl⟩
  · rw [h₁, h₂]
    exact Or.inl ⟨e₁, e₂, rfl, rfl⟩

theorem register_rel (env : Env) (newId : String) (now : Nat) (s₁ s₂ : UserStore)
    (hd : s₁.docs = s₂.docs) (hk : s₁.faults.map Prod.fst = s₂.faults.map Prod.fst)
    (req : Req) :
    (register env newId now s₁ req).response = (register env newId now s₂ req).response := by
  unfold register
  by_cases hv : req.validationErrors = []
  · simp only [hv, ne_eq, not_true_eq_false, if_false]
    rcases userFindOneByEmail_rel s₁ s₂ hd hk (req.body "email") false with
      ⟨e₁, e₂, h₁, h₂⟩ | ⟨x, h₁, h₂⟩
    · rw [h₁, h₂]
    · rw [h₁, h₂]
      cases x with
      | some u => rfl
      | none =>
        simp only []
        rcases userCreate_rel s₁ s₂ hd hk env.hash newId now
            { name := req.body "name", email := req.body "email",
              password := req.body "password" } with
          ⟨e₁, e₂, h₃, h₄⟩ | ⟨u, st₁, st₂, h₃, h₄⟩
        · rw [h₃, h₄]
        · rw [h₃, h₄]
          simp only [generateToken_eq]
  · simp only [hv, ne_eq, not_false_eq_true, if_true]

theorem login_rel (env : Env) (now : Nat) (s₁ s₂ : UserStore) (hd : s₁.docs = s₂.docs)
    (hk : s₁.faults.map Prod.fst = s₂.faults.map Prod.fst) (req : Req) :
    (login env now s₁ req).response = (login env now s₂ req).response := by
  unfold login
  by_cases hv : req.validationErrors = []
  · simp only [hv, ne_eq, not_true_eq_false, if_false]
    rcases userFindOneByEmail_rel s₁ s₂ hd hk (req.body "email") true with
      ⟨e₁, e₂, h₁, h₂⟩ | ⟨x, h₁, h₂⟩
    · rw [h₁, h₂]
    · rw [h₁, h₂]
      cases x with
      | none => rfl
      | some user =>
        simp only []
        cases user.password with
        | none => rfl
        | some hashed =>
          simp only [generateToken_eq]
          split <;> rfl
  · simp only [hv, ne_eq, not_false_eq_true, if_true]

theorem getProfile_rel (s₁ s₂ : UserStore) (hd : s₁.docs = s₂.docs)
    (hk : s₁.faults.map Prod.fst = s₂.faults.map Prod.fst) (req : Req) :
    (getProfile s₁ req).response = (getProfile s₂ req).response := by
  unfold getProfile
  cases req.user with
  | none => rfl
  | some caller =>
    simp only []
    rcases userFindById_rel s₁ s₂ hd hk (some caller.id) with
      ⟨e₁, e₂, h₁, h₂⟩ | ⟨x, h₁, h₂⟩
    · rw [h₁, h₂]
    · rw [h₁, h₂]
      cases x <;> rfl

theorem updateProfile_finish_rel (s₁ s₂ : UserStore) (hd : s₁.docs = s₂.docs)
    (hk : s₁.faults.map Prod.fst = s₂.faults.map Prod.fst) (id : String) (f : UpdateFields)
    (before : List AuthCall) :
    (match s₁.findByIdAndUpdate id f with
      | Except.error _ =>
        ({ response := failure 500 "Server error updating profile", store := s₁,
           calls := before ++ [AuthCall.findByIdAndUpdate id f] } : AuthResult)
      | Except.ok (none, store1) =>
        { response := failure 404 "User not found", store := store1,
          calls := before ++ [AuthCall.findByIdAndUpdate id f] }
      | Except.ok (some user, store1) =>
        { response :=
            { status := 200,
              body := [("success", .bool true),
                       ("message", .str "Profile updated successfully"),
                       ("data", .obj [("id", .str user._id), ("name", .str user.name),
                                      ("email", .str user.email)])] },
          store := store1,
          calls := before ++ [AuthCall.findByIdAndUpdate id f] }).response =
    (match s₂.findByIdAndUpdate id f with
      | Except.error _ =>
        ({ response := failure 500 "Server error updating profile", store := s₂,
           calls := before ++ [AuthCall.findByIdAndUpdate id f] } : AuthResult)
      | Except.ok (none, store1) =>
        { response := failure 404 "User not found", store := store1,
          calls := before ++ [AuthCall.findByIdAndUpdate id f] }
      | Except.ok (some user, store1) =>
        { response :=
            { status := 200,
              body := [("success", .bool true),
                       ("message", .str "Profile updated successfully"),
                       ("data", .obj [("id", .str user._id), ("name", .str user.name),
                                      ("email", .str user.email)])] },
          store := store1,
          calls := before ++ [AuthCall.findByIdAndUpdate id f] }).response := by
  rcases userFindByIdAndUpdate_rel s₁ s₂ hd hk id f with
    ⟨e₁, e₂, h₁, h₂⟩ | ⟨x, st₁, st₂, h₁, h₂⟩
  · rw [h₁, h₂]
  · rw [h₁, h₂]
    cases x <;> rfl

theorem updateProfile_rel (s₁ s₂ : UserStore) (hd : s₁.docs = s₂.docs)
    (hk : s₁.faults.map Prod.fst = s₂.faults.map Prod.fst) (req : Req) :
    (updateProfile s₁ req).response = (updateProfile s₂ req).response := by
  unfold updateProfile
  by_cases hv : req.validationErrors = []
  · simp only [hv, ne_eq, not_true_eq_false, if_false]
    cases req.user with
    | none => rfl
    | some caller =>
      simp only []
      by_cases he : truthy (req.body "email") = true
      · simp only [he, if_true]
        rcases userFindOneOther_rel s₁ s₂ hd hk (req.body "email") caller.id with
          ⟨e₁, e₂, h₁, h₂⟩ | ⟨x, h₁, h₂⟩
        · rw [h₁, h₂]
        · rw [h₁, h₂]
          cases x with
          | some u => rfl
          | none => exact updateProfile_finish_rel s₁ s₂ hd hk caller.id _ _
      · simp only [he, if_false, Bool.false_eq_true]
        exact updateProfile_finish_rel s₁ s₂ hd hk caller.id _ _
  · simp only [hv, ne_eq, not_false_eq_true, if_true]

/-- The gateway leaves the same request and the same effects on two credential stores
that hold the same records and in which the same operations reject. -/
theorem protect_rel (verify : Option String → Except JwtError Decoded) (s₁ s₂ : UserStore)
    (hd : s₁.docs = s₂.docs) (hk : s₁.faults.map Prod.fst = s₂.faults.map Prod.fst)
    (req : Req) : protect verify s₁.findById req = protect verify s₂.findById req := by
  unfold protect
  cases req.authorization with
  | none => rfl
  | some h =>
    simp only []
    split
    · cases verify (bearerToken h) with
      | error e => rfl
      | ok d =>
        simp only []
        rcases userFindById_rel s₁ s₂ hd hk d.id with ⟨e₁, e₂, h₁, h₂⟩ | ⟨x, h₁, h₂⟩
        · rw [h₁, h₂]
        · rw [h₁, h₂]
    · rfl

/-- A handler other than the batch delete and the stats handler answers alike on two
states of the stores that hold the same records and in which the same operations
reject. -/
theorem runHandler_rel (env : Env) (rx : String → String → String → Bool) (newId : String)
    (now : Nat) (h : Handler) (w₁ w₂ : World) (hw : sameButErrors w₁ w₂) (req : Req)
    (hb : h ≠ .batchDelete) (hs : h ≠ .stats) :
    (runHandler env rx newId now h w₁ req).response =
      (runHandler env rx newId now h w₂ req).response := by
  obtain ⟨hud, htd, huk, htk⟩ := hw
  cases h with
  | register => exact register_rel env newId now _ _ hud huk req
  | login => exact login_rel env now _ _ hud huk req
  | logout => rfl
  | getProfile => exact getProfile_rel _ _ hud huk req
  | updateProfile => exact updateProfile_rel _ _ hud huk req
  | listTasks => exact listTasks_rel rx _ _ htd htk req
  | getTask => exact getTask_rel rx _ _ htd htk req
  | createTask => exact createTask_rel newId now _ _ htk req
  | updateTask => exact updateTask_rel rx now _ _ htd htk req
  | deleteTask => exact deleteTask_rel rx _ _ htd htk req
  | batchDelete => exact absurd rfl hb
  | stats => exact absurd rfl hs

theorem serveChain_rel (env : Env) (rx : String → String → String → Bool)
    (newId : String) (now : Nat) (final : Handler) (chain : List Middleware)
    (hno : Middleware.handler .batchDelete ∉ chain ∧ Middleware.handler .stats ∉ chain)
    (w₁ w₂ : World) (hw : sameButErrors w₁ w₂) (req : Req) :
    (serveChain env rx newId now final chain w₁ req).map (fun s => s.response) =
      (serveChain env rx newId now final chain w₂ req).map (fun s => s.response) := by
  induction chain generalizing req with
  | nil => rfl
  | cons mw rest ih =>
    have hrest : Middleware.handler .batchDelete ∉ rest ∧ Middleware.handler .stats ∉ rest :=
      ⟨fun hm => hno.1 (List.mem_cons_of_mem _ hm), fun hm => hno.2 (List.mem_cons_of_mem _ hm)⟩
    cases mw with
    | protect =>
      simp only [serveChain]
      rw [protect_rel (protectVerify env now) w₁.users w₂.users hw.1 hw.2.2.1 req]
      cases responses (protect (protectVerify env now) w₂.users.findById req).2 with
      | nil =>
        simp only []
        split
        · rfl
        · exact ih hrest _
      | cons r tl => rfl
    | validator field =>
      simp only [serveChain]
      exact ih hrest _
    | handler hd =>
      simp only [serveChain, Option.map_some']
      congr 1
      refine runHandler_rel env rx newId now hd w₁ w₂ hw req ?_ ?_
      · intro heq
        subst heq
        exact hno.1 (List.mem_cons_self _ _)
      · intro heq
        subst heq
        exact hno.2 (List.mem_cons_self _ _)

/-- The application answers alike on two states of the stores that hold the same
records and in which the same operations reject, whatever the errors are. -/
theorem serve_rel (env : Env) (rx : String → String → String → Bool) (newId : String)
    (now : Nat) (m : Method) (url : String) (w₁ w₂ : World) (hw : sameButErrors w₁ w₂)
    (req : Req) :
    (serve env rx newId now m url w₁ req).map (fun s => s.response) =
      (serve env rx newId now m url w₂ req).map (fun s => s.response) := by
  unfold serve
  cases hd : appDispatch appMounts m url with
  | none => rfl
  | some route =>
    simp only []
    cases hf : finalHandler route.chain with
    | none => rfl
    | some final =>
      simp only []
      exact serveChain_rel env rx newId now final route.chain
        (reachable_handlers route (appDispatch_reachable m url route hd)) w₁ w₂ hw _


theorem taskFind_of_fault (rx : String → String → String → Bool) (s : TaskStore)
    (f : TaskFilter) (sort : List (String × Int)) (limit : Option Nat) (e : String)
    (h : s.faultOf .find = some e) : s.find rx f sort limit = .error e := by
  simp only [TaskStore.find, h]

theorem taskFindOne_of_fault (rx : String → String → String → Bool) (s : TaskStore)
    (f : TaskFilter) (e : String) (h : s.faultOf .findOne = some e) :
    s.findOne rx f = .error e := by
  simp only [TaskStore.findOne, h]

theorem taskCreate_of_fault (s : TaskStore) (newId : String) (now : Nat) (r : NewTask)
    (e : String) (h : s.faultOf .create = some e) : s.create newId now r = .error e := by
  simp only [TaskStore.create, h]

theorem taskSave_of_fault (s : TaskStore) (now : Nat) (t : Task) (e : String)
    (h : s.faultOf .save = some e) : s.save now t = .error e := by
  simp only [TaskStore.save, h]

theorem taskDeleteOne_of_fault (rx : String → String → String → Bool) (s : TaskStore)
    (f : TaskFilter) (e : String) (h : s.faultOf .deleteOne = some e) :
    s.deleteOne rx f = .error e := by
  simp only [TaskStore.deleteOne, h]

theorem userFindOneByEmail_of_fault (s : UserStore) (email : Option String)
    (withPassword : Bool) (e : String) (h : s.faultOf .findOne = some e) :
    s.findOneByEmail email withPassword = .error e := by
  simp only [UserStore.findOneByEmail, h]

theorem userFindOneOther_of_fault (s : UserStore) (email : Option String) (id : String)
    (e : String) (h : s.faultOf .findOne = some e) : s.findOneOther email id = .error e := by
  simp only [UserStore.findOneOther, h]

theorem userFindById_of_fault (s : UserStore) (id : Option String) (e : String)
    (h : s.faultOf .findById = some e) : s.findById id = .error e := by
  simp only [UserStore.findById, h]

theorem userCreate_of_fault (s : UserStore) (hash : String → String) (newId : String)
    (now : Nat) (r : NewUser) (e : String) (h : s.faultOf .create = some e) :
    s.create hash newId now r = .error e := by
  simp only [UserStore.create, h]

theorem userFindByIdAndUpdate_of_fault (s : UserStore) (id : String) (f : UpdateFields)
    (e : String) (h : s.faultOf .findByIdAndUpdate = some e) :
    s.findByIdAndUpdate id f = .error e := by
  simp only [UserStore.findByIdAndUpdate, h]

theorem listTasks_fault (rx : String → String → String → Bool) (store : TaskStore)
    (req : Req) (c : StoreCall) (hc : c ∈ (listTasks rx store req).calls)
    (hf : (store.faultOf c.kind).isSome = true) :
    (listTasks rx store req).response = failure 500 "Server error fetching tasks" := by
  obtain ⟨e, he⟩ := Option.isSome_iff_exists.mp hf
  unfold listTasks at hc ⊢
  cases hq : listQuery req with
  | none => rfl
  | some p =>
    obtain ⟨q, so⟩ := p
    rw [hq] at hc
    simp only [] at hc ⊢
    cases h1 : store.find rx q so none with
    | error e1 => rfl
    | ok ts =>
      rw [h1] at hc
      simp only [List.mem_singleton] at hc
      subst hc
      rw [taskFind_of_fault rx store _ _ _ e he] at h1
      cases h1

theorem getTask_fault (rx : String → String → String → Bool) (store : TaskStore)
    (req : Req) (c : StoreCall) (hc : c ∈ (getTask rx store req).calls)
    (hf : (store.faultOf c.kind).isSome = true) :
    (getTask rx store req).response = failure 500 "Server error fetching task" := by
  obtain ⟨e, he⟩ := Option.isSome_iff_exists.mp hf
  unfold getTask at hc ⊢
  cases hu : req.user with
  | none => rfl
  | some u =>
    rw [hu] at hc
    simp only [] at hc ⊢
    cases h1 : store.findOne rx (ownedTaskFilter req.paramsId u) with
    | error e1 => rfl
    | ok o =>
      rw [h1] at hc
      have hcc : c = .findOne (ownedTaskFilter req.paramsId u) := by
        cases o <;> simpa using hc
      subst hcc
      rw [taskFindOne_of_fault rx store _ e he] at h1
      cases h1

theorem createTask_fault (newId : String) (now : Nat) (store : TaskStore) (req : Req)
    (c : StoreCall) (hc : c ∈ (createTask newId now store req).calls)
    (hf : (store.faultOf c.kind).isSome = true) :
    (createTask newId now store req).response = failure 500 "Server error creating task" := by
  obtain ⟨e, he⟩ := Option.isSome_iff_exists.mp hf
  unfold createTask at hc ⊢
  by_cases hv : req.validationErrors = []
  · simp only [hv, ne_eq, not_true_eq_false, if_false] at hc ⊢
    cases hu : req.user with
    | none => rfl
    | some u =>
      rw [hu] at hc
      simp only [] at hc ⊢
      cases h1 : store.create newId now (createRecord req u) with
      | error e1 => rfl
      | ok p =>
        rw [h1] at hc
        simp only [List.mem_singleton] at hc
        subst hc
        rw [taskCreate_of_fault store _ _ _ e he] at h1
        cases h1
  · simp only [hv, ne_eq, not_false_eq_true, if_true] at hc
    simp at hc

theorem updateTask_fault (rx : String → String → String → Bool) (now : Nat)
    (store : TaskStore) (req : Req) (c : StoreCall)
    (hc : c ∈ (updateTask rx now store req).calls)
    (hf : (store.faultOf c.kind).isSome = true) :
    (updateTask rx now store req).response = failure 500 "Server error updating task" := by
  obtain ⟨e, he⟩ := Option.isSome_iff_exists.mp hf
  unfold updateTask at hc ⊢
  by_cases hv : req.validationErrors = []
  · simp only [hv, ne_eq, not_true_eq_false, if_false] at hc ⊢
    cases hu : req.user with
    | none => rfl
    | some u =>
      rw [hu] at hc
      simp only [] at hc ⊢
      cases h1 : store.findOne rx (ownedTaskFilter req.paramsId u) with
      | error e1 => rfl
      | ok o =>
        rw [h1] at hc
        cases o with
        | none =>
          simp only [List.mem_singleton] at hc
          subst hc
          rw [taskFindOne_of_fault rx store _ e he] at h1
          cases h1
        | some found =>
          simp only [] at hc ⊢
          cases h2 : store.save now (applyUpdate req found) with
          | error e2 => rfl
          | ok p =>
            rw [h2] at hc
            simp only [List.mem_cons, List.mem_singleton, List.not_mem_nil, or_false] at hc
            rcases hc with hc | hc
            · subst hc
              rw [taskFindOne_of_fault rx store _ e he] at h1
              cases h1
            · subst hc
              rw [taskSave_of_fault store _ _ e he] at h2
              cases h2
  · simp only [hv, ne_eq, not_false_eq_true, if_true] at hc
    simp at hc

theorem deleteTask_fault (rx : String → String → String → Bool) (store : TaskStore)
    (req : Req) (c : StoreCall) (hc : c ∈ (deleteTask rx store req).calls)
    (hf : (store.faultOf c.kind).isSome = true) :
    (deleteTask rx store req).response = failure 500 "Server error deleting task" := by
  obtain ⟨e, he⟩ := Option.isSome_iff_exists.mp hf
  unfold deleteTask at hc ⊢
  cases hu : req.user with
  | none => rfl
  | some u =>
    rw [hu] at hc
    simp only [] at hc ⊢
    cases h1 : store.findOne rx (ownedTaskFilter req.paramsId u) with
    | error e1 => rfl
    | ok o =>
      rw [h1] at hc
      cases o with
      | none =>
        simp only [List.mem_singleton] at hc
        subst hc
        rw [taskFindOne_of_fault rx store _ e he] at h1
        cases h1
      | some found =>
        simp only [] at hc ⊢
        cases h2 : store.deleteOne rx
            { _id := .eq req.paramsId, userId := .any, status := none, priority := none,
              or := none } with
        | error e2 => rfl
        | ok p =>
          rw [h2] at hc
          simp only [List.mem_cons, List.mem_singleton, List.not_mem_nil, or_false] at hc
          rcases hc with hc | hc
          · subst hc
            rw [taskFindOne_of_fault rx store _ e he] at h1
            cases h1
          · subst hc
            rw [taskDeleteOne_of_fault rx store _ e he] at h2
            cases h2


theorem register_fault (env : Env) (newId : String) (now : Nat) (store : UserStore)
    (req : Req) (c : AuthCall) (k : UserOp)
    (hc : c ∈ (register env newId now store req).calls) (hk : c.kind = some k)
    (hf : (store.faultOf k).isSome = true) :
    (register env newId now store req).response =
      failure 500 "Server error during registration" := by
  obtain ⟨e, he⟩ := Option.isSome_iff_exists.mp hf
  unfold register at hc ⊢
  by_cases hv : req.validationErrors = []
  · simp only [hv, ne_eq, not_true_eq_false, if_false] at hc ⊢
    cases h1 : store.findOneByEmail (req.body "email") false with
    | error e1 => rfl
    | ok o =>
      rw [h1] at hc
      cases o with
      | some u =>
        simp only [List.mem_singleton] at hc
        subst hc
        simp only [AuthCall.kind, Option.some.injEq] at hk
        subst hk
        rw [userFindOneByEmail_of_fault store _ _ e he] at h1
        cases h1
      | none =>
        simp only [] at hc ⊢
        cases h2 : store.create env.hash newId now
            { name := req.body "name", email := req.body "email",
              password := req.body "password" } with
        | error e2 => rfl
        | ok p =>
          obtain ⟨user, store1⟩ := p
          rw [h2] at hc
          simp only [generateToken_eq, List.mem_cons, List.mem_singleton, List.not_mem_nil,
            or_false] at hc
          rcases hc with hc | hc | hc
          · subst hc
            simp only [AuthCall.kind, Option.some.injEq] at hk
            subst hk
            rw [userFindOneByEmail_of_fault store _ _ e he] at h1
            cases h1
          · subst hc
            simp only [AuthCall.kind, Option.some.injEq] at hk
            subst hk
            rw [userCreate_of_fault store _ _ _ _ e he] at h2
            cases h2
          · subst hc
            simp [AuthCall.kind] at hk
  · simp only [hv, ne_eq, not_false_eq_true, if_true] at hc
    simp at hc

theorem login_fault (env : Env) (now : Nat) (store : UserStore) (req : Req) (c : AuthCall)
    (k : UserOp) (hc : c ∈ (login env now store req).calls) (hk : c.kind = some k)
    (hf : (store.faultOf k).isSome = true) :
    (login env now store req).response = failure 500 "Server error during login" := by
  obtain ⟨e, he⟩ := Option.isSome_iff_exists.mp hf
  unfold login at hc ⊢
  by_cases hv : req.validationErrors = []
  · simp only [hv, ne_eq, not_true_eq_false, if_false] at hc ⊢
    cases h1 : store.findOneByEmail (req.body "email") true with
    | error e1 => rfl
    | ok o =>
      rw [h1] at hc
      have hfirst : ∀ c1 : AuthCall, c1 = .findOneByEmail (req.body "email") true →
          c1.kind = some k → False := by
        intro c1 hc1 hk1
        subst hc1
        simp only [AuthCall.kind, Option.some.injEq] at hk1
        subst hk1
        rw [userFindOneByEmail_of_fault store _ _ e he] at h1
        cases h1
      cases o with
      | none =>
        simp only [List.mem_singleton] at hc
        exact (hfirst c hc hk).elim
      | some user =>
        simp only [] at hc ⊢
        cases h2 : user.password with
        | none => rfl
        | some hashed =>
          rw [h2] at hc
          simp only [generateToken_eq] at hc ⊢
          by_cases h3 : env.compare (asString (req.body "password")) hashed = true
          · simp only [h3, if_true, List.mem_cons, List.mem_singleton, List.not_mem_nil,
              or_false] at hc
            rcases hc with hc | hc | hc
            · exact (hfirst c hc hk).elim
            · subst hc
              simp [AuthCall.kind] at hk
            · subst hc
              simp [AuthCall.kind] at hk
          · simp only [h3, if_false, Bool.false_eq_true, List.mem_cons, List.mem_singleton,
              List.not_mem_nil, or_false] at hc
            rcases hc with hc | hc
            · exact (hfirst c hc hk).elim
            · subst hc
              simp [AuthCall.kind] at hk
  · simp only [hv, ne_eq, not_false_eq_true, if_true] at hc
    simp at hc

theorem getProfile_fault (store : UserStore) (req : Req) (c : AuthCall) (k : UserOp)
    (hc : c ∈ (getProfile store req).calls) (hk : c.kind = some k)
    (hf : (store.faultOf k).isSome = true) :
    (getProfile store req).response = failure 500 "Server error fetching profile" := by
  obtain ⟨e, he⟩ := Option.isSome_iff_exists.mp hf
  unfold getProfile at hc ⊢
  cases hu : req.user with
  | none => rfl
  | some caller =>
    rw [hu] at hc
    simp only [] at hc ⊢
    cases h1 : store.findById (some caller.id) with
    | error e1 => rfl
    | ok o =>
      rw [h1] at hc
      have hcc : c = .findById caller.id := by
        cases o <;> simpa using hc
      subst hcc
      simp only [AuthCall.kind, Option.some.injEq] at hk
      subst hk
      rw [userFindById_of_fault store _ e he] at h1
      cases h1

theorem updateProfile_finish_fault (store : UserStore) (id : String) (f : UpdateFields)
    (before : List AuthCall)
    (hbefore : ∀ c ∈ before, ∀ k, c.kind = some k → store.faultOf k = none)
    (c : AuthCall) (k : UserOp)
    (hc : c ∈ (match store.findByIdAndUpdate id f with
      | Except.error _ =>
        ({ response := failure 500 "Server error updating profile", store := store,
           calls := before ++ [AuthCall.findByIdAndUpdate id f] } : AuthResult)
      | Except.ok (none, store1) =>
        { response := failure 404 "User not found", store := store1,
          calls := before ++ [AuthCall.findByIdAndUpdate id f] }
      | Except.ok (some user, store1) =>
        { response :=
            { status := 200,
              body := [("success", .bool true),
                       ("message", .str "Profile updated successfully"),
                       ("data", .obj [("id", .str user._id), ("name", .str user.name),
                                      ("email", .str user.email)])] },
          store := store1,
          calls := before ++ [AuthCall.findByIdAndUpdate id f] }).calls)
    (hk : c.kind = some k) (hf : (store.faultOf k).isSome = true) :
    (match store.findByIdAndUpdate id f with
      | Except.error _ =>
        ({ response := failure 500 "Server error updating profile", store := store,
           calls := before ++ [AuthCall.findByIdAndUpdate id f] } : AuthResult)
      | Except.ok (none, store1) =>
        { response := failure 404 "User not found", store := store1,
          calls := before ++ [AuthCall.findByIdAndUpdate id f] }
      | Except.ok (some user, store1) =>
        { response :=
            { status := 200,
              body := [("success", .bool true),
                       ("message", .str "Profile updated successfully"),
                       ("data", .obj [("id", .str user._id), ("name", .str user.name),
                                      ("email", .str user.email)])] },
          store := store1,
          calls := before ++ [AuthCall.findByIdAndUpdate id f] }).response =
      failure 500 "Server error updating profile" := by
  obtain ⟨e, he⟩ := Option.isSome_iff_exists.mp hf
  cases h1 : store.findByIdAndUpdate id f with
  | error e1 => rfl
  | ok res =>
    obtain ⟨o, s1⟩ := res
    rw [h1] at hc
    have hmem : c ∈ before ++ [AuthCall.findByIdAndUpdate id f] := by
      cases o <;> exact hc
    rcases List.mem_append.mp hmem with hb | hl
    · have := hbefore c hb k hk
      rw [this] at he
      cases he
    · simp only [List.mem_singleton] at hl
      subst hl
      simp only [AuthCall.kind, Option.some.injEq] at hk
      subst hk
      rw [userFindByIdAndUpdate_of_fault store _ _ e he] at h1
      cases h1

theorem updateProfile_fault (store : UserStore) (req : Req) (c : AuthCall) (k : UserOp)
    (hc : c ∈ (updateProfile store req).calls) (hk : c.kind = some k)
    (hf : (store.faultOf k).isSome = true) :
    (updateProfile store req).response = failure 500 "Server error updating profile" := by
  obtain ⟨e, he⟩ := Option.isSome_iff_exists.mp hf
  unfold updateProfile at hc ⊢
  by_cases hv : req.validationErrors = []
  · simp only [hv, ne_eq, not_true_eq_false, if_false] at hc ⊢
    cases hu : req.user with
    | none => rfl
    | some caller =>
      rw [hu] at hc
      simp only [] at hc ⊢
      by_cases hem : truthy (req.body "email") = true
      · simp only [hem, if_true] at hc ⊢
        cases h1 : store.findOneOther (req.body "email") caller.id with
        | error e1 => rfl
        | ok o =>
          rw [h1] at hc
          have hnofault : store.faultOf .findOne = none := by
            cases hff : store.faultOf .findOne with
            | none => rfl
            | some e1 =>
              rw [userFindOneOther_of_fault store _ _ e1 hff] at h1
              cases h1
          cases o with
          | some u =>
            simp only [List.mem_singleton] at hc
            subst hc
            simp only [AuthCall.kind, Option.some.injEq] at hk
            subst hk
            rw [hnofault] at he
            cases he
          | none =>
            refine updateProfile_finish_fault store caller.id _ _ ?_ c k hc hk hf
            intro c1 hc1 k1 hk1
            simp only [List.mem_singleton] at hc1
            subst hc1
            simp only [AuthCall.kind, Option.some.injEq] at hk1
            subst hk1
            exact hnofault
      · simp only [hem, if_false, Bool.false_eq_true] at hc ⊢
        refine updateProfile_finish_fault store caller.id _ _ ?_ c k hc hk hf
        intro c1 hc1
        simp at hc1
  · simp only [hv, ne_eq, not_false_eq_true, if_true] at hc
    simp at hc

/-- A handler other than the batch delete and the stats handler, one of whose store
operations rejects, answers 500 with the fixed message of the handler. -/
theorem runHandler_fault (env : Env) (rx : String → String → String → Bool)
    (newId : String) (now : Nat) (h : Handler) (w : World) (req : Req)
    (hb : h ≠ .batchDelete) (hs : h ≠ .stats) (op : StoreOp)
    (hop : op ∈ (runHandler env rx newId now h w req).ops) (hrej : w.rejects op = true) :
    ∃ msg ∈ serverErrorMessages,
      (runHandler env rx newId now h w req).response = failure 500 msg := by
  have htask : ∀ r : HandlerResult, op ∈ (Served.ofTasks w r).ops →
      ∃ c ∈ r.calls, (w.tasks.faultOf c.kind).isSome = true := by
    intro r hr
    simp only [Served.ofTasks, List.mem_map] at hr
    obtain ⟨c, hc, hco⟩ := hr
    subst hco
    exact ⟨c, hc, hrej⟩
  have huser : ∀ r : AuthResult, op ∈ (Served.ofUsers w r).ops →
      ∃ c ∈ r.calls, ∃ k, c.kind = some k ∧ (w.users.faultOf k).isSome = true := by
    intro r hr
    simp only [Served.ofUsers, List.mem_filterMap] at hr
    obtain ⟨c, hc, hco⟩ := hr
    cases hk : c.kind with
    | none => simp [hk] at hco
    | some k =>
      simp only [hk, Option.map_some', Option.some.injEq] at hco
      subst hco
      exact ⟨c, hc, k, hk, hrej⟩
  cases h with
  | register =>
    obtain ⟨c, hc, k, hk, hf⟩ := huser _ hop
    exact ⟨_, by decide, register_fault env newId now w.users req c k hc hk hf⟩
  | login =>
    obtain ⟨c, hc, k, hk, hf⟩ := huser _ hop
    exact ⟨_, by decide, login_fault env now w.users req c k hc hk hf⟩
  | logout =>
    obtain ⟨c, hc, -⟩ := huser _ hop
    simp [logout] at hc
  | getProfile =>
    obtain ⟨c, hc, k, hk, hf⟩ := huser _ hop
    exact ⟨_, by decide, getProfile_fault w.users req c k hc hk hf⟩
  | updateProfile =>
    obtain ⟨c, hc, k, hk, hf⟩ := huser _ hop
    exact ⟨_, by decide, updateProfile_fault w.users req c k hc hk hf⟩
  | listTasks =>
    obtain ⟨c, hc, hf⟩ := htask _ hop
    exact ⟨_, by decide, listTasks_fault rx w.tasks req c hc hf⟩
  | getTask =>
    obtain ⟨c, hc, hf⟩ := htask _ hop
    exact ⟨_, by decide, getTask_fault rx w.tasks req c hc hf⟩
  | createTask =>
    obtain ⟨c, hc, hf⟩ := htask _ hop
    exact ⟨_, by decide, createTask_fault newId now w.tasks req c hc hf⟩
  | updateTask =>
    obtain ⟨c, hc, hf⟩ := htask _ hop
    exact ⟨_, by decide, updateTask_fault rx now w.tasks req c hc hf⟩
  | deleteTask =>
    obtain ⟨c, hc, hf⟩ := htask _ hop
    exact ⟨_, by decide, deleteTask_fault rx w.tasks req c hc hf⟩
  | batchDelete => exact absurd rfl hb
  | stats => exact absurd rfl hs

/-- C21: for every request served through the auth, user and tasks routers: when a store
operation called by the handler the request is dispatched to rejects, the response is
500 with a body `{ success: false, message }` whose message is one of nine fixed texts;
and on two states of the stores that hold the same records and in which the same
operations reject - with whatever errors - the application writes the same response, so
no text of an error of a store reaches the client. The batch-delete and stats handlers,
which would answer with the text of the error, are registered behind `/:id` and answer
no request. -/
theorem store_failures_answered_generically (env : Env)
    (rx : String → String → String → Bool) (newId : String) (now : Nat) (m : Method)
    (url : String) (w₁ w₂ : World) (req : Req) (hw : sameButErrors w₁ w₂) :
    (∀ s, serve env rx newId now m url w₁ req = some s →
      (∃ op ∈ s.ops, w₁.rejects op = true) →
      s.response.status = 500 ∧
      ∃ msg ∈ serverErrorMessages,
        s.response.body = [("success", .bool false), ("message", .str msg)]) ∧
    (serve env rx newId now m url w₁ req).map (fun s => s.response) =
      (serve env rx newId now m url w₂ req).map (fun s => s.response) := by
  refine ⟨?_, serve_rel env rx newId now m url w₁ w₂ hw req⟩
  intro s hs ⟨op, hop, hrej⟩
  rcases serve_cases env rx newId now m url w₁ req s hs with ⟨-, hops⟩ | ⟨hd, req1, hb, hst, hr⟩
  · rw [hops] at hop
    simp at hop
  · subst hr
    obtain ⟨msg, hmsg, hresp⟩ := runHandler_fault env rx newId now hd w₁ req1 hb hst op hop hrej
    rw [hresp]
    exact ⟨rfl, msg, hmsg, rfl⟩

theorem store_failures_answered_generically_witness :
    sameButErrors (sampleWorld [(.find, "connect ECONNREFUSED 10.0.0.5:27017")])
      (sampleWorld [(.find, "pool destroyed")]) ∧
    serve sampleEnv noMatch "t9" 3000 .GET "/api/tasks"
        (sampleWorld [(.find, "connect ECONNREFUSED 10.0.0.5:27017")]) janeRequest =
      some { response := failure 500 "Server error fetching tasks",
             world := sampleWorld [(.find, "connect ECONNREFUSED 10.0.0.5:27017")],
             ops := [.task .find] } ∧
    (serve sampleEnv noMatch "t9" 3000 .GET "/api/tasks"
        (sampleWorld [(.find, "connect ECONNREFUSED 10.0.0.5:27017")]) janeRequest).map
        (fun s => s.response) =
      (serve sampleEnv noMatch "t9" 3000 .GET "/api/tasks"
        (sampleWorld [(.find, "pool destroyed")]) janeRequest).map (fun s => s.response) ∧
    (failure 500 "Server error fetching tasks").status = 500 :=
  ⟨⟨rfl, rfl, rfl, rfl⟩, by decide,
   (store_failures_answered_generically sampleEnv noMatch "t9" 3000 .GET "/api/tasks"
      (sampleWorld [(.find, "connect ECONNREFUSED 10.0.0.5:27017")])
      (sampleWorld [(.find, "pool destroyed")]) janeRequest ⟨rfl, rfl, rfl, rfl⟩).2,
   ((store_failures_answered_generically sampleEnv noMatch "t9" 3000 .GET "/api/tasks"
      (sampleWorld [(.find, "connect ECONNREFUSED 10.0.0.5:27017")])
      (sampleWorld [(.find, "pool destroyed")]) janeRequest ⟨rfl, rfl, rfl, rfl⟩).1
      { response := failure 500 "Server error fetching tasks",
        world := sampleWorld [(.find, "connect ECONNREFUSED 10.0.0.5:27017")],
        ops := [.task .find] }
      (by decide) ⟨.task .find, by decide, by decide⟩).1⟩


end TaskFlow
